import Mathlib

/-! Flood prediction dashboard: classification, ranking and the refresh cycle.

A shallow embedding of `www/js/app.js` and `www/js/app-debug.js`.

* JavaScript numbers that arrive through `response.json()` are modelled as rationals; a field
  that is absent reads as `undefined`, modelled as `none`.  JSON cannot carry `NaN`, so every
  number read from a body is ordered; a decimal literal of the source denotes its decimal value.
* Rendered HTML is modelled by the data that is interpolated into the template; a string that
  is interpolated (a name, a status) is text and not markup.
* `Array.prototype.sort` is the stable sort of ECMAScript 2019.
* The functions of `app.js` live in the namespace `FloodApp`, those of `app-debug.js` in
  `FloodApp.Debug`.
-/

namespace FloodApp

/-! ## Numbers -/

/-- JavaScript `x >= t` where `x` may be `undefined`: the comparison with `undefined` is false. -/
def jsGe (x : Option ℚ) (t : ℚ) : Bool :=
  match x with
  | none => false
  | some v => decide (t ≤ v)

/-- JavaScript `x > t` where `x` may be `undefined`. -/
def jsGt (x : Option ℚ) (t : ℚ) : Bool :=
  match x with
  | none => false
  | some v => decide (t < v)

/-- JavaScript `x - y`; `none` is `NaN`, the result when an operand is `undefined`. -/
def jsSub (x y : Option ℚ) : Option ℚ :=
  match x, y with
  | some a, some b => some (a - b)
  | _, _ => none

/-- JavaScript `x * k` for a numeric literal `k`; `none` is `NaN`. -/
def jsMul (x : Option ℚ) (k : ℚ) : Option ℚ :=
  x.map (fun v => v * k)

/-! ## Risk bands (app.js 563-566, app-debug.js 406-409) -/

/-- The CSS classes `risk-critical`, `risk-high`, `risk-medium`, `risk-low`, `risk-minimal`. -/
inductive RiskClass where
  | minimal
  | low
  | medium
  | high
  | critical
  deriving DecidableEq, Repr

/-- Severity rank of a band: minimal < low < medium < high < critical. -/
def RiskClass.severity : RiskClass → Nat
  | .minimal => 0
  | .low => 1
  | .medium => 2
  | .high => 3
  | .critical => 4

/-- The `riskClass` expression of `updateLocationsList` in app.js, on `data.risk_probability`. -/
def riskClass (risk_probability : Option ℚ) : RiskClass :=
  if jsGe risk_probability (75 / 100) then .critical
  else if jsGe risk_probability (6 / 10) then .high
  else if jsGe risk_probability (4 / 10) then .medium
  else if jsGe risk_probability (2 / 10) then .low
  else .minimal

/-- The `riskClass` expression of `updateLocationsList` in app-debug.js. -/
def Debug.riskClass (risk_probability : Option ℚ) : RiskClass :=
  if jsGe risk_probability (75 / 100) then .critical
  else if jsGe risk_probability (6 / 10) then .high
  else if jsGe risk_probability (4 / 10) then .medium
  else if jsGe risk_probability (2 / 10) then .low
  else .minimal

/-! ## Data read from the prediction service -/

/-- One `MechanismRisk`, the value of an entry of `flood_risk_profile`.  The two fields the code
calls a method on are optional: `none` is a field the body does not carry. -/
structure MechanismRisk where
  risk_percentage : Option ℚ
  severity_level : Option String
  description : String
  flood_degree : String
  estimated_depth : String
  typical_damage : String
  deriving DecidableEq, Repr

/-- An element of `Object.entries(flood_risk_profile)`: the pair `[key, value]`. -/
abbrev ProfileEntry := String × MechanismRisk

/-- The object `flood_risk_profile`, given by `Object.entries` of it: its entries in the
iteration order of the mapping. -/
abbrev FloodRiskProfile := List ProfileEntry

/-- The object `geographic_factors` of a prediction body. -/
structure GeographicFactors where
  elevation_m : Option ℚ
  distance_to_river_km : Option ℚ
  topography : String
  drainage_quality : String
  interpolated : Bool
  deriving DecidableEq, Repr

/-- The body of `/api/predict/...` after `response.json()`, read through the fields the code
touches.  `error` is the optional `error` field; `none` for an object field or a number field
is a field that is absent. -/
structure PredictionData where
  error : Option String
  location : String
  risk_probability : Option ℚ
  status : String
  current_rainfall : Option ℚ
  current_water_level : Option ℚ
  geographic_factors : Option GeographicFactors
  flood_risk_profile : Option FloodRiskProfile
  deriving DecidableEq, Repr

/-- An element of the array served by `/api/locations`. -/
structure Location where
  name : String
  lat : ℚ
  lon : ℚ
  threshold : ℚ
  deriving DecidableEq, Repr

/-! ## Ranking a flood risk profile -/

/-- The value `Array.prototype.sort` takes from its comparator is positive: `NaN` counts as `+0`. -/
def comparePositive (v : Option ℚ) : Bool :=
  match v with
  | none => false
  | some x => decide (0 < x)

/-- Places `a`, which stood before every element of the sorted `l`, behind the elements that the
comparator orders before it. -/
def sortInsert {α : Type} (comparefn : α → α → Option ℚ) (a : α) : List α → List α
  | [] => [a]
  | b :: l => if comparePositive (comparefn a b) then b :: sortInsert comparefn a l else a :: b :: l

/-- The method `Array.prototype.sort(comparefn)`: ECMAScript requires a stable sort, in which `a`
ends behind `b` when `comparefn(a, b) > 0` and elements that compare equal keep their order.  For a
comparator that is a consistent ordering every such sort returns the arrangement computed here. -/
def arraySort {α : Type} (comparefn : α → α → Option ℚ) : List α → List α
  | [] => []
  | a :: l => sortInsert comparefn a (arraySort comparefn l)

/-- The comparator `(a, b) => b[1].risk_percentage - a[1].risk_percentage`. -/
def byRiskPercentage (a b : ProfileEntry) : Option ℚ :=
  jsSub b.2.risk_percentage a.2.risk_percentage

/-- The constant `sortedTypes` of `updateFloodRiskProfile` (app.js 791). -/
def sortedTypes (floodTypes : FloodRiskProfile) : List ProfileEntry :=
  arraySort byRiskPercentage floodTypes

/-- The constant `highestRisk` of `updateLocationsList` (app.js 581-582):
`Object.entries(profiles).sort(...)[0]`, `undefined` for an empty array. -/
def highestRisk (profiles : FloodRiskProfile) : Option ProfileEntry :=
  (arraySort byRiskPercentage profiles).head?

/-- Entry `a` does not rank below entry `b`: both risk percentages are numbers and that of `a` is
at least that of `b`. -/
def RanksAtLeast (a b : ProfileEntry) : Prop :=
  ∃ x y, a.2.risk_percentage = some x ∧ b.2.risk_percentage = some y ∧ y ≤ x

/-- Entry `a` ranks strictly above entry `b`. -/
def RanksAbove (a b : ProfileEntry) : Prop :=
  ∃ x y, a.2.risk_percentage = some x ∧ b.2.risk_percentage = some y ∧ y < x

instance (a b : ProfileEntry) : Decidable (RanksAtLeast a b) :=
  match ha : a.2.risk_percentage, hb : b.2.risk_percentage with
  | some x, some y =>
    if h : y ≤ x then isTrue ⟨x, y, ha, hb, h⟩
    else isFalse fun ⟨_, _, hx, hy, hle⟩ =>
      h (by rw [ha] at hx; rw [hb] at hy; cases hx; cases hy; exact hle)
  | none, _ => isFalse fun ⟨_, _, hx, _, _⟩ => by rw [ha] at hx; cases hx
  | some _, none => isFalse fun ⟨_, _, _, hy, _⟩ => by rw [hb] at hy; cases hy

instance (a b : ProfileEntry) : Decidable (RanksAbove a b) :=
  match ha : a.2.risk_percentage, hb : b.2.risk_percentage with
  | some x, some y =>
    if h : y < x then isTrue ⟨x, y, ha, hb, h⟩
    else isFalse fun ⟨_, _, hx, hy, hlt⟩ =>
      h (by rw [ha] at hx; rw [hb] at hy; cases hx; cases hy; exact hlt)
  | none, _ => isFalse fun ⟨_, _, hx, _, _⟩ => by rw [ha] at hx; cases hx
  | some _, none => isFalse fun ⟨_, _, _, hy, _⟩ => by rw [hb] at hy; cases hy

/-- A `MechanismRisk` whose risk percentage is `pct`, the other fields as in a served entry. -/
def mechanismRisk (pct : ℚ) : MechanismRisk :=
  { risk_percentage := some pct, severity_level := some "High", description := "",
    flood_degree := "", estimated_depth := "", typical_damage := "" }

/-! ## The network -/

/-- What a `catch` clause receives. -/
inductive JsError where
  /-- The promise of `fetch` rejected: there is no response. -/
  | failedToFetch
  /-- The promise of `response.json()` rejected: the body is not JSON. -/
  | invalidJson
  /-- The `new Error` thrown on `!response.ok`, with its prefix and the status code. -/
  | http (api : String) (status : Nat)
  /-- A `TypeError`: a member read on `undefined` or `null`, or a call of what is no function. -/
  | typeError
  /-- A `new Error(message)` with a message of its own, as `new Error(data.error)`. -/
  | domain (message : String)
  deriving DecidableEq, Repr

/-- What `await response.json()` yields. -/
inductive Body (β : Type) where
  /-- The body is not JSON: the promise rejects. -/
  | invalid
  /-- The body is the JSON value `null`. -/
  | null
  /-- The body is a JSON value, read through the fields of `β`. -/
  | value (v : β)
  deriving DecidableEq, Repr

/-- What `await fetch(url)` yields. -/
inductive Fetched (β : Type) where
  /-- The promise rejects: a network error. -/
  | rejected
  /-- A response with its status code and its body. -/
  | response (status : Nat) (body : Body β)
  deriving DecidableEq, Repr

/-- The property `response.ok`: the status is in the range 200-299. -/
def responseOk (status : Nat) : Bool :=
  decide (200 ≤ status) && decide (status ≤ 299)

/-- The body of `/api/status`. -/
structure SystemStatus where
  models_loaded : Bool
  monitored_locations : Nat
  last_update : String
  deriving DecidableEq, Repr

/-- The body of `/api/locations`: an array of locations, or a JSON value that is no array and has
no `length` (an object, a number, a boolean). -/
inductive LocationsBody where
  | array (locations : List Location)
  | nonArray
  deriving DecidableEq, Repr

/-- An element of the `alerts` array. -/
structure Alert where
  location : String
  timestamp : String
  risk_probability : Option ℚ
  alert_type : String
  deriving DecidableEq, Repr

/-- The body of `/api/alerts`; `alerts` is `none` when the object has no such field. -/
structure AlertsBody where
  alerts : Option (List Alert)
  deriving DecidableEq, Repr

/-- An element of the `history` array of `/api/history/{name}`. -/
structure HistoryPoint where
  date : String
  probability : Option ℚ
  deriving DecidableEq, Repr

/-- The body of `/api/history/{name}`; `history` is `none` when the object has no such field. -/
structure HistoryBody where
  history : Option (List HistoryPoint)
  deriving DecidableEq, Repr

/-- The paths the two scripts request. -/
inductive Endpoint where
  | status
  | locations
  | alerts
  | predict (name : String)
  | predictCoordinates (lat lon : ℚ)
  | history (name : String)
  deriving DecidableEq, Repr

/-- One call of `fetch`: the base URL and the path. -/
structure Request where
  baseUrl : String
  endpoint : Endpoint
  deriving DecidableEq, Repr

/-- The remote side.  The first argument of each field is the number of requests the page has
issued before the one being answered, so that two requests to one path may be answered
differently. -/
structure Network where
  status : Nat → Fetched SystemStatus
  locations : Nat → Fetched LocationsBody
  alerts : Nat → Fetched AlertsBody
  predict : Nat → String → Fetched PredictionData
  predictCoordinates : Nat → ℚ → ℚ → Fetched PredictionData
  history : Nat → String → Fetched HistoryBody

/-- `API_CONFIG.PRODUCTION` (app.js 9). -/
def PRODUCTION : String := "https://ai-flood-prediction-system.onrender.com"

/-- `API_CONFIG.DEVELOPMENT` (app.js 11). -/
def DEVELOPMENT : String := "http://192.168.1.164:10000"

/-- `API_CONFIG.ENV` (app.js 13). -/
def ENV : String := "production"

/-- `API_BASE_URL` (app.js 17). -/
def API_BASE_URL : String := if ENV = "production" then PRODUCTION else DEVELOPMENT

/-- The constant `BASE_URL` local to `loadDashboardData` (app.js 279). -/
def BASE_URL : String := "http://192.168.1.164:10000"

/-- `API_BASE` (app-debug.js 11). -/
def Debug.API_BASE : String := "http://192.168.1.164:10000"

/-! ## The page -/

/-- The `L.divIcon` set on a marker by `updateLocationsList`. -/
structure MarkerIcon where
  markerColor : String
  markerSize : Option ℚ
  pulse : Bool
  deriving DecidableEq, Repr

/-- The popup bound to a marker. -/
inductive MarkerPopup where
  /-- Bound by `updateLocationsMap`: name and flood threshold. -/
  | threshold (name : String) (threshold : ℚ)
  /-- Bound by `updateLocationsList`: name, colour, status, risk level (times 100, shown with no
  decimals), elevation and drainage (`none` shows `N/A`), and the `Primary Risk` line. -/
  | risk (name : String) (markerColor : String) (status : String) (riskLevel : Option ℚ)
      (elevation : Option (Option ℚ)) (drainage : Option String) (primaryRisk : Option String)
  deriving DecidableEq, Repr

/-- A Leaflet marker object; `id` is its identity. -/
structure Marker where
  id : Nat
  lat : ℚ
  lon : ℚ
  icon : Option MarkerIcon
  popup : MarkerPopup
  deriving DecidableEq, Repr

/-- The `geoInfo` line of a list row. -/
inductive GeoInfo where
  | elevationRiver (elevation_m : Option ℚ) (distance_to_river_km : Option ℚ)
  | rainfallWater (current_rainfall : ℚ) (current_water_level : ℚ)
  deriving DecidableEq, Repr

/-- What a data row shows besides name and badge.  app.js shows the `geoInfo` line, the
topography and drainage line when `geographic_factors` is there, and the `Primary:` line
(label and risk percentage); app-debug.js shows `Risk: ..% | Status: ..` only. -/
inductive RowDetails where
  | full (geoInfo : GeoInfo) (terrain : Option (String × String)) (primary : Option (String × ℚ))
  | brief
  deriving DecidableEq, Repr

/-- A child of the element `locationsList`. -/
inductive ListChild where
  /-- The placeholder `<div class="loading">`. -/
  | loading
  /-- A `location-item` with a `risk-badge` of class `riskClass`; `percent` is
  `risk_probability * 100`, shown with no decimals (`none` shows `NaN`). -/
  | location (name : String) (details : RowDetails) (riskClass : RiskClass) (status : String)
      (percent : Option ℚ)
  /-- A `location-item` in the error state: grey badge with the text `badge`; `detail` is the
  error whose message the row shows, `none` for the fixed text `Error loading data`. -/
  | failed (name : String) (badge : String) (detail : Option JsError)
  deriving DecidableEq, Repr

/-- A child of the element `alertsList`. -/
inductive AlertChild where
  /-- The placeholder `No recent alerts`. -/
  | noAlerts
  /-- An `alert-item`: extra class, icon word, location, timestamp, `risk_probability * 100`. -/
  | alert (alertClass : Option String) (alertIcon : String) (location : String)
      (timestamp : String) (percent : Option ℚ)
  deriving DecidableEq, Repr

/-- A `flood-risk-item` of the profile panel. -/
structure FloodRiskItem where
  severityClass : String
  typeName : String
  risk_percentage : ℚ
  description : String
  flood_degree : String
  estimated_depth : String
  typical_damage : String
  deriving DecidableEq, Repr

/-- The content of the element `floodRiskProfile`. -/
inductive ProfilePanel where
  /-- What the page shows before any update. -/
  | initial
  /-- The placeholder `No detailed flood risk profile available for this location.` -/
  | unavailable
  /-- The heading (location name, overall risk times 100, status) and the items. -/
  | analysis (locationName : String) (overall : Option ℚ) (status : String)
      (items : List FloodRiskItem)
  deriving DecidableEq, Repr

/-- The content of the popup the click handler fills after a prediction (app.js 132-147). -/
structure PredictionPopup where
  location : String
  riskColor : String
  status : String
  /-- The value `risk_probability * 100`, shown with no decimals. -/
  percent : Option ℚ
  rainfall : ℚ
  waterLevel : ℚ
  elevation : ℚ
  riverDistance : ℚ
  /-- The `Primary Risk` line: its label, or the empty string (`none`). -/
  primaryRiskInfo : Option String
  interpolated : Bool
  deriving DecidableEq, Repr

/-- What a popup of the click handler shows. -/
inductive PopupContent where
  /-- The text `Location Outside Bangladesh`. -/
  | outside
  /-- The text `Loading prediction...`. -/
  | loading
  | prediction (content : PredictionPopup)
  /-- The text `Error loading prediction` with the message of the error. -/
  | error (error : JsError)
  /-- The popup bound to a marker, opened by `openPopup`. -/
  | marker (popup : MarkerPopup)
  deriving DecidableEq, Repr

/-- A popup opened on the map at a position. -/
structure Popup where
  lat : ℚ
  lon : ℚ
  content : PopupContent
  deriving DecidableEq, Repr

/-- An element with a text and a colour. -/
structure TextElement where
  text : String
  color : Option String
  deriving DecidableEq, Repr

/-- What happens to a request: it is issued by the call of `fetch`, and it has settled when the
promise of that call resolves with a response or rejects. -/
inductive FetchEvent where
  | issued (request : Request)
  | settled (request : Request)
  deriving DecidableEq, Repr

/-- The labels and the data of the one dataset of the chart `riskChart`. -/
structure ChartData where
  labels : List String
  data : List (Option ℚ)
  deriving DecidableEq, Repr

/-- A call `map.setView([lat, lon], zoom)`. -/
structure MapView where
  lat : ℚ
  lon : ℚ
  zoom : Nat
  deriving DecidableEq, Repr

/-- The globals of a script and the part of the document it writes.  A field of type
`Option` that stands for an element is `none` when the document has no such element. -/
structure Page where
  /-- Every `fetch` issued so far, oldest first. -/
  requests : List Request
  /-- The global `map`: `none` before `initializeMap` has set it, else the markers on the map. -/
  map : Option (List Marker)
  /-- The own properties of the global `markers`, in the order of their creation. -/
  markers : List (String × Marker)
  /-- The prototype of the global `markers` where an assignment to the key `__proto__` has made
  a marker the prototype; `none` for `Object.prototype`, the prototype of `{}`. -/
  markersProto : Option Marker
  /-- The identity the next `L.marker` gets. -/
  nextMarker : Nat
  systemStatus : Option TextElement
  locationsCount : Option String
  lastUpdate : Option String
  locationsList : Option (List ListChild)
  alertsList : Option (List AlertChild)
  floodRiskProfile : Option ProfilePanel
  /-- The element of class `connection-error` made by `showConnectionError`, with the error whose
  message it shows. -/
  connectionError : Option JsError
  /-- The dialog of `showError` in app-debug.js, with the error whose message it shows. -/
  errorDialog : Option JsError
  /-- The element `loading-message` of app-debug.js. -/
  loadingMessage : Bool
  /-- The popup the click handler has opened on the map. -/
  popup : Option Popup
  /-- The global `riskChart`: `none` while `initializeChart` has not set it, else what the chart
  shows. -/
  riskChart : Option ChartData
  /-- The calls of `map.setView` issued on the map since it was created, oldest first. -/
  views : List MapView
  /-- The issues and the settlements of the requests, in the order in which they happen. -/
  events : List FetchEvent

/-- The page as the document delivers it, before any script has run. -/
def Page.initial : Page :=
  { requests := [], map := none, markers := [], markersProto := none, nextMarker := 0,
    systemStatus := some { text := "", color := none }, locationsCount := some "",
    lastUpdate := some "", locationsList := some [], alertsList := some [],
    floodRiskProfile := some .initial, connectionError := none, errorDialog := none,
    loadingMessage := false, popup := none, riskChart := none, views := [], events := [] }

/-- How a block of statements ends: the page it leaves, and the error if it threw. -/
structure Outcome where
  page : Page
  thrown : Option JsError

/-- The expression `await fetch(request)`: the request is issued, and the block that awaits it
goes on only when it has settled. -/
def Page.fetch (s : Page) (request : Request) : Page :=
  { s with
    requests := s.requests ++ [request]
    events := s.events ++ [.issued request, .settled request] }

/-- Runs `next` on the page a block leaves, unless the block threw. -/
def Outcome.andThen (o : Outcome) (next : Page → Outcome) : Outcome :=
  match o.thrown with
  | none => next o.page
  | some _ => o

/-- The call `initializeMap()` of app.js (31-163), as far as the globals go: it sets `map`. -/
def initializeMap (s : Page) : Page :=
  { s with map := some [] }

/-! ## app.js: rendering -/

/-- The call `updateSystemStatus(data)` (app.js 512-527); `none` is the body `null`, on which the
first member access, made once one of the three elements is found, throws. -/
def updateSystemStatus (data : Option SystemStatus) (s : Page) : Outcome :=
  match data with
  | none =>
    if s.systemStatus.isSome || s.locationsCount.isSome || s.lastUpdate.isSome then
      ⟨s, some .typeError⟩
    else ⟨s, none⟩
  | some data =>
    ⟨{ s with
        systemStatus := s.systemStatus.map fun el =>
          { el with text := if data.models_loaded then "Operational" else "Limited" }
        locationsCount := s.locationsCount.map fun _ => toString data.monitored_locations
        lastUpdate := s.lastUpdate.map fun _ => data.last_update }, none⟩

/-- The marker `L.marker([lat, lon]).bindPopup(...)` of `updateLocationsMap`. -/
def newMarker (location : Location) (id : Nat) : Marker :=
  { id := id, lat := location.lat, lon := location.lon, icon := none,
    popup := .threshold location.name location.threshold }

/-- The names of the members an object literal inherits from `Object.prototype`: a read
`table[key]` with one of them as `key` finds the member when the literal has no such key. -/
def objectPrototype : List String :=
  ["constructor", "__defineGetter__", "__defineSetter__", "hasOwnProperty", "__lookupGetter__",
    "__lookupSetter__", "isPrototypeOf", "propertyIsEnumerable", "toString", "valueOf",
    "__proto__", "toLocaleString"]

/-- What a template literal prints for the member `key` of `Object.prototype`, which is truthy:
under `__proto__` the prototype itself, printed `[object Object]`; else a built-in function,
printed as `function`, its name and `() { [native code] }` (the blanks are the engine's, here
those of V8; the function under `constructor` has the name `Object`).  `none` for every other
key. -/
def inheritedText (key : String) : Option String :=
  if key = "__proto__" then some "[object Object]"
  else if key = "constructor" then some "function Object() { [native code] }"
  else if key ∈ objectPrototype then some ("function " ++ key ++ "() { [native code] }")
  else none

/-- The own properties after the assignment `markers[name] = marker`: a key that exists keeps
its place, and the key `__proto__` makes no own property (the assignment sets the prototype). -/
def setMarker (markers : List (String × Marker)) (name : String) (marker : Marker) :
    List (String × Marker) :=
  if name = "__proto__" then markers
  else if markers.any (fun e => e.1 == name) then
    markers.map fun e => if e.1 = name then (name, marker) else e
  else markers ++ [(name, marker)]

/-- The prototype after the assignment `markers[name] = marker`: the marker for the key
`__proto__`. -/
def setPrototype (proto : Option Marker) (name : String) (marker : Marker) : Option Marker :=
  if name = "__proto__" then some marker else proto

/-- The names of members of a Leaflet marker (`L.Marker` with `L.Layer`, `L.Evented` and
`L.Class`, Leaflet 1.x): its documented methods and the properties a marker on a map has.  A
read `markers[name]` finds them where a marker is the prototype of `markers`. -/
def markerMembers : List String :=
  ["options", "_latlng", "_leaflet_id", "_map", "_icon", "_popup", "_events", "initialize",
    "callInitHooks", "getLatLng", "setLatLng", "setZIndexOffset", "getIcon", "setIcon",
    "setOpacity", "toGeoJSON", "getElement", "onAdd", "onRemove", "getEvents", "update", "addTo",
    "remove", "removeFrom", "getPane", "addInteractiveTarget", "removeInteractiveTarget",
    "getAttribution", "bindPopup", "unbindPopup", "openPopup", "closePopup", "togglePopup",
    "isPopupOpen", "setPopupContent", "getPopup", "bindTooltip", "unbindTooltip", "openTooltip",
    "closeTooltip", "toggleTooltip", "isTooltipOpen", "setTooltipContent", "getTooltip", "on",
    "off", "fire", "listens", "once", "addEventParent", "removeEventParent", "addEventListener",
    "removeEventListener", "clearAllEventListeners", "addOneTimeEventListener", "fireEvent",
    "hasEventListeners"]

/-- What a read `markers[name]` yields when it is not `undefined`. -/
inductive Member where
  /-- A marker: an own property, or the prototype under the key `__proto__`. -/
  | marker (marker : Marker)
  /-- An inherited member that is no marker, a function or an object: it is truthy and has
  neither `setIcon` nor `openPopup`. -/
  | other
  deriving DecidableEq, Repr

/-- The marker a member is, if it is one. -/
def Member.toMarker : Member → Option Marker
  | .marker found => some found
  | .other => none

/-- The read `markers[name]`: the own property; else what the prototype chain has under the
name, which ends in `Object.prototype`; else `undefined` (`none`). -/
def getMarker (markers : List (String × Marker)) (proto : Option Marker) (name : String) :
    Option Member :=
  match markers.find? fun e => e.1 == name with
  | some e => some (.marker e.2)
  | none =>
    if name = "__proto__" then
      match proto with
      | some marker => some (.marker marker)
      | none => some .other
    else if name ∈ objectPrototype then some .other
    else if proto.isSome && decide (name ∈ markerMembers) then some .other
    else none

/-- The body of the `locations.forEach` of `updateLocationsMap`, on a page whose map is set. -/
def addLocationMarker (s : Page) (location : Location) : Page :=
  let marker := newMarker location s.nextMarker
  { s with
    map := s.map.map fun layers => layers ++ [marker]
    markers := setMarker s.markers location.name marker
    markersProto := setPrototype s.markersProto location.name marker
    nextMarker := s.nextMarker + 1 }

/-- The call `updateLocationsMap(locations)` (app.js 529-546).  `Object.values(markers)` are
the own properties; `markers = {}` makes a new object.  With `map` unset the first call on it
throws; a value that is no array has no `forEach`. -/
def updateLocationsMap (locations : LocationsBody) (s : Page) : Outcome :=
  match s.map with
  | none =>
    if s.markers.isEmpty then
      match locations with
      | .array [] => ⟨{ s with markersProto := none }, none⟩
      | _ => ⟨{ s with markersProto := none }, some .typeError⟩
    else ⟨s, some .typeError⟩
  | some layers =>
    let cleared : Page :=
      { s with
        map := some (layers.filter fun m => !(s.markers.any fun e => e.2.id == m.id))
        markers := []
        markersProto := none }
    match locations with
    | .nonArray => ⟨cleared, some .typeError⟩
    | .array locations => ⟨locations.foldl addLocationMarker cleared, none⟩

/-- The table `typeNames` of `updateLocationsList` (app.js 586-591) in
`typeNames[riskType] || riskType`. -/
def listTypeName (riskType : String) : String :=
  if riskType = "riverine" then "River Overflow"
  else if riskType = "urban_drainage" then "Drainage Issues"
  else if riskType = "flash" then "Flash Flood"
  else if riskType = "tidal" then "Coastal/Tidal"
  else (inheritedText riskType).getD riskType

/-- Replaces the first `_` of a list of characters by a blank. -/
def replaceFirstUnderscore : List Char → List Char
  | [] => []
  | c :: cs => if c = '_' then ' ' :: cs else c :: replaceFirstUnderscore cs

/-- The call `s.replace('_', ' ')`: the first underscore becomes a blank. -/
def replaceUnderscore (s : String) : String :=
  String.mk (replaceFirstUnderscore s.data)

/-- The constant `geoInfo` (app.js 573-575); `toFixed` on a reading that is absent throws. -/
def geoInfo (data : PredictionData) : Except JsError GeoInfo :=
  match data.geographic_factors with
  | some g => .ok (.elevationRiver g.elevation_m g.distance_to_river_km)
  | none =>
    match data.current_rainfall, data.current_water_level with
    | some rainfall, some level => .ok (.rainfallWater rainfall level)
    | _, _ => .error .typeError

/-- The variable `riskProfileHtml` (app.js 578-598): the `Primary:` line, label and risk
percentage, or the empty string (`none`); `toFixed` on a percentage that is absent throws. -/
def riskProfileHtml (data : PredictionData) : Except JsError (Option (String × ℚ)) :=
  match data.flood_risk_profile with
  | none => .ok none
  | some profiles =>
    match highestRisk profiles with
    | none => .ok none
    | some (riskType, riskData) =>
      match riskData.risk_percentage with
      | none => .error .typeError
      | some pct => .ok (some (listTypeName riskType, pct))

/-- The element `locationElement` of the `try` block (app.js 563-616). -/
def locationElement (location : Location) (data : PredictionData) : Except JsError ListChild :=
  match geoInfo data with
  | .error e => .error e
  | .ok info =>
    match riskProfileHtml data with
    | .error e => .error e
    | .ok primary =>
      .ok (.location location.name
        (.full info (data.geographic_factors.map fun g => (g.topography, g.drainage_quality))
          primary)
        (riskClass data.risk_probability) data.status (jsMul data.risk_probability 100))

/-! ### Markup in a row

A row is built by an assignment to `innerHTML` of a template with strings of the server in it,
and `container.querySelector('.loading')` looks at every descendant of the list. -/

/-- The start or end tag the tokenizer is reading: whether it is an end tag, and what its first
attribute `class` says, `none` while the tag has none, else whether the value has the word
`loading`. -/
structure Tag where
  isEnd : Bool
  loading : Option Bool
  deriving DecidableEq, Repr

/-- Where the tokenizer stands inside a comment. -/
inductive CommentPhase where
  /-- After `<!--`. -/
  | start
  /-- After `<!---`. -/
  | startDash
  | text
  /-- After a `-` in the text. -/
  | endDash
  /-- After `--` in the text. -/
  | closing
  /-- After `--!` in the text. -/
  | closingBang
  deriving DecidableEq, Repr

/-- The states of the HTML tokenizer that tell tags from text and read the attributes of a
tag. -/
inductive Tokenizer where
  | data
  /-- After `<`. -/
  | tagOpen
  /-- After `</`. -/
  | endTagOpen
  /-- Inside `<?...>`, `<!...>` or `</` followed by no letter: up to the next `>`. -/
  | bogusComment
  /-- After `<!`, and whether one `-` has followed. -/
  | declaration (dash : Bool)
  | comment (phase : CommentPhase)
  | tagName (tag : Tag)
  | beforeAttributeName (tag : Tag)
  | attributeName (tag : Tag) (name : List Char)
  | afterAttributeName (tag : Tag) (name : List Char)
  | beforeAttributeValue (tag : Tag) (name : List Char)
  /-- Inside a value: in quotes of the kind `quote`, or bare (`none`). -/
  | attributeValue (tag : Tag) (name : List Char) (quote : Option Char) (value : List Char)
  /-- After `&` inside a value. -/
  | reference (tag : Tag) (name : List Char) (quote : Option Char) (value : List Char)
  /-- Inside a value, after `&` and the letters and digits `buffer`. -/
  | namedReference (tag : Tag) (name : List Char) (quote : Option Char) (value : List Char)
      (buffer : List Char)
  /-- Inside a value, after `&#`, and after the `x` or `X` that has followed, if one has. -/
  | numericStart (tag : Tag) (name : List Char) (quote : Option Char) (value : List Char)
      (hex : Option Char)
  /-- Inside a value, in the digits of a numeric reference to the base `base`, `code` so far. -/
  | numeric (tag : Tag) (name : List Char) (quote : Option Char) (value : List Char)
      (base code : Nat)
  | afterAttributeValue (tag : Tag)
  /-- After `/` inside a tag. -/
  | selfClosing (tag : Tag)
  deriving DecidableEq, Repr

/-- ASCII whitespace: tab, line feed, form feed, carriage return, space. -/
def isSpace (c : Char) : Bool :=
  c = Char.ofNat 9 || c = Char.ofNat 10 || c = Char.ofNat 12 || c = Char.ofNat 13 ||
    c = Char.ofNat 32

/-- Whether `word` is one of the words of a value, which whitespace separates; `current` is
the word being read. -/
def hasWord (word : List Char) : List Char → List Char → Bool
  | current, [] => current == word
  | current, c :: cs =>
    if isSpace c then current == word || hasWord word [] cs
    else hasWord word (current ++ [c]) cs

/-- The tag after the attribute `name` with the value `value` has been read: the first
attribute `class` counts. -/
def Tag.close (tag : Tag) (name value : List Char) : Tag :=
  if tag.loading.isNone && name == "class".data then
    { tag with loading := some (hasWord "loading".data [] value) }
  else tag

/-- The tag is complete: `none` when it is a start tag of class `loading`, which makes an
element the selector `.loading` matches; else the tokenizer reads text again. -/
def Tag.emit (tag : Tag) : Option Tokenizer :=
  if !tag.isEnd && tag.loading == some true then none else some .data

/-- The value of a digit to the base 10 or 16. -/
def digitValue (base : Nat) (c : Char) : Option Nat :=
  if c.isDigit then some (c.toNat - 48)
  else if base = 16 && decide (97 ≤ c.toNat) && decide (c.toNat ≤ 102) then some (c.toNat - 87)
  else if base = 16 && decide (65 ≤ c.toNat) && decide (c.toNat ≤ 70) then some (c.toNat - 55)
  else none

/-- The character a numeric reference to `code` stands for: U+FFFD for zero, for a surrogate and
past U+10FFFF.  A code from 128 to 159 stands for a character of Windows-1252, none of them an
ASCII one; U+FFFD stands here for each. -/
def referenceChar (code : Nat) : Char :=
  if code = 0 || decide (1114111 < code) || (decide (55296 ≤ code) && decide (code ≤ 57343)) ||
      (decide (128 ≤ code) && decide (code ≤ 159)) then
    Char.ofNat 65533
  else Char.ofNat code

/-- One character inside a comment. -/
def commentStep : CommentPhase → Char → Tokenizer
  | .start, c =>
    if c = '-' then .comment .startDash else if c = '>' then .data else .comment .text
  | .startDash, c =>
    if c = '-' then .comment .closing else if c = '>' then .data else .comment .text
  | .text, c => if c = '-' then .comment .endDash else .comment .text
  | .endDash, c => if c = '-' then .comment .closing else .comment .text
  | .closing, c =>
    if c = '>' then .data else if c = '!' then .comment .closingBang
    else if c = '-' then .comment .closing else .comment .text
  | .closingBang, c =>
    if c = '-' then .comment .endDash else if c = '>' then .data else .comment .text

/-- One character inside the value of an attribute, or after it where a character reference
has ended without `;`. -/
def valueStep (tag : Tag) (name : List Char) (quote : Option Char) (value : List Char)
    (c : Char) : Option Tokenizer :=
  match quote with
  | some quote =>
    if c = quote then some (.afterAttributeValue (tag.close name value))
    else if c = '&' then some (.reference tag name (some quote) value)
    else some (.attributeValue tag name (some quote) (value ++ [c]))
  | none =>
    if isSpace c then some (.beforeAttributeName (tag.close name value))
    else if c = '&' then some (.reference tag name none value)
    else if c = '>' then (tag.close name value).emit
    else some (.attributeValue tag name none (value ++ [c]))

/-- One character of markup; `none` when a start tag of class `loading` is complete.  The rules
are those of the tokenizer of the HTML standard for text, comments and tags with their
attributes.  Names of attributes are lowered.  Of the character references in a value the
numeric ones and the two named ones that stand for ASCII whitespace, `&Tab;` and `&NewLine;`,
are resolved; every other named reference stands for characters that are neither whitespace nor
letters of `loading` and is left as written, which gives the same words of class `loading` or
not.  References in text make no tag. -/
def Tokenizer.step : Tokenizer → Char → Option Tokenizer
  | .data, c => some (if c = '<' then .tagOpen else .data)
  | .tagOpen, c =>
    if c = '!' then some (.declaration false)
    else if c = '/' then some .endTagOpen
    else if c.isAlpha then some (.tagName { isEnd := false, loading := none })
    else if c = '?' then some .bogusComment
    else if c = '<' then some .tagOpen
    else some .data
  | .endTagOpen, c =>
    if c.isAlpha then some (.tagName { isEnd := true, loading := none })
    else if c = '>' then some .data
    else some .bogusComment
  | .bogusComment, c => some (if c = '>' then .data else .bogusComment)
  | .declaration dash, c =>
    if c = '-' then some (if dash then .comment .start else .declaration true)
    else if c = '>' then some .data
    else some .bogusComment
  | .comment phase, c => some (commentStep phase c)
  | .tagName tag, c =>
    if isSpace c then some (.beforeAttributeName tag)
    else if c = '/' then some (.selfClosing tag)
    else if c = '>' then tag.emit
    else some (.tagName tag)
  | .beforeAttributeName tag, c =>
    if isSpace c then some (.beforeAttributeName tag)
    else if c = '/' then some (.selfClosing tag)
    else if c = '>' then tag.emit
    else some (.attributeName tag [c.toLower])
  | .attributeName tag name, c =>
    if isSpace c then some (.afterAttributeName tag name)
    else if c = '/' then some (.selfClosing (tag.close name []))
    else if c = '>' then (tag.close name []).emit
    else if c = '=' then some (.beforeAttributeValue tag name)
    else some (.attributeName tag (name ++ [c.toLower]))
  | .afterAttributeName tag name, c =>
    if isSpace c then some (.afterAttributeName tag name)
    else if c = '/' then some (.selfClosing (tag.close name []))
    else if c = '=' then some (.beforeAttributeValue tag name)
    else if c = '>' then (tag.close name []).emit
    else some (.attributeName (tag.close name []) [c.toLower])
  | .beforeAttributeValue tag name, c =>
    if isSpace c then some (.beforeAttributeValue tag name)
    else if c = Char.ofNat 34 || c = Char.ofNat 39 then
      some (.attributeValue tag name (some c) [])
    else if c = '>' then (tag.close name []).emit
    else some (.attributeValue tag name none [c])
  | .attributeValue tag name quote value, c => valueStep tag name quote value c
  | .reference tag name quote value, c =>
    if c.isAlphanum then some (.namedReference tag name quote value [c])
    else if c = '#' then some (.numericStart tag name quote value none)
    else valueStep tag name quote (value ++ ['&']) c
  | .namedReference tag name quote value buffer, c =>
    if c.isAlphanum then some (.namedReference tag name quote value (buffer ++ [c]))
    else if c = ';' && buffer == "Tab".data then
      some (.attributeValue tag name quote (value ++ [Char.ofNat 9]))
    else if c = ';' && buffer == "NewLine".data then
      some (.attributeValue tag name quote (value ++ [Char.ofNat 10]))
    else valueStep tag name quote (value ++ '&' :: buffer) c
  | .numericStart tag name quote value none, c =>
    if c = 'x' || c = 'X' then some (.numericStart tag name quote value (some c))
    else
      match digitValue 10 c with
      | some d => some (.numeric tag name quote value 10 d)
      | none => valueStep tag name quote (value ++ ['&', '#']) c
  | .numericStart tag name quote value (some x), c =>
    match digitValue 16 c with
    | some d => some (.numeric tag name quote value 16 d)
    | none => valueStep tag name quote (value ++ ['&', '#', x]) c
  | .numeric tag name quote value base code, c =>
    match digitValue base c with
    | some d => some (.numeric tag name quote value base (code * base + d))
    | none =>
      if c = ';' then some (.attributeValue tag name quote (value ++ [referenceChar code]))
      else valueStep tag name quote (value ++ [referenceChar code]) c
  | .afterAttributeValue tag, c =>
    if isSpace c then some (.beforeAttributeName tag)
    else if c = '/' then some (.selfClosing tag)
    else if c = '>' then tag.emit
    else some (.attributeName tag [c.toLower])
  | .selfClosing tag, c =>
    if c = '>' then tag.emit
    else if isSpace c then some (.beforeAttributeName tag)
    else if c = '/' then some (.selfClosing tag)
    else some (.attributeName tag [c.toLower])

/-- The state after the characters, `none` once a start tag of class `loading` is complete. -/
def Tokenizer.run : Tokenizer → List Char → Option Tokenizer
  | state, [] => some state
  | state, c :: cs =>
    match state.step c with
    | none => none
    | some next => next.run cs

/-- Whether the markup `innerHTML` has a start tag whose attribute `class` has the word
`loading`, written so (the document has a doctype, so that classes are matched by case): the
element it makes is one `querySelector('.loading')` matches.  Every start tag is taken to make
an element; the tags the tree builder drops or reads as text (parts of a table outside a table,
the content of `script`, `style`, `textarea`, `title` or `template`, a `CDATA` section inside
`svg` or `math`) are not told apart. -/
def querySelectorLoading (innerHTML : String) : Bool :=
  (Tokenizer.run .data innerHTML.data).isNone

/-- Stands for a number a template prints, by `toFixed` or as it is: digits, a sign, a point,
an exponent, `NaN` or `undefined`, which neither open nor close a tag, a quote or a word. -/
def numeral : String := "0"

/-- The class of the risk badge. -/
def RiskClass.className : RiskClass → String
  | .minimal => "risk-minimal"
  | .low => "risk-low"
  | .medium => "risk-medium"
  | .high => "risk-high"
  | .critical => "risk-critical"

/-- The property `message` of an error, as a row of app-debug.js prints it. -/
def JsError.message : JsError → String
  | .failedToFetch => "Failed to fetch"
  | .invalidJson => "Unexpected token in JSON"
  | .http api _ => api ++ " " ++ numeral
  | .typeError => "Cannot read properties of undefined"
  | .domain message => message

/-- The constant `geoInfo` as text (app.js 573-575). -/
def GeoInfo.text : GeoInfo → String
  | .elevationRiver _ _ => "Elevation: " ++ numeral ++ "m | River: " ++ numeral ++ "km"
  | .rainfallWater _ _ => "Rainfall: " ++ numeral ++ "mm | Water Level: " ++ numeral ++ "m"

/-- The template of the details of a row: for app.js the `geoInfo` line, the line of
topography and drainage and `riskProfileHtml` (app.js 592-611), for app-debug.js the line of
risk and status (app-debug.js 415-417). -/
def RowDetails.innerHTML (status : String) : RowDetails → String
  | .full geoInfo terrain primary =>
    "<div class=\"location-details\">\n" ++ geoInfo.text ++ "\n</div>\n" ++
      (match terrain with
        | some (topography, drainage_quality) =>
          "\n<div class=\"location-details\" style=\"font-size: 0.8rem; margin-top: 2px; " ++
            "opacity: 0.8;\">\n" ++ topography ++ " • " ++ drainage_quality ++
            " drainage\n</div>\n"
        | none => "") ++
      "\n" ++
      (match primary with
        | some (label, _) =>
          "\n<div class=\"location-details\" style=\"font-size: 0.75rem; margin-top: 3px; " ++
            "opacity: 0.9; color: #0F50A6;\">\nPrimary: " ++ label ++ " (" ++ numeral ++
            "% risk)\n</div>\n"
        | none => "") ++
      "\n"
  | .brief =>
    "<div class=\"location-details\">\nRisk: " ++ numeral ++ "% | Status: " ++ status ++
      "\n</div>\n"

/-- The markup assigned to `innerHTML` of a row (app.js 600-616 and 675-685, app-debug.js
411-422 and 435-445), runs of blanks in the template written as one line feed. -/
def ListChild.innerHTML : ListChild → String
  | .loading => ""
  | .location name details riskClass status _ =>
    "\n<div class=\"location-info\">\n<h4>" ++ name ++ "</h4>\n" ++
      details.innerHTML status ++ "</div>\n<div class=\"risk-badge " ++ riskClass.className ++
      "\">\n" ++
      (match details with
        | .full _ _ _ => status ++ " (" ++ numeral ++ "%)"
        | .brief => numeral ++ "%") ++
      "\n</div>\n"
  | .failed name badge detail =>
    "\n<div class=\"location-info\">\n<h4>" ++ name ++
      "</h4>\n<div class=\"location-details\" style=\"color: #e74c3c;\">\n" ++
      (match detail with
        | none => "Error loading data"
        | some error => "Error: " ++ error.message) ++
      "\n</div>\n</div>\n<div class=\"risk-badge\" style=\"background: #95a5a6; " ++
      "color: white;\">\n" ++ badge ++ "\n</div>\n"

/-- The test `container.querySelector('.loading')` on one child of the list: the placeholder,
or a row whose markup makes an element of class `loading`. -/
def ListChild.isLoading : ListChild → Bool
  | .loading => true
  | row => querySelectorLoading row.innerHTML

/-- The statements `if (container.querySelector('.loading')) container.innerHTML = '';
container.appendChild(locationElement)`. -/
def appendChild (locationElement : ListChild) (s : Page) : Page :=
  { s with
    locationsList := s.locationsList.map fun children =>
      (if children.any ListChild.isLoading then [] else children) ++ [locationElement] }

/-- The constant `markerColor` (app.js 627-630). -/
def markerColor (riskLevel : Option ℚ) : String :=
  if jsGe riskLevel (75 / 100) then "#8B0000"
  else if jsGe riskLevel (6 / 10) then "#e74c3c"
  else if jsGe riskLevel (4 / 10) then "#f39c12"
  else if jsGe riskLevel (2 / 10) then "#27ae60"
  else "#2ecc71"

/-- The constant `markerSize` (app.js 632): `Math.max(12, Math.min(20, 12 + riskLevel * 8))`. -/
def markerSize (riskLevel : Option ℚ) : Option ℚ :=
  riskLevel.map fun r => max 12 (min 20 (12 + r * 8))

/-- The `Primary Risk` line of the marker popup (app.js 662-663). -/
def popupPrimaryRisk (data : PredictionData) : Option String :=
  match data.flood_risk_profile with
  | none => none
  | some profile =>
    (arraySort byRiskPercentage profile).head?.map fun e => replaceUnderscore e.1

/-- The block `if (markers[location.name]) { ... }` (app.js 625-667): icon and popup of the
marker found under the name; a member that is no marker has no `setIcon`, and the call throws. -/
def updateMarker (location : Location) (data : PredictionData) (s : Page) :
    Except JsError Page :=
  match getMarker s.markers s.markersProto location.name with
  | none => .ok s
  | some .other => .error .typeError
  | some (.marker marker) =>
    let riskLevel := data.risk_probability
    let styled : Marker :=
      { marker with
        icon := some
          { markerColor := markerColor riskLevel, markerSize := markerSize riskLevel,
            pulse := jsGe riskLevel (75 / 100) }
        popup := .risk location.name (markerColor riskLevel) data.status
          (jsMul data.risk_probability 100)
          (data.geographic_factors.map fun g => g.elevation_m)
          (data.geographic_factors.map fun g => g.drainage_quality)
          (popupPrimaryRisk data) }
    .ok
      { s with
        markers := s.markers.map fun e => if e.2.id = marker.id then (e.1, styled) else e
        markersProto := s.markersProto.map fun m => if m.id = marker.id then styled else m
        map := s.map.map fun layers =>
          layers.map fun m => if m.id = marker.id then styled else m }

/-- The statements `await fetch(...)` and `await response.json()` of `updateLocationsList`
(app.js 560-561), which do not read `response.ok`, with the first access `data.risk_probability`,
which throws on `null`. -/
def predictionData (fetched : Fetched PredictionData) : Except JsError PredictionData :=
  match fetched with
  | .rejected => .error .failedToFetch
  | .response _ .invalid => .error .invalidJson
  | .response _ .null => .error .typeError
  | .response _ (.value data) => .ok data

/-- One turn of the loop of `updateLocationsList` (app.js 558-692): the `try` block and its
`catch`.  Where the marker block throws, the row of the `try` block is in the list when the
`catch` appends its own. -/
def locationStep (net : Network) (s : Page) (location : Location) : Page :=
  let requested := s.fetch ⟨API_BASE_URL, .predict location.name⟩
  match predictionData (net.predict s.requests.length location.name) with
  | .error _ => appendChild (.failed location.name "UNKNOWN" none) requested
  | .ok data =>
    match locationElement location data with
    | .error _ => appendChild (.failed location.name "UNKNOWN" none) requested
    | .ok element =>
      match updateMarker location data (appendChild element requested) with
      | .ok updated => updated
      | .error _ =>
        appendChild (.failed location.name "UNKNOWN" none) (appendChild element requested)

/-- The call `await updateLocationsList(locations)` (app.js 548-693). -/
def updateLocationsList (net : Network) (locations : LocationsBody) (s : Page) : Outcome :=
  match s.locationsList with
  | none => ⟨s, none⟩
  | some _ =>
    let loading : Page := { s with locationsList := some [.loading] }
    match locations with
    | .nonArray => ⟨loading, some .typeError⟩
    | .array locations => ⟨locations.foldl (locationStep net) loading, none⟩

/-- The element built for one alert (app.js 711-724). -/
def alertElement (alert : Alert) : AlertChild :=
  .alert (some (if alert.alert_type = "flood_warning" then "alert-warning" else "alert-info"))
    (if alert.alert_type = "flood_warning" then "ALERT" else "INFO")
    alert.location alert.timestamp (jsMul alert.risk_probability 100)

/-- The call `updateAlertsList(alerts)` (app.js 695-728), with the array as the call leaves it:
`alerts.reverse()` reverses the array in place.  `none` is `undefined`. -/
def updateAlertsList (alerts : Option (List Alert)) (s : Page) : Outcome × Option (List Alert) :=
  match s.alertsList with
  | none => (⟨s, none⟩, alerts)
  | some _ =>
    match alerts with
    | none => (⟨s, some .typeError⟩, none)
    | some [] => (⟨{ s with alertsList := some [.noAlerts] }, none⟩, some [])
    | some alerts =>
      (⟨{ s with alertsList := some (alerts.reverse.map alertElement) }, none⟩,
        some alerts.reverse)

/-- The table `typeNames` of `updateFloodRiskProfile` (app.js 776-781) in
`typeNames[floodType] || floodType.replace('_', ' ')`. -/
def profileTypeName (floodType : String) : String :=
  if floodType = "riverine" then "Riverine Flooding"
  else if floodType = "urban_drainage" then "Urban Drainage Issues"
  else if floodType = "flash" then "Flash Flooding"
  else if floodType = "tidal" then "Tidal/Coastal Flooding"
  else (inheritedText floodType).getD (replaceUnderscore floodType)

/-- The item built for one entry of `sortedTypes` (app.js 793-810); `toLowerCase` and `toFixed`
throw on a field that is absent. -/
def floodRiskItem (entry : ProfileEntry) : Except JsError FloodRiskItem :=
  match entry.2.severity_level, entry.2.risk_percentage with
  | some severity, some pct =>
    .ok
      { severityClass := severity.toLower, typeName := profileTypeName entry.1
        risk_percentage := pct, description := entry.2.description
        flood_degree := entry.2.flood_degree, estimated_depth := entry.2.estimated_depth
        typical_damage := entry.2.typical_damage }
  | _, _ => .error .typeError

/-- The items of a list of entries, in order, or the first error. -/
def floodRiskItems : List ProfileEntry → Except JsError (List FloodRiskItem)
  | [] => .ok []
  | entry :: entries =>
    match floodRiskItem entry with
    | .error e => .error e
    | .ok item =>
      match floodRiskItems entries with
      | .error e => .error e
      | .ok items => .ok (item :: items)

/-- The call `updateFloodRiskProfile(locationName, data)` (app.js 762-814); the panel is
written by the last statement only. -/
def updateFloodRiskProfile (locationName : String) (data : PredictionData) (s : Page) : Outcome :=
  match s.floodRiskProfile with
  | none => ⟨s, none⟩
  | some _ =>
    match data.flood_risk_profile with
    | none => ⟨{ s with floodRiskProfile := some .unavailable }, none⟩
    | some floodTypes =>
      match floodRiskItems (sortedTypes floodTypes) with
      | .error e => ⟨s, some e⟩
      | .ok items =>
        ⟨{ s with
            floodRiskProfile :=
              some (.analysis locationName (jsMul data.risk_probability 100) data.status items) },
          none⟩

/-- The call `showConnectionError(errorMessage)` (app.js 419-477): the banner replaces the one
that is there. -/
def showConnectionError (error : JsError) (s : Page) : Page :=
  { s with connectionError := some error }

/-! ## app.js: the map click handler -/

/-- The constant `bangladeshBounds` (app.js 54-57), the corners of the rectangle drawn on the
map: south-west and north-east, each as latitude and longitude. -/
def bangladeshBounds : (ℚ × ℚ) × (ℚ × ℚ) :=
  ((205 / 10, 88), (267 / 10, 928 / 10))

/-- The test `lat < 20.5 || lat > 26.7 || lon < 88.0 || lon > 92.8` (app.js 74). -/
def outsideBounds (lat lon : ℚ) : Bool :=
  decide (lat < 205 / 10) || decide (lat > 267 / 10) || decide (lon < 88) ||
    decide (lon > 928 / 10)

/-- The constant `riskColor` of the click handler (app.js 110-111). -/
def riskColor (risk_probability : Option ℚ) : String :=
  if jsGt risk_probability (6 / 10) then "#e74c3c"
  else if jsGt risk_probability (4 / 10) then "#f39c12"
  else "#27ae60"

/-- The table `typeNames` of the click handler (app.js 122-127) in
`typeNames[riskType] || riskType`. -/
def clickTypeName (riskType : String) : String :=
  if riskType = "riverine" then "River Overflow"
  else if riskType = "urban_drainage" then "Drainage"
  else if riskType = "flash" then "Flash Flood"
  else if riskType = "tidal" then "Coastal"
  else (inheritedText riskType).getD riskType

/-- The variable `primaryRiskInfo` of the click handler (app.js 114-130): nothing when the
profile is absent or has an entry `primary_risk_type`, else the label of element 0 of the sorted
entries. -/
def primaryRiskInfo (data : PredictionData) : Option String :=
  match data.flood_risk_profile with
  | none => none
  | some profiles =>
    if (profiles.find? fun e => e.1 == "primary_risk_type").isSome then none
    else (arraySort byRiskPercentage profiles).head?.map fun e => clickTypeName e.1

/-- The constant `popupContent` of the click handler (app.js 132-147); `toFixed` on a reading
that is absent throws, as does a member read on `geographic_factors` when it is absent. -/
def popupContent (data : PredictionData) : Except JsError PredictionPopup :=
  match data.current_rainfall, data.current_water_level, data.geographic_factors with
  | some rainfall, some level, some g =>
    match g.elevation_m, g.distance_to_river_km with
    | some elevation, some distance =>
      .ok
        { location := data.location, riskColor := riskColor data.risk_probability
          status := data.status, percent := jsMul data.risk_probability 100
          rainfall := rainfall, waterLevel := level, elevation := elevation
          riverDistance := distance, primaryRiskInfo := primaryRiskInfo data
          interpolated := g.interpolated }
    | _, _ => .error .typeError
  | _, _, _ => .error .typeError

/-- The test `if (data.error)`: the field is there and is not the empty string. -/
def errorTruthy (error : Option String) : Bool :=
  match error with
  | none => false
  | some message => message != ""

/-- The `try` block of the click handler (app.js 95-154), run on the page that shows the loading
popup; `k` is the number of requests issued before the click. -/
def clickPrediction (net : Network) (k : Nat) (lat lon : ℚ) (s : Page) : Outcome :=
  match net.predictCoordinates k lat lon with
  | .rejected => ⟨s, some .failedToFetch⟩
  | .response status body =>
    if responseOk status then
      match body with
      | .invalid => ⟨s, some .invalidJson⟩
      | .null => ⟨s, some .typeError⟩
      | .value data =>
        if errorTruthy data.error then ⟨s, some (.domain (data.error.getD ""))⟩
        else
          match popupContent data with
          | .error e => ⟨s, some e⟩
          | .ok content =>
            updateFloodRiskProfile data.location data
              { s with popup := some ⟨lat, lon, .prediction content⟩ }
    else ⟨s, some (.http "HTTP error! status" status)⟩

/-- The handler `map.on('click', ...)` registered by `initializeMap` (app.js 69-162), for a
click at `lat`, `lon`. -/
def onMapClick (net : Network) (lat lon : ℚ) (s : Page) : Page :=
  if outsideBounds lat lon then { s with popup := some ⟨lat, lon, .outside⟩ }
  else
    let loadingPopup : Page := { s with popup := some ⟨lat, lon, .loading⟩ }
    let o := clickPrediction net s.requests.length lat lon
      (loadingPopup.fetch ⟨API_BASE_URL, .predictCoordinates lat lon⟩)
    match o.thrown with
    | none => o.page
    | some error => { o.page with popup := some ⟨lat, lon, .error error⟩ }

/-! ## app.js: the refresh cycle -/

/-- The first inner `try` of `loadDashboardData` (app.js 285-308); its `catch` rethrows. -/
def loadStatus (net : Network) (s : Page) : Outcome :=
  let requested := s.fetch ⟨BASE_URL, .status⟩
  match net.status s.requests.length with
  | .rejected => ⟨requested, some .failedToFetch⟩
  | .response status body =>
    if responseOk status then
      match body with
      | .invalid => ⟨requested, some .invalidJson⟩
      | .null => updateSystemStatus none requested
      | .value statusData => updateSystemStatus (some statusData) requested
    else ⟨requested, some (.http "Status API failed" status)⟩

/-- The second inner `try` (app.js 312-335); its `catch` rethrows.  The body `null` has no
`forEach` and is not iterable, as a value that is no array. -/
def loadLocations (net : Network) (s : Page) : Outcome :=
  let requested := s.fetch ⟨BASE_URL, .locations⟩
  match net.locations s.requests.length with
  | .rejected => ⟨requested, some .failedToFetch⟩
  | .response status body =>
    if responseOk status then
      match body with
      | .invalid => ⟨requested, some .invalidJson⟩
      | .null =>
        (updateLocationsMap .nonArray requested).andThen (updateLocationsList net .nonArray)
      | .value locationsData =>
        (updateLocationsMap locationsData requested).andThen (updateLocationsList net locationsData)
    else ⟨requested, some (.http "Locations API failed" status)⟩

/-- The third inner `try` (app.js 339-359); its `catch` does not rethrow, and
`updateAlertsList` writes nothing when it throws. -/
def loadAlerts (net : Network) (s : Page) : Page :=
  let requested := s.fetch ⟨BASE_URL, .alerts⟩
  match net.alerts s.requests.length with
  | .rejected => requested
  | .response status body =>
    if responseOk status then
      match body with
      | .invalid => requested
      | .null => requested
      | .value alertsData => (updateAlertsList alertsData.alerts requested).1.page
    else requested

/-- The last inner `try` (app.js 367-388); its `catch` does not rethrow, and
`updateFloodRiskProfile` writes nothing when it throws. -/
def loadProfile (net : Network) (firstLocation : String) (s : Page) : Page :=
  let requested := s.fetch ⟨BASE_URL, .predict firstLocation⟩
  match net.predict s.requests.length firstLocation with
  | .rejected => requested
  | .response status body =>
    if responseOk status then
      match body with
      | .invalid => requested
      | .null => requested
      | .value profileData => (updateFloodRiskProfile firstLocation profileData requested).page
    else requested

/-- The step `Load initial flood risk profile for first location` (app.js 361-389): the second
request of `/api/locations` and its `json()` stand outside every inner `try`. -/
def loadInitialProfile (net : Network) (s : Page) : Outcome :=
  let requested := s.fetch ⟨BASE_URL, .locations⟩
  match net.locations s.requests.length with
  | .rejected => ⟨requested, some .failedToFetch⟩
  | .response _ .invalid => ⟨requested, some .invalidJson⟩
  | .response _ (.value (.array (first :: _))) => ⟨loadProfile net first.name requested, none⟩
  | .response _ _ => ⟨requested, none⟩

/-- The outer `try` block of `loadDashboardData` (app.js 277-397). -/
def loadDashboardSteps (net : Network) (s : Page) : Outcome :=
  (loadStatus net s).andThen fun s =>
    (loadLocations net s).andThen fun s =>
      (loadInitialProfile net (loadAlerts net s)).andThen fun s =>
        ⟨{ s with connectionError := none }, none⟩

/-- The call `loadDashboardData()` of app.js (275-417): the outer `try` and its `catch`. -/
def loadDashboardData (net : Network) (s : Page) : Page :=
  let o := loadDashboardSteps net s
  match o.thrown with
  | none => o.page
  | some error =>
    showConnectionError error
      { o.page with
        systemStatus := o.page.systemStatus.map fun _ =>
          { text := "Connection Error", color := some "#e74c3c" } }

/-! ## app-debug.js -/

/-- The call `updateSystemStatus(data)` of app-debug.js (337-354), which also sets the colour. -/
def Debug.updateSystemStatus (data : Option SystemStatus) (s : Page) : Outcome :=
  match data with
  | none =>
    if s.systemStatus.isSome || s.locationsCount.isSome || s.lastUpdate.isSome then
      ⟨s, some .typeError⟩
    else ⟨s, none⟩
  | some data =>
    ⟨{ s with
        systemStatus := s.systemStatus.map fun _ =>
          { text := if data.models_loaded then "Operational" else "Limited"
            color := some (if data.models_loaded then "#27ae60" else "#f39c12") }
        locationsCount := s.locationsCount.map fun _ => toString data.monitored_locations
        lastUpdate := s.lastUpdate.map fun _ => data.last_update }, none⟩

/-- The call `updateLocationsMap(locations)` of app-debug.js (356-381), which returns at once
when `map` is unset. -/
def Debug.updateLocationsMap (locations : LocationsBody) (s : Page) : Outcome :=
  match s.map with
  | none => ⟨s, none⟩
  | some layers =>
    let cleared : Page :=
      { s with
        map := some (layers.filter fun m => !(s.markers.any fun e => e.2.id == m.id))
        markers := []
        markersProto := none }
    match locations with
    | .nonArray => ⟨cleared, some .typeError⟩
    | .array locations => ⟨locations.foldl addLocationMarker cleared, none⟩

/-- One turn of the loop of `updateLocationsList` of app-debug.js (394-453): the `try` block,
which throws on `!response.ok`, and its `catch`. -/
def Debug.locationStep (net : Network) (s : Page) (location : Location) : Page :=
  let requested := s.fetch ⟨Debug.API_BASE, .predict location.name⟩
  match net.predict s.requests.length location.name with
  | .rejected => appendChild (.failed location.name "ERROR" (some .failedToFetch)) requested
  | .response status body =>
    if responseOk status then
      match body with
      | .invalid => appendChild (.failed location.name "ERROR" (some .invalidJson)) requested
      | .null => appendChild (.failed location.name "ERROR" (some .typeError)) requested
      | .value data =>
        appendChild
          (.location location.name .brief (Debug.riskClass data.risk_probability) data.status
            (jsMul data.risk_probability 100))
          requested
    else appendChild (.failed location.name "ERROR" (some (.http "HTTP" status))) requested

/-- The call `await updateLocationsList(locations)` of app-debug.js (383-456). -/
def Debug.updateLocationsList (net : Network) (locations : LocationsBody) (s : Page) : Outcome :=
  match s.locationsList with
  | none => ⟨s, none⟩
  | some _ =>
    let loading : Page := { s with locationsList := some [.loading] }
    match locations with
    | .nonArray => ⟨loading, some .typeError⟩
    | .array locations => ⟨locations.foldl (Debug.locationStep net) loading, none⟩

/-- The element built for one alert in app-debug.js (475-485). -/
def Debug.alertElement (alert : Alert) : AlertChild :=
  .alert none "ALERT" alert.location alert.timestamp (jsMul alert.risk_probability 100)

/-- The call `updateAlertsList(alerts)` of app-debug.js (458-490), which does not reverse. -/
def Debug.updateAlertsList (alerts : Option (List Alert)) (s : Page) : Page :=
  match s.alertsList with
  | none => s
  | some _ =>
    match alerts with
    | none => { s with alertsList := some [.noAlerts] }
    | some [] => { s with alertsList := some [.noAlerts] }
    | some alerts => { s with alertsList := some (alerts.map Debug.alertElement) }

/-- The inner `try` of `loadDashboardData` of app-debug.js (318-327); its `catch` does not
rethrow. -/
def Debug.loadAlerts (net : Network) (s : Page) : Page :=
  let requested := s.fetch ⟨Debug.API_BASE, .alerts⟩
  match net.alerts s.requests.length with
  | .rejected => requested
  | .response status body =>
    if responseOk status then
      match body with
      | .invalid => requested
      | .null => requested
      | .value alertsData => Debug.updateAlertsList alertsData.alerts requested
    else requested

/-- The status part of `loadDashboardData` of app-debug.js (278-301). -/
def Debug.loadStatus (net : Network) (s : Page) : Outcome :=
  let requested := s.fetch ⟨Debug.API_BASE, .status⟩
  match net.status s.requests.length with
  | .rejected => ⟨requested, some .failedToFetch⟩
  | .response status body =>
    if responseOk status then
      match body with
      | .invalid => ⟨requested, some .invalidJson⟩
      | .null => Debug.updateSystemStatus none requested
      | .value testData => Debug.updateSystemStatus (some testData) requested
    else ⟨requested, some (.http "HTTP" status)⟩

/-- The locations part of `loadDashboardData` of app-debug.js (305-314). -/
def Debug.loadLocations (net : Network) (s : Page) : Outcome :=
  let requested := s.fetch ⟨Debug.API_BASE, .locations⟩
  match net.locations s.requests.length with
  | .rejected => ⟨requested, some .failedToFetch⟩
  | .response status body =>
    if responseOk status then
      match body with
      | .invalid => ⟨requested, some .invalidJson⟩
      | .null =>
        (Debug.updateLocationsMap .nonArray requested).andThen
          (Debug.updateLocationsList net .nonArray)
      | .value locationsData =>
        (Debug.updateLocationsMap locationsData requested).andThen
          (Debug.updateLocationsList net locationsData)
    else ⟨requested, some (.http "Locations API failed" status)⟩

/-- The call `loadDashboardData()` of app-debug.js (272-335): the `catch` rethrows, so the
outcome carries the error to the caller. -/
def Debug.loadDashboardData (net : Network) (s : Page) : Outcome :=
  (Debug.loadStatus net s).andThen fun s =>
    (Debug.loadLocations net s).andThen fun s =>
      ⟨Debug.loadAlerts net s, none⟩

/-- What `initializeMap` and `initializeChart` of app-debug.js look for: the two elements and
the two libraries. -/
structure Document where
  mapElement : Bool
  leafletLoaded : Bool
  chartElement : Bool
  chartLoaded : Bool

/-- The call `initializeMap()` of app-debug.js (163-210). -/
def Debug.initializeMap (doc : Document) (s : Page) : Outcome :=
  if doc.mapElement && doc.leafletLoaded then ⟨{ s with map := some [] }, none⟩
  else ⟨s, some (.domain (if doc.mapElement then "Leaflet library not loaded"
    else "Map element not found"))⟩

/-- The call `initializeChart()` of app-debug.js (212-270), as far as it can throw. -/
def Debug.initializeChart (doc : Document) (s : Page) : Outcome :=
  if doc.chartElement && !doc.chartLoaded then ⟨s, some (.domain "Chart.js library not loaded")⟩
  else ⟨s, none⟩

/-- The call `showError(message)` of app-debug.js (121-161). -/
def Debug.showError (error : JsError) (s : Page) : Page :=
  { s with loadingMessage := false, errorDialog := some error }

/-- The call `initializeApp()` of app-debug.js (70-89), the caller of `loadDashboardData`. -/
def Debug.initializeApp (doc : Document) (net : Network) (s : Page) : Page :=
  let o :=
    (Debug.initializeMap doc { s with loadingMessage := true }).andThen fun s =>
      (Debug.initializeChart doc s).andThen fun s =>
        (Debug.loadDashboardData net s).andThen fun s =>
          ⟨{ s with loadingMessage := false }, none⟩
  match o.thrown with
  | none => o.page
  | some error => Debug.showError error o.page

/-! ## Reading the rendered list -/

/-- The element one turn of the loop of `updateLocationsList` (app.js) appends for `location`,
given what its fetch yields: the element of the `try` block, or that of the `catch` where the
fetch or the building of the element throws.  (Where the marker block throws, the turn appends
both, see `locationStep`.) -/
def locationRow (location : Location) (fetched : Fetched PredictionData) : ListChild :=
  match predictionData fetched with
  | .error _ => .failed location.name "UNKNOWN" none
  | .ok data =>
    match locationElement location data with
    | .error _ => .failed location.name "UNKNOWN" none
    | .ok element => element

/-- The element one turn of the loop of `updateLocationsList` (app-debug.js) appends. -/
def Debug.locationRow (location : Location) (fetched : Fetched PredictionData) : ListChild :=
  match fetched with
  | .rejected => .failed location.name "ERROR" (some .failedToFetch)
  | .response status body =>
    if responseOk status then
      match body with
      | .invalid => .failed location.name "ERROR" (some .invalidJson)
      | .null => .failed location.name "ERROR" (some .typeError)
      | .value data =>
        .location location.name .brief (Debug.riskClass data.risk_probability) data.status
          (jsMul data.risk_probability 100)
    else .failed location.name "ERROR" (some (.http "HTTP" status))

/-- The read `markers[name]` finds a member that is no marker, on which the calls of
`setIcon` and `openPopup` throw. -/
def Page.findsOther (s : Page) (name : String) : Bool :=
  getMarker s.markers s.markersProto name == some .other

/-- The children of the element `locationsList`; none when the element is missing. -/
def Page.rows (s : Page) : List ListChild :=
  s.locationsList.getD []

/-- The location a list row is for: the text of its heading. -/
def ListChild.name : ListChild → Option String
  | .loading => none
  | .location name _ _ _ _ => some name
  | .failed name _ _ => some name

/-- The row carries a risk badge with a band. -/
def ListChild.isClassified : ListChild → Bool
  | .location _ _ _ _ _ => true
  | _ => false

/-- The row is in the error state; `badge` is the text of its grey badge. -/
def ListChild.isError (badge : String) : ListChild → Bool
  | .failed _ b _ => b == badge
  | _ => false

/-- A prediction fetch fails: a network error or a response that is not 2xx. -/
def Fetched.failed {β : Type} : Fetched β → Bool
  | .rejected => true
  | .response status _ => !responseOk status

/-- The rows for `locations` when the first of them is fetched as request number `k`. -/
def rowsFrom (row : Location → Fetched PredictionData → ListChild) (net : Network) :
    Nat → List Location → List ListChild
  | _, [] => []
  | k, location :: rest =>
    row location (net.predict k location.name) :: rowsFrom row net (k + 1) rest

/-- The requests a run that took the page from `before` to `after` has issued. -/
def issuedSince (before after : Page) : List Request :=
  after.requests.drop before.requests.length

/-- The events a run that took the page from `before` to `after` has recorded. -/
def eventsSince (before after : Page) : List FetchEvent :=
  after.events.drop before.events.length

/-- The events of requests of which each has settled before the next is issued. -/
def awaited : List Request → List FetchEvent
  | [] => []
  | request :: rest => .issued request :: .settled request :: awaited rest

/-- The run from `s` to `t` has awaited each of its requests: what it has issued, and the
events of these requests one after the other. -/
def Page.Awaits (s t : Page) : Prop :=
  ∃ issued, t.requests = s.requests ++ issued ∧ t.events = s.events ++ awaited issued

/-- The body of a response can be decoded: the fetch did not reject and `response.json()` does
not reject. -/
def Fetched.decodable {β : Type} : Fetched β → Bool
  | .rejected => false
  | .response _ .invalid => false
  | .response _ _ => true

/-- The location of the Dhaka scenario. -/
def dhaka : Location :=
  { name := "Dhaka", lat := 237 / 10, lon := 904 / 10, threshold := 25 / 10 }

/-- A second monitored location. -/
def sylhet : Location :=
  { name := "Sylhet", lat := 249 / 10, lon := 919 / 10, threshold := 3 }

/-- A well-formed `PredictionSnapshot` for `location` with risk probability `p`: every field of
the data model is there. -/
def snapshot (location : String) (p : ℚ) : PredictionData :=
  { error := none, location := location, risk_probability := some p, status := "HIGH RISK",
    current_rainfall := some 12, current_water_level := some 3,
    geographic_factors :=
      some { elevation_m := some 4, distance_to_river_km := some 1, topography := "floodplain",
             drainage_quality := "poor", interpolated := false },
    flood_risk_profile := some [("riverine", mechanismRisk 70), ("flash", mechanismRisk 85)] }

/-- A served `SystemStatus`. -/
def statusBody : SystemStatus :=
  { models_loaded := true, monitored_locations := 2, last_update := "2024-07-01T06:00:00" }

/-- A network on which every fetch rejects. -/
def offline : Network :=
  { status := fun _ => .rejected, locations := fun _ => .rejected, alerts := fun _ => .rejected,
    predict := fun _ _ => .rejected, predictCoordinates := fun _ _ _ => .rejected
    history := fun _ _ => .rejected }

/-- A network that serves the status and answers `/api/locations` with 503. -/
def locationsDown : Network :=
  { offline with
    status := fun _ => .response 200 (.value statusBody)
    locations := fun _ => .response 503 .invalid }

/-- A network that serves every feed, except that `/api/locations` is served to the second
request of the cycle only: the re-fetch that opens the initial-profile step rejects. -/
def refetchDown : Network :=
  { status := fun _ => .response 200 (.value statusBody)
    locations := fun k => if k = 1 then .response 200 (.value (.array [dhaka])) else .rejected
    alerts := fun _ => .response 200 (.value { alerts := some [] })
    predict := fun _ name => .response 200 (.value (snapshot name (82 / 100)))
    predictCoordinates := fun _ _ _ => .rejected
    history := fun _ _ => .rejected }

/-- A network that serves every feed but the predictions and the alerts, which reject. -/
def feedsDown : Network :=
  { status := fun _ => .response 200 (.value statusBody)
    locations := fun _ => .response 200 (.value (.array [dhaka, sylhet]))
    alerts := fun _ => .rejected
    predict := fun _ _ => .rejected
    predictCoordinates := fun _ _ _ => .rejected
    history := fun _ _ => .rejected }

/-- A network whose prediction for Sylhet comes with status 500 and a well-formed snapshot as
body, every other prediction with status 200. -/
def sylhetError : Network :=
  { offline with
    predict := fun _ name =>
      if name = "Sylhet" then .response 500 (.value (snapshot "Sylhet" (35 / 100)))
      else .response 200 (.value (snapshot name (82 / 100))) }

/-- A prediction body is a well-formed `PredictionSnapshot`: the numbers and the geographic
factors of the data model are there, and every entry of the profile, if there is a profile,
carries its risk percentage and its severity level. -/
def PredictionData.wellFormed (data : PredictionData) : Bool :=
  data.risk_probability.isSome && data.current_rainfall.isSome &&
    data.current_water_level.isSome &&
    (match data.geographic_factors with
      | some g => g.elevation_m.isSome && g.distance_to_river_km.isSome
      | none => false) &&
    (match data.flood_risk_profile with
      | some profile =>
        profile.all fun e => e.2.risk_percentage.isSome && e.2.severity_level.isSome
      | none => true)

/-- What a page shows for the locations: the list rows, the marker registry and the markers on
the map. -/
def Page.locationsView (s : Page) :
    Option (List ListChild) × List (String × Marker) × Option (List Marker) :=
  (s.locationsList, s.markers, s.map)

/-- A network that serves every feed but the alerts, which come with status 500. -/
def alertsDown : Network :=
  { status := fun _ => .response 200 (.value statusBody)
    locations := fun _ => .response 200 (.value (.array [dhaka, sylhet]))
    alerts := fun _ => .response 500 .invalid
    predict := fun _ name => .response 200 (.value (snapshot name (82 / 100)))
    predictCoordinates := fun _ _ _ => .rejected
    history := fun _ _ => .rejected }

/-- A well-formed snapshot for Sylhet to which the service has added an `error` field. -/
def sylhetWithError : PredictionData :=
  { snapshot "Sylhet" (35 / 100) with error := some "model unavailable" }

/-- A network whose predictions come with status 500, an `error` field and the fields of a
snapshot. -/
def predictionsFail : Network :=
  { offline with predict := fun _ _ => .response 500 (.value sylhetWithError) }

/-- A snapshot for Dhaka whose `risk_probability` is absent, every other field being there. -/
def dhakaNoProbability : PredictionData :=
  { snapshot "Dhaka" (82 / 100) with risk_probability := none }

/-- A network whose coordinate predictions come with status 200 and a body that carries an
`error` field besides the fields of a snapshot. -/
def coordinateError : Network :=
  { offline with predictCoordinates := fun _ _ _ => .response 200 (.value sylhetWithError) }

/-- The children of the list after the loop over `locations`, from the rows of the turns: each
turn empties a list that shows an element of class `loading` and appends its row; the first
fetch is request number `k`. -/
def shownRows (row : Location → Fetched PredictionData → ListChild) (net : Network) :
    Nat → List Location → List ListChild → List ListChild
  | _, [], children => children
  | k, location :: rest, children =>
    shownRows row net (k + 1) rest
      ((if children.any ListChild.isLoading then [] else children) ++
        [row location (net.predict k location.name)])

/-- A third monitored location. -/
def khulna : Location :=
  { name := "Khulna", lat := 228 / 10, lon := 895 / 10, threshold := 2 }

/-- A network that serves every prediction with a well-formed snapshot. -/
def predictionsServed : Network :=
  { offline with predict := fun _ name => .response 200 (.value (snapshot name (82 / 100))) }

/-- A well-formed snapshot whose status text is markup of class `loading`. -/
def markupSnapshot (location : String) : PredictionData :=
  { snapshot location (82 / 100) with status := "<i class=\"loading\"></i>" }

/-- The network `predictionsServed`, but for Sylhet the snapshot has markup as its status. -/
def sylhetMarkup : Network :=
  { offline with
    predict := fun _ name =>
      if name = "Sylhet" then .response 200 (.value (markupSnapshot name))
      else .response 200 (.value (snapshot name (82 / 100))) }

/-- A location of the name `__proto__`. -/
def protoLocation : Location :=
  { name := "__proto__", lat := 237 / 10, lon := 904 / 10, threshold := 25 / 10 }

/-- The registry entries `updateLocationsMap` makes for `locations` when the first marker gets
the identity `k`: one new marker a location, with the popup of name and threshold. -/
def freshMarkers : Nat → List Location → List (String × Marker)
  | _, [] => []
  | k, location :: rest => (location.name, newMarker location k) :: freshMarkers (k + 1) rest

/-- What a marker shows: position, icon and popup, its identity left out. -/
def Marker.appearance (m : Marker) : ℚ × ℚ × Option MarkerIcon × MarkerPopup :=
  (m.lat, m.lon, m.icon, m.popup)

/-- An alert for Dhaka, the older of two. -/
def olderAlert : Alert :=
  { location := "Dhaka", timestamp := "2024-07-01T06:00:00", risk_probability := some (82 / 100),
    alert_type := "flood_warning" }

/-- An alert for Sylhet, the newer of two. -/
def newerAlert : Alert :=
  { location := "Sylhet", timestamp := "2024-07-01T07:00:00", risk_probability := some (45 / 100),
    alert_type := "info" }

/-- The heading of the first item of the profile panel. -/
def ProfilePanel.firstTypeName : ProfilePanel → Option String
  | .analysis _ _ _ (item :: _) => some item.typeName
  | _ => none

/-! ## Location details (app.js 196-273, 730-760, 816-829) -/

/-- The call `initializeChart()` of app.js (200-273), as far as the globals go: with the canvas
`riskChart` in the document it sets the global to a chart with no label and no data. -/
def initializeChart (canvas : Bool) (s : Page) : Page :=
  if canvas then { s with riskChart := some { labels := [], data := [] } } else s

/-- The call `updateRiskChart(historyData)` of app.js (816-829). -/
def updateRiskChart (historyData : List HistoryPoint) (s : Page) : Page :=
  match s.riskChart with
  | none => s
  | some _ =>
    { s with
      riskChart := some
        { labels := historyData.map fun item => item.date
          data := historyData.map fun item => item.probability } }

/-- The statements `map.setView(...)` and `markers[locationName].openPopup()` of
`showLocationDetails` (app.js 751-754). -/
def focusMap (locationName : String) (location : Location) (s : Page) : Outcome :=
  match s.map with
  | none => ⟨s, some .typeError⟩
  | some _ =>
    let viewed :=
      { s with views := s.views ++ [{ lat := location.lat, lon := location.lon, zoom := 10 }] }
    match getMarker s.markers s.markersProto locationName with
    | none => ⟨viewed, none⟩
    | some .other => ⟨viewed, some .typeError⟩
    | some (.marker marker) =>
      ⟨{ viewed with
          popup := some { lat := marker.lat, lon := marker.lon, content := .marker marker.popup } },
        none⟩

/-- The block `Focus map on location` of `showLocationDetails` (app.js 745-756); a body that is
no array has no `find`. -/
def focusOnLocation (net : Network) (locationName : String) (s : Page) : Outcome :=
  let requested := s.fetch ⟨API_BASE_URL, .locations⟩
  match net.locations s.requests.length with
  | .rejected => ⟨requested, some .failedToFetch⟩
  | .response _ .invalid => ⟨requested, some .invalidJson⟩
  | .response _ .null => ⟨requested, some .typeError⟩
  | .response _ (.value .nonArray) => ⟨requested, some .typeError⟩
  | .response _ (.value (.array locations)) =>
    match locations.find? fun l => l.name == locationName with
    | none => ⟨requested, none⟩
    | some location => focusMap locationName location requested

/-- The block `Update flood risk profile` of `showLocationDetails` (app.js 733-736); with the
body `null`, `updateFloodRiskProfile` returns when the panel is missing and throws on
`data.flood_risk_profile` otherwise. -/
def detailsProfile (net : Network) (locationName : String) (s : Page) : Outcome :=
  let requested := s.fetch ⟨API_BASE_URL, .predict locationName⟩
  match net.predict s.requests.length locationName with
  | .rejected => ⟨requested, some .failedToFetch⟩
  | .response _ .invalid => ⟨requested, some .invalidJson⟩
  | .response _ .null =>
    if requested.floodRiskProfile.isSome then ⟨requested, some .typeError⟩ else ⟨requested, none⟩
  | .response _ (.value profileData) => updateFloodRiskProfile locationName profileData requested

/-- The block `Update risk trends chart` of `showLocationDetails` (app.js 738-757). -/
def detailsHistory (net : Network) (locationName : String) (s : Page) : Outcome :=
  let requested := s.fetch ⟨API_BASE_URL, .history locationName⟩
  match net.history s.requests.length locationName with
  | .rejected => ⟨requested, some .failedToFetch⟩
  | .response _ .invalid => ⟨requested, some .invalidJson⟩
  | .response _ .null => ⟨requested, some .typeError⟩
  | .response _ (.value data) =>
    match data.history with
    | none => ⟨requested, none⟩
    | some [] => ⟨requested, none⟩
    | some (item :: items) =>
      focusOnLocation net locationName (updateRiskChart (item :: items) requested)

/-- The call `showLocationDetails(locationName)` of app.js (730-760): its `catch` only logs. -/
def showLocationDetails (net : Network) (locationName : String) (s : Page) : Page :=
  ((detailsProfile net locationName s).andThen (detailsHistory net locationName)).page

/-- A page whose chart shows the series of the location selected before. -/
def chartShown : Page :=
  { initializeMap Page.initial with
    riskChart :=
      some { labels := ["2024-06-30", "2024-07-01"], data := [some (3 / 10), some (4 / 10)] } }

/-- A network that serves the predictions and answers `/api/history/{name}` with an empty
`history`. -/
def noHistory : Network :=
  { offline with
    predict := fun _ name => .response 200 (.value (snapshot name (82 / 100)))
    history := fun _ _ => .response 200 (.value { history := some [] }) }

/-! ## Calls of `loadDashboardData` in progress (app.js 19-29, 449, 459, 480-510, 831-845) -/

/-- What the event loop runs next, as far as the calls of `loadDashboardData` go. -/
inductive Event where
  /-- The handler of `DOMContentLoaded` (app.js 19-29): it calls `loadDashboardData()` and
  sets the timer. -/
  | startup
  /-- The timer of `setInterval(refreshData, 300000)` fires. -/
  | timerTick
  /-- Modelled from the spec: the manual refresh, a click on the element of class `refresh-btn`
  that calls `refreshData()`; a disabled button takes no click. -/
  | manualRefresh
  /-- A click on `Retry` in the connection-error element (app.js 449). -/
  | retry
  /-- A click on `Test API` in the connection-error element (app.js 459) and the answer to the
  request of `testDirectAPI`, with `response.ok`. -/
  | testApi (ok : Bool)
  /-- A call of `loadDashboardData` made by `refreshData` settles, and whether it ended in its
  outer `catch`. -/
  | refreshSettles (failed : Bool)
  /-- Another call of `loadDashboardData` settles, and whether it ended in its outer `catch`. -/
  | cycleSettles (failed : Bool)
  /-- The timer of `showConnectionError` removes the connection-error element (app.js 469-474). -/
  | errorTimeout
  deriving DecidableEq, Repr

/-- The state the calls of `loadDashboardData` are started from. -/
structure Scheduler where
  /-- Whether the document has an element of class `refresh-btn`. -/
  refreshBtn : Bool
  /-- Whether the handler of `DOMContentLoaded` has run. -/
  loaded : Bool
  /-- The calls of `loadDashboardData` made by `refreshData` that have not settled. -/
  refreshing : Nat
  /-- The other calls of `loadDashboardData` that have not settled. -/
  loading : Nat
  /-- The property `disabled` of the refresh button. -/
  disabled : Bool
  /-- Whether the connection-error element is in the document. -/
  connectionError : Bool
  deriving DecidableEq, Repr

/-- The state before the document has loaded. -/
def Scheduler.initial (refreshBtn : Bool) : Scheduler :=
  { refreshBtn := refreshBtn, loaded := false, refreshing := 0, loading := 0, disabled := false,
    connectionError := false }

/-- The number of calls of `loadDashboardData` in progress. -/
def Scheduler.inProgress (s : Scheduler) : Nat :=
  s.refreshing + s.loading

/-- The call `refreshData()` of app.js (831-845) up to its call of `loadDashboardData()`. -/
def refreshData (s : Scheduler) : Scheduler :=
  { s with disabled := s.refreshBtn || s.disabled, refreshing := s.refreshing + 1 }

/-- One step of the event loop; `none` when the event cannot occur in the state. -/
def Scheduler.step (s : Scheduler) : Event → Option Scheduler
  | .startup => if s.loaded then none else some { s with loaded := true, loading := s.loading + 1 }
  | .timerTick => if s.loaded then some (refreshData s) else none
  | .manualRefresh => if s.refreshBtn && !s.disabled then some (refreshData s) else none
  | .retry =>
    if s.connectionError then some { s with connectionError := false, loading := s.loading + 1 }
    else none
  | .testApi ok =>
    if s.connectionError then some (if ok then { s with loading := s.loading + 1 } else s)
    else none
  | .refreshSettles failed =>
    if 0 < s.refreshing then
      some { s with
        refreshing := s.refreshing - 1, disabled := !s.refreshBtn && s.disabled,
        connectionError := failed }
    else none
  | .cycleSettles failed =>
    if 0 < s.loading then some { s with loading := s.loading - 1, connectionError := failed }
    else none
  | .errorTimeout => some { s with connectionError := false }

/-- The state after a sequence of events, `none` when one of them cannot occur. -/
def Scheduler.run (s : Scheduler) : List Event → Option Scheduler
  | [] => some s
  | event :: events => (s.step event).bind fun s => Scheduler.run s events

/-! ## Theorems -/

/-- The band of a number, read off the thresholds of `riskClass`. -/
theorem riskClass_some (p : ℚ) :
    riskClass (some p) =
      if 3 / 4 ≤ p then .critical else if 3 / 5 ≤ p then .high
      else if 2 / 5 ≤ p then .medium else if 1 / 5 ≤ p then .low else .minimal := by
  simp only [riskClass, jsGe, decide_eq_true_eq]
  norm_num

/-- The debug build classifies exactly as the production build. -/
theorem debug_riskClass_eq (x : Option ℚ) : Debug.riskClass x = riskClass x := rfl

theorem locationElement_ok (location : Location) (data : PredictionData) (element : ListChild)
    (h : locationElement location data = .ok element) :
    ∃ details, element = .location location.name details (riskClass data.risk_probability)
      data.status (jsMul data.risk_probability 100) := by
  unfold locationElement at h
  split at h
  · cases h
  · split at h
    · cases h
    · cases h; exact ⟨_, rfl⟩

/-- C1: for every numeric risk_probability p the class of the list row, in app.js and in
app-debug.js, is risk-critical iff p >= 0.75, risk-high iff 0.60 <= p < 0.75, risk-medium iff
0.40 <= p < 0.60, risk-low iff 0.20 <= p < 0.40 and risk-minimal iff p < 0.20; 0.75 is critical,
0.749999 is high and 0.82 is critical; and the data row each build makes for a location carries
that class of the body's risk_probability. -/
theorem C1_riskClass_bands :
    (∀ p : ℚ,
      (riskClass (some p) = .critical ↔ 75 / 100 ≤ p) ∧
      (riskClass (some p) = .high ↔ 60 / 100 ≤ p ∧ p < 75 / 100) ∧
      (riskClass (some p) = .medium ↔ 40 / 100 ≤ p ∧ p < 60 / 100) ∧
      (riskClass (some p) = .low ↔ 20 / 100 ≤ p ∧ p < 40 / 100) ∧
      (riskClass (some p) = .minimal ↔ p < 20 / 100) ∧
      Debug.riskClass (some p) = riskClass (some p)) ∧
    riskClass (some (75 / 100)) = .critical ∧
    riskClass (some (749999 / 1000000)) = .high ∧
    riskClass (some (82 / 100)) = .critical ∧
    (∀ (location : Location) (data : PredictionData) (element : ListChild),
      locationElement location data = .ok element →
      ∃ details, element = .location location.name details (riskClass data.risk_probability)
        data.status (jsMul data.risk_probability 100)) ∧
    (∀ (location : Location) (status : Nat) (data : PredictionData), responseOk status = true →
      Debug.locationRow location (.response status (.value data)) =
        .location location.name .brief (Debug.riskClass data.risk_probability) data.status
          (jsMul data.risk_probability 100)) := by
  refine ⟨fun p => ?_, ?_, ?_, ?_, locationElement_ok, ?_⟩
  · rw [debug_riskClass_eq, riskClass_some]
    refine ⟨?_, ?_, ?_, ?_, ?_, rfl⟩ <;> split_ifs <;> norm_num <;>
      first | linarith | (intro _; linarith) | (constructor <;> linarith)
  · rw [riskClass_some]; norm_num
  · rw [riskClass_some]; norm_num
  · rw [riskClass_some]; norm_num
  · intro location status data hok
    unfold Debug.locationRow
    simp only [hok, if_true]

/-- Witness of C1 on the Dhaka scenario: a served snapshot with risk 0.82 gives a data row of
class risk-critical at 82 percent in app-debug.js. -/
theorem C1_riskClass_bands_witness :
    Debug.locationRow dhaka (.response 200 (.value (snapshot "Dhaka" (82 / 100)))) =
      .location dhaka.name .brief (Debug.riskClass (snapshot "Dhaka" (82 / 100)).risk_probability)
        (snapshot "Dhaka" (82 / 100)).status
        (jsMul (snapshot "Dhaka" (82 / 100)).risk_probability 100) :=
  C1_riskClass_bands.2.2.2.2.2 dhaka 200 (snapshot "Dhaka" (82 / 100)) rfl

/-- C2: with the bands ordered minimal < low < medium < high < critical, the band of p is no more
severe than the band of q whenever p <= q. -/
theorem C2_riskClass_monotone (p q : ℚ) (h : p ≤ q) :
    (riskClass (some p)).severity ≤ (riskClass (some q)).severity := by
  rw [riskClass_some, riskClass_some]
  split_ifs <;> simp only [RiskClass.severity] <;> first | omega | (exfalso; linarith)

/-- Witness of C2 at p = 0.5 (medium) and q = 0.7 (high). -/
theorem C2_riskClass_monotone_witness :
    (riskClass (some (1 / 2))).severity ≤ (riskClass (some (7 / 10))).severity :=
  C2_riskClass_monotone (1 / 2) (7 / 10) (by norm_num)

/-! ### Sorting -/

theorem sortInsert_perm {α : Type} (cmp : α → α → Option ℚ) (a : α) (l : List α) :
    (sortInsert cmp a l).Perm (a :: l) := by
  induction l with
  | nil => exact List.Perm.refl _
  | cons b l ih =>
    unfold sortInsert
    split
    · exact ((List.Perm.cons b ih).trans (List.Perm.swap a b l))
    · exact List.Perm.refl _

theorem arraySort_perm {α : Type} (cmp : α → α → Option ℚ) (l : List α) :
    (arraySort cmp l).Perm l := by
  induction l with
  | nil => exact List.Perm.refl _
  | cons a l ih =>
    exact (sortInsert_perm cmp a _).trans (List.Perm.cons a ih)

/-- An element only moves behind elements that the comparator puts strictly before it, so a
filter that never keeps both members of such a pair sees the insertion as a plain `cons`. -/
theorem sortInsert_filter {α : Type} (cmp : α → α → Option ℚ) (P : α → Bool) (a : α)
    (l : List α)
    (h : ∀ b, comparePositive (cmp a b) = true → P a = true → P b = false) :
    (sortInsert cmp a l).filter P = (a :: l).filter P := by
  induction l with
  | nil => rfl
  | cons b l ih =>
    unfold sortInsert
    split
    · next hpos =>
      by_cases hPa : P a = true
      · have hPb := h b hpos hPa
        rw [List.filter_cons_of_neg (by simp [hPb]), ih]
        simp [List.filter_cons, hPa, hPb]
      · have hPa' : P a = false := by simpa using hPa
        rw [List.filter_cons, ih]
        simp [List.filter_cons, hPa']
    · rfl

theorem arraySort_filter {α : Type} (cmp : α → α → Option ℚ) (P : α → Bool) (l : List α)
    (h : ∀ a b, comparePositive (cmp a b) = true → P a = true → P b = false) :
    (arraySort cmp l).filter P = l.filter P := by
  induction l with
  | nil => rfl
  | cons a l ih =>
    show (sortInsert cmp a (arraySort cmp l)).filter P = _
    rw [sortInsert_filter cmp P a _ (h a), List.filter_cons, List.filter_cons, ih]

theorem head_sortInsert {α : Type} (cmp : α → α → Option ℚ) (a : α) (l : List α) :
    (sortInsert cmp a l).head? =
      match l.head? with
      | none => some a
      | some b => if comparePositive (cmp a b) then some b else some a := by
  cases l with
  | nil => rfl
  | cons b l =>
    unfold sortInsert
    split <;> simp_all

theorem byRiskPercentage_pos (a b : ProfileEntry) :
    comparePositive (byRiskPercentage a b) = true ↔ RanksAbove b a := by
  unfold byRiskPercentage jsSub comparePositive RanksAbove
  cases hb : b.2.risk_percentage <;> cases ha : a.2.risk_percentage <;> simp

theorem sortInsert_sorted (a : ProfileEntry) (l : List ProfileEntry)
    (ha : a.2.risk_percentage.isSome) (hl : ∀ e ∈ l, e.2.risk_percentage.isSome)
    (hs : l.Pairwise RanksAtLeast) :
    (sortInsert byRiskPercentage a l).Pairwise RanksAtLeast := by
  induction l with
  | nil => simp [sortInsert]
  | cons b l ih =>
    obtain ⟨x, hx⟩ := Option.isSome_iff_exists.mp ha
    obtain ⟨y, hy⟩ := Option.isSome_iff_exists.mp (hl b (List.mem_cons_self _ _))
    rw [List.pairwise_cons] at hs
    unfold sortInsert
    split
    · next hpos =>
      rw [byRiskPercentage_pos] at hpos
      obtain ⟨y', x', hy', hx', hlt⟩ := hpos
      rw [hy] at hy'; rw [hx] at hx'
      cases hy'; cases hx'
      refine List.pairwise_cons.mpr ⟨?_, ih (fun e he => hl e (List.mem_cons_of_mem _ he)) hs.2⟩
      intro e he
      rcases List.mem_cons.mp ((sortInsert_perm _ a l).mem_iff.mp he) with rfl | he'
      · exact ⟨y, x, hy, hx, le_of_lt hlt⟩
      · exact hs.1 e he'
    · next hneg =>
      have hle : y ≤ x := by
        by_contra hcon
        exact hneg ((byRiskPercentage_pos a b).mpr ⟨y, x, hy, hx, lt_of_not_le hcon⟩)
      refine List.pairwise_cons.mpr ⟨?_, List.pairwise_cons.mpr hs⟩
      intro e he
      rcases List.mem_cons.mp he with rfl | he'
      · exact ⟨x, y, hx, hy, hle⟩
      · obtain ⟨y', z, hy', hz, hzy⟩ := hs.1 e he'
        rw [hy] at hy'; cases hy'
        exact ⟨x, z, hx, hz, le_trans hzy hle⟩

theorem arraySort_sorted (l : List ProfileEntry) (hl : ∀ e ∈ l, e.2.risk_percentage.isSome) :
    (arraySort byRiskPercentage l).Pairwise RanksAtLeast := by
  induction l with
  | nil => simp [arraySort]
  | cons a l ih =>
    have hl' : ∀ e ∈ l, e.2.risk_percentage.isSome := fun e he => hl e (List.mem_cons_of_mem _ he)
    exact sortInsert_sorted a _ (hl a (List.mem_cons_self _ _))
      (fun e he => hl' e ((arraySort_perm _ l).mem_iff.mp he)) (ih hl')

/-- C3: for every profile whose entries all carry a numeric risk_percentage, `sortedTypes` is
sorted by risk_percentage in descending order and is a permutation of the entries of the mapping:
each entry appears exactly once, none dropped and none duplicated. -/
theorem C3_sortedTypes_sorted_perm (profile : FloodRiskProfile)
    (h : ∀ e ∈ profile, e.2.risk_percentage.isSome) :
    (sortedTypes profile).Pairwise RanksAtLeast ∧ (sortedTypes profile).Perm profile :=
  ⟨arraySort_sorted profile h, arraySort_perm _ profile⟩

/-- Witness of C3 on the profile {riverine: 70, flash: 85, tidal: 70}. -/
theorem C3_sortedTypes_sorted_perm_witness :
    (sortedTypes [("riverine", mechanismRisk 70), ("flash", mechanismRisk 85),
        ("tidal", mechanismRisk 70)]).Pairwise RanksAtLeast ∧
      (sortedTypes [("riverine", mechanismRisk 70), ("flash", mechanismRisk 85),
        ("tidal", mechanismRisk 70)]).Perm
        [("riverine", mechanismRisk 70), ("flash", mechanismRisk 85),
          ("tidal", mechanismRisk 70)] :=
  C3_sortedTypes_sorted_perm _ (by simp [mechanismRisk])

theorem highestRisk_cons (a : ProfileEntry) (l : FloodRiskProfile) :
    highestRisk (a :: l) =
      match highestRisk l with
      | none => some a
      | some b => if comparePositive (byRiskPercentage a b) then some b else some a := by
  unfold highestRisk
  show (sortInsert byRiskPercentage a (arraySort byRiskPercentage l)).head? = _
  rw [head_sortInsert]
  cases (arraySort byRiskPercentage l).head? <;> rfl

theorem highestRisk_first_maximum (profile : FloodRiskProfile) (hne : profile ≠ [])
    (h : ∀ e ∈ profile, e.2.risk_percentage.isSome) :
    ∃ e pre post, highestRisk profile = some e ∧ profile = pre ++ e :: post ∧
      (∀ x ∈ pre, RanksAbove e x) ∧ (∀ x ∈ post, RanksAtLeast e x) := by
  induction profile with
  | nil => exact absurd rfl hne
  | cons a l ih =>
    obtain ⟨va, hva⟩ := Option.isSome_iff_exists.mp (h a (List.mem_cons_self _ _))
    by_cases hl : l = []
    · subst hl
      exact ⟨a, [], [], rfl, rfl, by simp, by simp⟩
    · obtain ⟨e, pre, post, he, hsplit, hpre, hpost⟩ :=
        ih hl (fun x hx => h x (List.mem_cons_of_mem _ hx))
      have hmem : e ∈ l := by rw [hsplit]; simp
      obtain ⟨ve, hve⟩ := Option.isSome_iff_exists.mp (h e (List.mem_cons_of_mem _ hmem))
      rw [highestRisk_cons, he]
      by_cases hpos : comparePositive (byRiskPercentage a e) = true
      · refine ⟨e, a :: pre, post, by simp [hpos], by simp [hsplit], ?_, hpost⟩
        intro x hx
        rcases List.mem_cons.mp hx with rfl | hx'
        · exact (byRiskPercentage_pos x e).mp hpos
        · exact hpre x hx'
      · have hle : ve ≤ va := by
          by_contra hcon
          exact hpos ((byRiskPercentage_pos a e).mpr ⟨ve, va, hve, hva, lt_of_not_le hcon⟩)
        refine ⟨a, [], l, by simp [hpos], rfl, by simp, ?_⟩
        intro x hx
        rw [hsplit] at hx
        rcases List.mem_append.mp hx with hx' | hx'
        · obtain ⟨u, v, hu, hv, hlt⟩ := hpre x hx'
          rw [hve] at hu; cases hu
          exact ⟨va, v, hva, hv, le_trans (le_of_lt hlt) hle⟩
        · rcases List.mem_cons.mp hx' with rfl | hx''
          · exact ⟨va, ve, hva, hve, hle⟩
          · obtain ⟨u, v, hu, hv, hlt⟩ := hpost x hx''
            rw [hve] at hu; cases hu
            exact ⟨va, v, hva, hv, le_trans hlt hle⟩

/-- C4: for every non-empty profile with numeric risk percentages, `highestRisk` of
`updateLocationsList` is an entry of maximal risk_percentage and the first such entry in the
iteration order of the mapping: every entry before it ranks strictly below it, every entry after
it does not rank above it.  The profile {riverine: 70, flash: 85} yields flash at 85%. -/
theorem C4_highestRisk_first_maximum :
    (∀ profile : FloodRiskProfile, profile ≠ [] →
      (∀ e ∈ profile, e.2.risk_percentage.isSome) →
      ∃ e pre post, highestRisk profile = some e ∧ profile = pre ++ e :: post ∧
        (∀ x ∈ pre, RanksAbove e x) ∧ (∀ x ∈ post, RanksAtLeast e x)) ∧
    highestRisk [("riverine", mechanismRisk 70), ("flash", mechanismRisk 85)] =
      some ("flash", mechanismRisk 85) ∧
    riskProfileHtml
        { error := none, location := "Dhaka", risk_probability := some (82 / 100),
          status := "HIGH", current_rainfall := some 12, current_water_level := some 3,
          geographic_factors := none,
          flood_risk_profile :=
            some [("riverine", mechanismRisk 70), ("flash", mechanismRisk 85)] } =
      .ok (some ("Flash Flood", 85)) := by
  refine ⟨highestRisk_first_maximum, ?_, ?_⟩
  · norm_num [highestRisk, arraySort, sortInsert, byRiskPercentage, jsSub, comparePositive,
      mechanismRisk]
  · norm_num [riskProfileHtml, highestRisk, arraySort, sortInsert, byRiskPercentage, jsSub,
      comparePositive, mechanismRisk, listTypeName]
    decide

/-- Witness of C4 on the profile {tidal: 85, riverine: 70, flash: 85}, a tie for the maximum. -/
theorem C4_highestRisk_first_maximum_witness :
    ∃ e pre post,
      highestRisk [("tidal", mechanismRisk 85), ("riverine", mechanismRisk 70),
        ("flash", mechanismRisk 85)] = some e ∧
      [("tidal", mechanismRisk 85), ("riverine", mechanismRisk 70),
        ("flash", mechanismRisk 85)] = pre ++ e :: post ∧
      (∀ x ∈ pre, RanksAbove e x) ∧ (∀ x ∈ post, RanksAtLeast e x) :=
  C4_highestRisk_first_maximum.1 _ (by simp) (by simp [mechanismRisk])

theorem byRiskPercentage_pos_ne (a b : ProfileEntry)
    (h : comparePositive (byRiskPercentage a b) = true) :
    a.2.risk_percentage ≠ b.2.risk_percentage := by
  obtain ⟨x, y, hx, hy, hlt⟩ := (byRiskPercentage_pos a b).mp h
  rw [hx, hy]
  intro heq
  cases heq
  exact lt_irrefl _ hlt

/-- The entries of one risk percentage stand in `sortedTypes` as they stand in the profile. -/
theorem sortedTypes_filter_eq (profile : FloodRiskProfile) (v : Option ℚ) :
    (sortedTypes profile).filter (fun e => decide (e.2.risk_percentage = v)) =
      profile.filter (fun e => decide (e.2.risk_percentage = v)) := by
  apply arraySort_filter
  intro a b hpos ha
  have hne := byRiskPercentage_pos_ne a b hpos
  simp only [decide_eq_true_eq] at ha
  simp only [decide_eq_false_iff_not]
  intro hb
  exact hne (ha.trans hb.symm)

/-- C5: the ranking is stable: two entries of equal risk_percentage, of which `a` stands before
`b` in the iteration order of the mapping, stand in `sortedTypes` with `a` before `b`. -/
theorem C5_sortedTypes_stable (profile : FloodRiskProfile) (a b : ProfileEntry)
    (hab : a.2.risk_percentage = b.2.risk_percentage) (h : [a, b].Sublist profile) :
    [a, b].Sublist (sortedTypes profile) := by
  have hf := (h.filter (fun e => decide (e.2.risk_percentage = a.2.risk_percentage)))
  rw [← sortedTypes_filter_eq profile] at hf
  have hab2 : [a, b].filter (fun e => decide (e.2.risk_percentage = a.2.risk_percentage)) =
      [a, b] := by
    simp [List.filter_cons, hab]
  rw [hab2] at hf
  exact hf.trans (List.filter_sublist _)

/-- Witness of C5 on the profile {riverine: 70, flash: 85, tidal: 70}: riverine stays before
tidal. -/
theorem C5_sortedTypes_stable_witness :
    [("riverine", mechanismRisk 70), ("tidal", mechanismRisk 70)].Sublist
      (sortedTypes [("riverine", mechanismRisk 70), ("flash", mechanismRisk 85),
        ("tidal", mechanismRisk 70)]) :=
  C5_sortedTypes_stable
    [("riverine", mechanismRisk 70), ("flash", mechanismRisk 85), ("tidal", mechanismRisk 70)]
    ("riverine", mechanismRisk 70) ("tidal", mechanismRisk 70) rfl
    (by
      refine List.Sublist.cons₂ _ ?_
      refine List.Sublist.cons _ ?_
      exact List.Sublist.refl _)

/-- C6: for the empty mapping the ranking is empty, no primary mechanism is selected and the list
row gets no primary line; a profile of one mechanism has that mechanism as primary; and for every
non-empty profile the primary is the first element of the ranked sequence. -/
theorem C6_empty_single_first :
    sortedTypes [] = [] ∧ highestRisk [] = none ∧
    (∀ data : PredictionData, data.flood_risk_profile = some [] →
      riskProfileHtml data = .ok none ∧ popupPrimaryRisk data = none) ∧
    (∀ e : ProfileEntry, highestRisk [e] = some e ∧ sortedTypes [e] = [e]) ∧
    (∀ profile : FloodRiskProfile, profile ≠ [] →
      ∃ e, highestRisk profile = some e ∧ (sortedTypes profile).head? = some e) := by
  refine ⟨rfl, rfl, ?_, fun e => ⟨rfl, rfl⟩, ?_⟩
  · intro data h
    simp [riskProfileHtml, popupPrimaryRisk, h, highestRisk, arraySort]
  · intro profile hne
    have hne2 : sortedTypes profile ≠ [] := by
      intro h0
      have hp := arraySort_perm byRiskPercentage profile
      rw [show arraySort byRiskPercentage profile = [] from h0] at hp
      exact hne hp.symm.eq_nil
    cases hs : sortedTypes profile with
    | nil => exact absurd hs hne2
    | cons e l =>
      refine ⟨e, ?_, rfl⟩
      show (arraySort byRiskPercentage profile).head? = some e
      rw [show arraySort byRiskPercentage profile = e :: l from hs]
      rfl

/-- Witness of C6 on the profile {riverine: 70, flash: 85}. -/
theorem C6_empty_single_first_witness :
    ∃ e, highestRisk [("riverine", mechanismRisk 70), ("flash", mechanismRisk 85)] = some e ∧
      (sortedTypes [("riverine", mechanismRisk 70), ("flash", mechanismRisk 85)]).head? =
        some e :=
  C6_empty_single_first.2.2.2.2 _ (by simp)

/-! ### The loop of `updateLocationsList` -/

theorem getMarker_eq_other (markers : List (String × Marker)) (proto : Option Marker)
    (name : String) :
    getMarker markers proto name = some .other ↔
      (markers.find? fun e => e.1 == name) = none ∧
        (if name = "__proto__" then proto = none
          else name ∈ objectPrototype ∨ (proto.isSome = true ∧ name ∈ markerMembers)) := by
  unfold getMarker
  cases hfind : markers.find? fun e => e.1 == name with
  | some e => simp
  | none =>
    by_cases hp : name = "__proto__"
    · cases proto <;> simp [hp]
    · by_cases ho : name ∈ objectPrototype
      · simp [hp, ho]
      · cases proto <;> simp [hp, ho]

theorem find?_map_key (markers : List (String × Marker)) (f : String × Marker → String × Marker)
    (hf : ∀ e, (f e).1 = e.1) (name : String) :
    ((markers.map f).find? fun e => e.1 == name) = none ↔
      (markers.find? fun e => e.1 == name) = none := by
  simp only [List.find?_eq_none, List.mem_map]
  constructor
  · intro h e he
    have := h (f e) ⟨e, he, rfl⟩
    rwa [hf] at this
  · rintro h _ ⟨e, he, rfl⟩
    rw [hf]
    exact h e he

theorem updateMarker_frame (location : Location) (data : PredictionData) (s t : Page)
    (h : updateMarker location data s = .ok t) :
    t.requests = s.requests ∧ t.locationsList = s.locationsList ∧
      ∀ name, t.findsOther name = s.findsOther name := by
  unfold updateMarker at h
  split at h
  · cases h; exact ⟨rfl, rfl, fun _ => rfl⟩
  · cases h
  · cases h
    refine ⟨rfl, rfl, ?_⟩
    intro name
    unfold Page.findsOther
    rw [Bool.eq_iff_iff]
    simp only [beq_iff_eq, getMarker_eq_other]
    rw [find?_map_key _ _ (fun e => by split <;> rfl)]
    cases s.markersProto <;> simp

theorem updateMarker_of_not_other (location : Location) (data : PredictionData) (s : Page)
    (h : s.findsOther location.name = false) : ∃ t, updateMarker location data s = .ok t := by
  unfold Page.findsOther at h
  unfold updateMarker
  split
  · exact ⟨_, rfl⟩
  · next heq => rw [heq] at h; exact absurd h (by decide)
  · exact ⟨_, rfl⟩

theorem locationStep_requests (net : Network) (s : Page) (location : Location) :
    (locationStep net s location).requests =
      s.requests ++ [⟨API_BASE_URL, .predict location.name⟩] := by
  unfold locationStep
  split
  · rfl
  · split
    · rfl
    · dsimp only
      split
      · next updated h => rw [(updateMarker_frame _ _ _ _ h).1]; rfl
      · rfl

theorem locationStep_findsOther (net : Network) (s : Page) (location : Location)
    (name : String) :
    (locationStep net s location).findsOther name = s.findsOther name := by
  unfold locationStep
  split
  · rfl
  · split
    · rfl
    · dsimp only
      split
      · next updated h => rw [(updateMarker_frame _ _ _ _ h).2.2]; rfl
      · rfl

/-- A turn of the loop of app.js whose marker block does not throw appends the row of the
location, after emptying a list that shows an element of class `loading`. -/
theorem locationStep_locationsList (net : Network) (s : Page) (location : Location)
    (h : s.findsOther location.name = false) :
    (locationStep net s location).locationsList =
      s.locationsList.map fun children =>
        (if children.any ListChild.isLoading then [] else children) ++
          [locationRow location (net.predict s.requests.length location.name)] := by
  unfold locationStep locationRow
  split
  · rfl
  · next data _ =>
    split
    · rfl
    · next element _ =>
      obtain ⟨t, ht⟩ := updateMarker_of_not_other location data
        (appendChild element (s.fetch ⟨API_BASE_URL, .predict location.name⟩)) h
      simp only [ht]
      rw [(updateMarker_frame _ _ _ _ ht).2.1]
      rfl

theorem debug_locationStep_requests (net : Network) (s : Page) (location : Location) :
    (Debug.locationStep net s location).requests =
      s.requests ++ [⟨Debug.API_BASE, .predict location.name⟩] := by
  unfold Debug.locationStep
  split
  · rfl
  · split
    · split <;> rfl
    · rfl

theorem debug_locationStep_locationsList (net : Network) (s : Page) (location : Location) :
    (Debug.locationStep net s location).locationsList =
      s.locationsList.map fun children =>
        (if children.any ListChild.isLoading then [] else children) ++
          [Debug.locationRow location (net.predict s.requests.length location.name)] := by
  unfold Debug.locationStep Debug.locationRow
  split
  · rfl
  · split
    · split <;> rfl
    · rfl

theorem locationRow_name (location : Location) (fetched : Fetched PredictionData) :
    (locationRow location fetched).name = some location.name := by
  unfold locationRow
  split
  · rfl
  · next data _ =>
    split
    · rfl
    · next element h =>
      unfold locationElement at h
      split at h
      · cases h
      · split at h
        · cases h
        · cases h; rfl

theorem debug_locationRow_name (location : Location) (fetched : Fetched PredictionData) :
    (Debug.locationRow location fetched).name = some location.name := by
  unfold Debug.locationRow
  split
  · rfl
  · split
    · split <;> rfl
    · rfl

theorem rowsFrom_length (row : Location → Fetched PredictionData → ListChild) (net : Network)
    (k : Nat) (locations : List Location) :
    (rowsFrom row net k locations).length = locations.length := by
  induction locations generalizing k with
  | nil => rfl
  | cons l rest ih => simp [rowsFrom, ih]

theorem rowsFrom_getElem? (row : Location → Fetched PredictionData → ListChild) (net : Network)
    (k : Nat) (locations : List Location) (i : Nat) :
    (rowsFrom row net k locations)[i]? =
      locations[i]?.map fun l => row l (net.predict (k + i) l.name) := by
  induction locations generalizing k i with
  | nil => simp [rowsFrom]
  | cons l rest ih =>
    cases i with
    | zero => simp [rowsFrom]
    | succ i =>
      simp only [rowsFrom, List.getElem?_cons_succ, ih]
      have : k + 1 + i = k + (i + 1) := by omega
      rw [this]

theorem rowsFrom_names (row : Location → Fetched PredictionData → ListChild)
    (hrow : ∀ l f, (row l f).name = some l.name) (net : Network) (k : Nat)
    (locations : List Location) :
    (rowsFrom row net k locations).map ListChild.name = locations.map fun l => some l.name := by
  induction locations generalizing k with
  | nil => rfl
  | cons l rest ih => simp [rowsFrom, hrow, ih]

/-- The loop issues one request a location, in the order of the list. -/
theorem foldl_step_requests (step : Network → Page → Location → Page) (base : String)
    (hreq : ∀ net s l, (step net s l).requests = s.requests ++ [⟨base, .predict l.name⟩])
    (net : Network) (locations : List Location) (s : Page) :
    (locations.foldl (step net) s).requests =
      s.requests ++ locations.map fun l => ⟨base, .predict l.name⟩ := by
  induction locations generalizing s with
  | nil => simp
  | cons l rest ih =>
    rw [List.foldl_cons, ih, hreq]
    simp

/-- The loop over a list that shows no element of class `loading`, where no row makes such an
element and every turn is `fine`, appends one row a location, in order. -/
theorem foldl_step_rows (row : Location → Fetched PredictionData → ListChild)
    (step : Network → Page → Location → Page) (base : String) (fine : Page → Location → Prop)
    (hfine : ∀ net s l l', fine s l' → fine (step net s l) l')
    (hreq : ∀ net s l, (step net s l).requests = s.requests ++ [⟨base, .predict l.name⟩])
    (hlist : ∀ net s l, fine s l → (step net s l).locationsList =
      s.locationsList.map fun children =>
        (if children.any ListChild.isLoading then [] else children) ++
          [row l (net.predict s.requests.length l.name)])
    (net : Network) (locations : List Location) (s : Page) (children : List ListChild)
    (hs : s.locationsList = some children) (hc : children.any ListChild.isLoading = false)
    (hrows : ∀ i l, locations[i]? = some l →
      (row l (net.predict (s.requests.length + i) l.name)).isLoading = false)
    (hfines : ∀ l ∈ locations, fine s l) :
    (locations.foldl (step net) s).locationsList =
      some (children ++ rowsFrom row net s.requests.length locations) := by
  induction locations generalizing s children with
  | nil => simp [rowsFrom, hs]
  | cons l rest ih =>
    have h0 := hrows 0 l (by simp)
    rw [Nat.add_zero] at h0
    have h1 : (step net s l).locationsList =
        some (children ++ [row l (net.predict s.requests.length l.name)]) := by
      rw [hlist net s l (hfines l (List.mem_cons_self _ _)), hs]
      simp only [Option.map_some', hc, Bool.false_eq_true, if_false]
    have h2 : (children ++ [row l (net.predict s.requests.length l.name)]).any
        ListChild.isLoading = false := by
      simp [List.any_append, hc, h0]
    have hlen : (step net s l).requests.length = s.requests.length + 1 := by
      rw [hreq]; simp
    have ha := ih (step net s l) _ h1 h2
      (fun i l' hi => by
        have := hrows (i + 1) l' (by simpa using hi)
        rw [hlen]
        have e : s.requests.length + 1 + i = s.requests.length + (i + 1) := by omega
        rw [e]; exact this)
      (fun l' hl' => hfine net s l l' (hfines l' (List.mem_cons_of_mem _ hl')))
    rw [List.foldl_cons, ha, hlen]
    simp [rowsFrom]

/-- The loop started on the placeholder: the first row replaces it. -/
theorem foldl_step_loading (row : Location → Fetched PredictionData → ListChild)
    (step : Network → Page → Location → Page) (base : String) (fine : Page → Location → Prop)
    (hfine : ∀ net s l l', fine s l' → fine (step net s l) l')
    (hreq : ∀ net s l, (step net s l).requests = s.requests ++ [⟨base, .predict l.name⟩])
    (hlist : ∀ net s l, fine s l → (step net s l).locationsList =
      s.locationsList.map fun children =>
        (if children.any ListChild.isLoading then [] else children) ++
          [row l (net.predict s.requests.length l.name)])
    (net : Network) (locations : List Location) (s : Page)
    (hs : s.locationsList = some [.loading])
    (hrows : ∀ i l, locations[i]? = some l →
      (row l (net.predict (s.requests.length + i) l.name)).isLoading = false)
    (hfines : ∀ l ∈ locations, fine s l) :
    (locations.foldl (step net) s).locationsList =
      some (if locations = [] then [.loading]
        else rowsFrom row net s.requests.length locations) := by
  cases locations with
  | nil => simp [hs]
  | cons l rest =>
    have h0 := hrows 0 l (by simp)
    rw [Nat.add_zero] at h0
    have h1 : (step net s l).locationsList =
        some ([] ++ [row l (net.predict s.requests.length l.name)]) := by
      rw [hlist net s l (hfines l (List.mem_cons_self _ _)), hs]
      simp [ListChild.isLoading]
    have h2 : ([] ++ [row l (net.predict s.requests.length l.name)]).any
        ListChild.isLoading = false := by
      simp [h0]
    have hlen : (step net s l).requests.length = s.requests.length + 1 := by
      rw [hreq]; simp
    have ha := foldl_step_rows row step base fine hfine hreq hlist net rest (step net s l) _
      h1 h2
      (fun i l' hi => by
        have := hrows (i + 1) l' (by simpa using hi)
        rw [hlen]
        have e : s.requests.length + 1 + i = s.requests.length + (i + 1) := by omega
        rw [e]; exact this)
      (fun l' hl' => hfine net s l l' (hfines l' (List.mem_cons_of_mem _ hl')))
    rw [List.foldl_cons, ha, hlen]
    simp [rowsFrom]

/-- What `updateLocationsList` of app.js issues and how it ends, on a page that has the
list. -/
theorem updateLocationsList_array_trace (net : Network) (locations : List Location) (s : Page)
    (hs : s.locationsList.isSome) :
    (updateLocationsList net (.array locations) s).thrown = none ∧
      (updateLocationsList net (.array locations) s).page.requests =
        s.requests ++ locations.map fun l => ⟨API_BASE_URL, .predict l.name⟩ := by
  obtain ⟨c, hc⟩ := Option.isSome_iff_exists.mp hs
  unfold updateLocationsList
  rw [hc]
  exact ⟨rfl, foldl_step_requests locationStep API_BASE_URL locationStep_requests net
    locations _⟩

/-- What `updateLocationsList` of app-debug.js issues and how it ends. -/
theorem debug_updateLocationsList_array_trace (net : Network) (locations : List Location)
    (s : Page) (hs : s.locationsList.isSome) :
    (Debug.updateLocationsList net (.array locations) s).thrown = none ∧
      (Debug.updateLocationsList net (.array locations) s).page.requests =
        s.requests ++ locations.map fun l => ⟨Debug.API_BASE, .predict l.name⟩ := by
  obtain ⟨c, hc⟩ := Option.isSome_iff_exists.mp hs
  unfold Debug.updateLocationsList
  rw [hc]
  exact ⟨rfl, foldl_step_requests Debug.locationStep Debug.API_BASE
    debug_locationStep_requests net locations _⟩

/-- What `updateLocationsList` of app.js leaves for an array, on a page that has the list, where
no row of the run makes an element of class `loading` and no read of `markers` finds a member
that is no marker. -/
theorem updateLocationsList_array (net : Network) (locations : List Location) (s : Page)
    (hs : s.locationsList.isSome)
    (hrows : ∀ i l, locations[i]? = some l →
      (locationRow l (net.predict (s.requests.length + i) l.name)).isLoading = false)
    (hfines : ∀ l ∈ locations, s.findsOther l.name = false) :
    (updateLocationsList net (.array locations) s).thrown = none ∧
      (updateLocationsList net (.array locations) s).page.locationsList =
        some (if locations = [] then [.loading]
          else rowsFrom locationRow net s.requests.length locations) ∧
      (updateLocationsList net (.array locations) s).page.requests =
        s.requests ++ locations.map fun l => ⟨API_BASE_URL, .predict l.name⟩ := by
  obtain ⟨h1, h3⟩ := updateLocationsList_array_trace net locations s hs
  refine ⟨h1, ?_, h3⟩
  obtain ⟨c, hc⟩ := Option.isSome_iff_exists.mp hs
  unfold updateLocationsList
  rw [hc]
  exact foldl_step_loading locationRow locationStep API_BASE_URL
    (fun s l => s.findsOther l.name = false)
    (fun net s l l' h => by
      show (locationStep net s l).findsOther l'.name = false
      rw [locationStep_findsOther]; exact h)
    locationStep_requests locationStep_locationsList net locations _ rfl hrows hfines

/-- What `updateLocationsList` of app-debug.js leaves for an array, where no row of the run
makes an element of class `loading`. -/
theorem debug_updateLocationsList_array (net : Network) (locations : List Location) (s : Page)
    (hs : s.locationsList.isSome)
    (hrows : ∀ i l, locations[i]? = some l →
      (Debug.locationRow l (net.predict (s.requests.length + i) l.name)).isLoading = false) :
    (Debug.updateLocationsList net (.array locations) s).thrown = none ∧
      (Debug.updateLocationsList net (.array locations) s).page.locationsList =
        some (if locations = [] then [.loading]
          else rowsFrom Debug.locationRow net s.requests.length locations) ∧
      (Debug.updateLocationsList net (.array locations) s).page.requests =
        s.requests ++ locations.map fun l => ⟨Debug.API_BASE, .predict l.name⟩ := by
  obtain ⟨h1, h3⟩ := debug_updateLocationsList_array_trace net locations s hs
  refine ⟨h1, ?_, h3⟩
  obtain ⟨c, hc⟩ := Option.isSome_iff_exists.mp hs
  unfold Debug.updateLocationsList
  rw [hc]
  exact foldl_step_loading Debug.locationRow Debug.locationStep Debug.API_BASE
    (fun _ _ => True) (fun _ _ _ _ h => h) debug_locationStep_requests
    (fun net s l _ => debug_locationStep_locationsList net s l) net locations _ rfl hrows
    (fun _ _ => trivial)

/-! ### The steps of the cycle -/

theorem andThen_of_none (o : Outcome) (next : Page → Outcome) (h : o.thrown = none) :
    o.andThen next = next o.page := by
  unfold Outcome.andThen; rw [h]

theorem andThen_of_some (o : Outcome) (next : Page → Outcome) (e : JsError)
    (h : o.thrown = some e) : o.andThen next = o := by
  unfold Outcome.andThen; rw [h]

theorem updateSystemStatus_requests (data : Option SystemStatus) (s : Page) :
    (updateSystemStatus data s).page.requests = s.requests := by
  unfold updateSystemStatus
  split
  · split <;> rfl
  · rfl

theorem debug_updateSystemStatus_requests (data : Option SystemStatus) (s : Page) :
    (Debug.updateSystemStatus data s).page.requests = s.requests := by
  unfold Debug.updateSystemStatus
  split
  · split <;> rfl
  · rfl

theorem loadStatus_requests (net : Network) (s : Page) :
    (loadStatus net s).page.requests = s.requests ++ [⟨BASE_URL, .status⟩] := by
  unfold loadStatus
  split
  · rfl
  · split
    · split
      · rfl
      · rw [updateSystemStatus_requests]; rfl
      · rw [updateSystemStatus_requests]; rfl
    · rfl

theorem debug_loadStatus_requests (net : Network) (s : Page) :
    (Debug.loadStatus net s).page.requests = s.requests ++ [⟨Debug.API_BASE, .status⟩] := by
  unfold Debug.loadStatus
  split
  · rfl
  · split
    · split
      · rfl
      · rw [debug_updateSystemStatus_requests]; rfl
      · rw [debug_updateSystemStatus_requests]; rfl
    · rfl

theorem loadStatus_failed (net : Network) (s : Page)
    (h : (net.status s.requests.length).failed = true) :
    ∃ e, (loadStatus net s).thrown = some e := by
  unfold loadStatus
  unfold Fetched.failed at h
  split
  · exact ⟨_, rfl⟩
  · next status body heq =>
    rw [heq] at h
    simp only [Bool.not_eq_true'] at h
    rw [h]
    exact ⟨_, rfl⟩

theorem debug_loadStatus_failed (net : Network) (s : Page)
    (h : (net.status s.requests.length).failed = true) :
    ∃ e, (Debug.loadStatus net s).thrown = some e := by
  unfold Debug.loadStatus
  unfold Fetched.failed at h
  split
  · exact ⟨_, rfl⟩
  · next status body heq =>
    rw [heq] at h
    simp only [Bool.not_eq_true'] at h
    rw [h]
    exact ⟨_, rfl⟩

theorem loadLocations_failed (net : Network) (s : Page)
    (h : (net.locations s.requests.length).failed = true) :
    (∃ e, (loadLocations net s).thrown = some e) ∧
      (loadLocations net s).page.requests = s.requests ++ [⟨BASE_URL, .locations⟩] := by
  unfold loadLocations
  unfold Fetched.failed at h
  split
  · exact ⟨⟨_, rfl⟩, rfl⟩
  · next status body heq =>
    rw [heq] at h
    simp only [Bool.not_eq_true'] at h
    rw [h]
    exact ⟨⟨_, rfl⟩, rfl⟩

theorem debug_loadLocations_failed (net : Network) (s : Page)
    (h : (net.locations s.requests.length).failed = true) :
    (∃ e, (Debug.loadLocations net s).thrown = some e) ∧
      (Debug.loadLocations net s).page.requests =
        s.requests ++ [⟨Debug.API_BASE, .locations⟩] := by
  unfold Debug.loadLocations
  unfold Fetched.failed at h
  split
  · exact ⟨⟨_, rfl⟩, rfl⟩
  · next status body heq =>
    rw [heq] at h
    simp only [Bool.not_eq_true'] at h
    rw [h]
    exact ⟨⟨_, rfl⟩, rfl⟩

/-- What the `catch` of `loadDashboardData` (app.js) leaves when the `try` block threw. -/
theorem loadDashboardData_thrown (net : Network) (s : Page) (e : JsError)
    (h : (loadDashboardSteps net s).thrown = some e) :
    (loadDashboardData net s).requests = (loadDashboardSteps net s).page.requests ∧
      (loadDashboardData net s).connectionError = some e := by
  unfold loadDashboardData
  simp only [h]
  exact ⟨rfl, rfl⟩

theorem issuedSince_of_append (before after : Page) (l : List Request)
    (h : after.requests = before.requests ++ l) : issuedSince before after = l := by
  unfold issuedSince
  rw [h, List.drop_left]

/-- Where the status block throws, the cycle of app.js ends in the `catch` with that error. -/
theorem loadDashboardData_status_thrown (net : Network) (s : Page) (e : JsError)
    (h : (loadStatus net s).thrown = some e) :
    issuedSince s (loadDashboardData net s) = [⟨BASE_URL, .status⟩] ∧
      (loadDashboardData net s).connectionError = some e := by
  have hsteps : loadDashboardSteps net s = loadStatus net s := by
    unfold loadDashboardSteps
    exact andThen_of_some _ _ e h
  obtain ⟨h1, h2⟩ := loadDashboardData_thrown net s e (by rw [hsteps]; exact h)
  refine ⟨issuedSince_of_append _ _ _ ?_, h2⟩
  rw [h1, hsteps, loadStatus_requests]

/-- Where the locations fetch fails, the cycle of app.js ends in the `catch`. -/
theorem loadDashboardData_locations_failed (net : Network) (s : Page)
    (hstatus : (loadStatus net s).thrown = none)
    (h : (net.locations (s.requests.length + 1)).failed = true) :
    issuedSince s (loadDashboardData net s) = [⟨BASE_URL, .status⟩, ⟨BASE_URL, .locations⟩] ∧
      (loadDashboardData net s).connectionError.isSome = true := by
  have hlen : (loadStatus net s).page.requests.length = s.requests.length + 1 := by
    rw [loadStatus_requests]; simp
  obtain ⟨⟨e, he⟩, hreq⟩ := loadLocations_failed net (loadStatus net s).page (by rw [hlen]; exact h)
  have hsteps : loadDashboardSteps net s = loadLocations net (loadStatus net s).page := by
    unfold loadDashboardSteps
    rw [andThen_of_none _ _ hstatus]
    exact andThen_of_some _ _ e he
  obtain ⟨h1, h2⟩ := loadDashboardData_thrown net s e (by rw [hsteps]; exact he)
  refine ⟨issuedSince_of_append _ _ _ ?_, by rw [h2]; rfl⟩
  rw [h1, hsteps, hreq, loadStatus_requests]
  simp

theorem debug_loadDashboardData_status_thrown (net : Network) (s : Page) (e : JsError)
    (h : (Debug.loadStatus net s).thrown = some e) :
    issuedSince s (Debug.loadDashboardData net s).page = [⟨Debug.API_BASE, .status⟩] ∧
      (Debug.loadDashboardData net s).thrown = some e := by
  have hsteps : Debug.loadDashboardData net s = Debug.loadStatus net s := by
    unfold Debug.loadDashboardData
    exact andThen_of_some _ _ e h
  refine ⟨issuedSince_of_append _ _ _ ?_, by rw [hsteps]; exact h⟩
  rw [hsteps, debug_loadStatus_requests]

theorem debug_loadDashboardData_locations_failed (net : Network) (s : Page)
    (hstatus : (Debug.loadStatus net s).thrown = none)
    (h : (net.locations (s.requests.length + 1)).failed = true) :
    issuedSince s (Debug.loadDashboardData net s).page =
        [⟨Debug.API_BASE, .status⟩, ⟨Debug.API_BASE, .locations⟩] ∧
      (Debug.loadDashboardData net s).thrown.isSome = true := by
  have hlen : (Debug.loadStatus net s).page.requests.length = s.requests.length + 1 := by
    rw [debug_loadStatus_requests]; simp
  obtain ⟨⟨e, he⟩, hreq⟩ :=
    debug_loadLocations_failed net (Debug.loadStatus net s).page (by rw [hlen]; exact h)
  have hsteps : Debug.loadDashboardData net s =
      Debug.loadLocations net (Debug.loadStatus net s).page := by
    unfold Debug.loadDashboardData
    rw [andThen_of_none _ _ hstatus]
    exact andThen_of_some _ _ e he
  refine ⟨issuedSince_of_append _ _ _ ?_, by rw [hsteps, he]; rfl⟩
  rw [hsteps, hreq, debug_loadStatus_requests]
  simp

/-- The caller of `loadDashboardData` in app-debug.js shows the error the cycle throws. -/
theorem debug_initializeApp_thrown (doc : Document) (net : Network) (s : Page) (e : JsError)
    (hmap : (doc.mapElement && doc.leafletLoaded) = true)
    (hchart : (doc.chartElement && !doc.chartLoaded) = false)
    (h : (Debug.loadDashboardData net { s with loadingMessage := true, map := some [] }).thrown =
      some e) :
    (Debug.initializeApp doc net s).errorDialog = some e ∧
      (Debug.initializeApp doc net s).requests =
        (Debug.loadDashboardData net { s with loadingMessage := true, map := some [] }).page.requests
      := by
  unfold Debug.initializeApp Debug.initializeMap Debug.initializeChart
  simp only [hmap, hchart, if_true, Bool.false_eq_true, if_false]
  rw [andThen_of_none _ _ rfl, andThen_of_none _ _ rfl, andThen_of_some _ _ e h]
  simp only [h]
  exact ⟨rfl, rfl⟩

/-- C7: in a cycle of `loadDashboardData` whose status fetch fails (network error or non-2xx) the
status request is the only request of the cycle; in one whose locations fetch fails the status
and the locations request are the only ones; so no `/api/predict/...` and no `/api/alerts`
request is issued, and the cycle ends in the connection-error state: app.js shows the
`connection-error` banner, app-debug.js throws to `initializeApp`, which shows its error
dialog. -/
theorem C7_critical_failure_stops_cycle (net : Network) (s : Page) :
    ((net.status s.requests.length).failed = true →
      issuedSince s (loadDashboardData net s) = [⟨BASE_URL, .status⟩] ∧
      (loadDashboardData net s).connectionError.isSome = true) ∧
    ((loadStatus net s).thrown = none → (net.locations (s.requests.length + 1)).failed = true →
      issuedSince s (loadDashboardData net s) =
        [⟨BASE_URL, .status⟩, ⟨BASE_URL, .locations⟩] ∧
      (loadDashboardData net s).connectionError.isSome = true) ∧
    ((net.status s.requests.length).failed = true →
      issuedSince s (Debug.loadDashboardData net s).page = [⟨Debug.API_BASE, .status⟩] ∧
      (Debug.loadDashboardData net s).thrown.isSome = true) ∧
    ((Debug.loadStatus net s).thrown = none →
      (net.locations (s.requests.length + 1)).failed = true →
      issuedSince s (Debug.loadDashboardData net s).page =
        [⟨Debug.API_BASE, .status⟩, ⟨Debug.API_BASE, .locations⟩] ∧
      (Debug.loadDashboardData net s).thrown.isSome = true) ∧
    (∀ (doc : Document) (e : JsError), (doc.mapElement && doc.leafletLoaded) = true →
      (doc.chartElement && !doc.chartLoaded) = false →
      (Debug.loadDashboardData net { s with loadingMessage := true, map := some [] }).thrown =
        some e →
      (Debug.initializeApp doc net s).errorDialog = some e ∧
      (Debug.initializeApp doc net s).requests =
        (Debug.loadDashboardData net
          { s with loadingMessage := true, map := some [] }).page.requests) := by
  refine ⟨fun h => ?_, loadDashboardData_locations_failed net s, fun h => ?_,
    debug_loadDashboardData_locations_failed net s,
    fun doc e => debug_initializeApp_thrown doc net s e⟩
  · obtain ⟨e, he⟩ := loadStatus_failed net s h
    obtain ⟨h1, h2⟩ := loadDashboardData_status_thrown net s e he
    exact ⟨h1, by rw [h2]; rfl⟩
  · obtain ⟨e, he⟩ := debug_loadStatus_failed net s h
    obtain ⟨h1, h2⟩ := debug_loadDashboardData_status_thrown net s e he
    exact ⟨h1, by rw [h2]; rfl⟩

/-- Witness of C7: with every fetch rejecting, the status request is the only one and the banner
is shown; with `/api/locations` answering 503 after a served status, the cycle stops after the
locations request, in both builds. -/
theorem C7_critical_failure_stops_cycle_witness :
    (issuedSince Page.initial (loadDashboardData offline Page.initial) = [⟨BASE_URL, .status⟩] ∧
      (loadDashboardData offline Page.initial).connectionError.isSome = true) ∧
    (issuedSince Page.initial (loadDashboardData locationsDown Page.initial) =
        [⟨BASE_URL, .status⟩, ⟨BASE_URL, .locations⟩] ∧
      (loadDashboardData locationsDown Page.initial).connectionError.isSome = true) ∧
    (issuedSince Page.initial (Debug.loadDashboardData locationsDown Page.initial).page =
        [⟨Debug.API_BASE, .status⟩, ⟨Debug.API_BASE, .locations⟩] ∧
      (Debug.loadDashboardData locationsDown Page.initial).thrown.isSome = true) :=
  ⟨(C7_critical_failure_stops_cycle offline Page.initial).1 rfl,
    (C7_critical_failure_stops_cycle locationsDown Page.initial).2.1 rfl rfl,
    (C7_critical_failure_stops_cycle locationsDown Page.initial).2.2.2.1 rfl rfl⟩

/-! ### The cycle of app.js past the two critical feeds -/

theorem foldl_addLocationMarker (locations : List Location) (s : Page) :
    (locations.foldl addLocationMarker s).requests = s.requests ∧
      (locations.foldl addLocationMarker s).locationsList = s.locationsList ∧
      (locations.foldl addLocationMarker s).map.isSome = s.map.isSome := by
  induction locations generalizing s with
  | nil => exact ⟨rfl, rfl, rfl⟩
  | cons l rest ih =>
    obtain ⟨h1, h2, h3⟩ := ih (addLocationMarker s l)
    rw [List.foldl_cons, h1, h2, h3]
    refine ⟨rfl, rfl, ?_⟩
    unfold addLocationMarker
    cases s.map <;> rfl

theorem updateLocationsMap_array (locations : List Location) (s : Page)
    (hmap : s.map.isSome = true) :
    (updateLocationsMap (.array locations) s).thrown = none ∧
      (updateLocationsMap (.array locations) s).page.requests = s.requests ∧
      (updateLocationsMap (.array locations) s).page.locationsList = s.locationsList ∧
      (updateLocationsMap (.array locations) s).page.map.isSome = true := by
  obtain ⟨layers, hl⟩ := Option.isSome_iff_exists.mp hmap
  unfold updateLocationsMap
  simp only [hl]
  obtain ⟨h1, h2, h3⟩ := foldl_addLocationMarker locations
    { s with
      map := some (layers.filter fun m => !(s.markers.any fun e => e.2.id == m.id))
      markers := []
      markersProto := none }
  exact ⟨trivial, h1, h2, by rw [h3]; rfl⟩

/-- On an array `updateLocationsList` of app.js never throws: each turn of its loop catches. -/
theorem updateLocationsList_array_requests (net : Network) (locations : List Location)
    (s : Page) :
    (updateLocationsList net (.array locations) s).thrown = none ∧
      (updateLocationsList net (.array locations) s).page.requests =
        s.requests ++
          (if s.locationsList.isSome then
            locations.map fun l => (⟨API_BASE_URL, .predict l.name⟩ : Request)
          else []) := by
  cases hs : s.locationsList with
  | none =>
    unfold updateLocationsList
    simp [hs]
  | some c =>
    obtain ⟨h1, h3⟩ := updateLocationsList_array_trace net locations s (by rw [hs]; rfl)
    exact ⟨h1, by rw [h3]; simp⟩

theorem loadStatus_value (net : Network) (s : Page) (status : Nat) (data : SystemStatus)
    (h : net.status s.requests.length = .response status (.value data))
    (hok : responseOk status = true) :
    (loadStatus net s).thrown = none ∧ (loadStatus net s).page.map = s.map ∧
      (loadStatus net s).page.locationsList = s.locationsList := by
  unfold loadStatus
  rw [h]
  simp only [hok, if_true]
  exact ⟨rfl, rfl, rfl⟩

theorem loadLocations_array (net : Network) (s : Page) (status : Nat)
    (locations : List Location)
    (h : net.locations s.requests.length = .response status (.value (.array locations)))
    (hok : responseOk status = true) (hmap : s.map.isSome = true) :
    (loadLocations net s).thrown = none ∧
      (loadLocations net s).page.requests =
        s.requests ++ ⟨BASE_URL, .locations⟩ ::
          (if s.locationsList.isSome then
            locations.map fun l => (⟨API_BASE_URL, .predict l.name⟩ : Request)
          else []) := by
  obtain ⟨m1, m2, m3, _⟩ :=
    updateLocationsMap_array locations (s.fetch ⟨BASE_URL, .locations⟩) hmap
  obtain ⟨l1, l2⟩ := updateLocationsList_array_requests net locations
    (updateLocationsMap (.array locations) (s.fetch ⟨BASE_URL, .locations⟩)).page
  unfold loadLocations
  rw [h]
  simp only [hok, if_true]
  rw [andThen_of_none _ _ m1]
  refine ⟨l1, ?_⟩
  rw [l2, m2, m3]
  simp [Page.fetch]

theorem updateAlertsList_requests (alerts : Option (List Alert)) (s : Page) :
    (updateAlertsList alerts s).1.page.requests = s.requests := by
  unfold updateAlertsList
  split
  · rfl
  · split <;> rfl

theorem loadAlerts_requests (net : Network) (s : Page) :
    (loadAlerts net s).requests = s.requests ++ [⟨BASE_URL, .alerts⟩] := by
  unfold loadAlerts
  split
  · rfl
  · split
    · split
      · rfl
      · rfl
      · rw [updateAlertsList_requests]; rfl
    · rfl

theorem loadInitialProfile_decodable (net : Network) (s : Page)
    (h : (net.locations s.requests.length).decodable = true) :
    (loadInitialProfile net s).thrown = none := by
  unfold loadInitialProfile
  unfold Fetched.decodable at h
  split <;> simp_all

theorem loadInitialProfile_rejected (net : Network) (s : Page)
    (h : net.locations s.requests.length = .rejected) :
    (loadInitialProfile net s).thrown = some .failedToFetch := by
  unfold loadInitialProfile
  rw [h]

/-- The `try` block of `loadDashboardData` (app.js) once status and locations are served: what
is left is the alerts step and the initial-profile step. -/
theorem loadDashboardSteps_served (net : Network) (s : Page) (status status' : Nat)
    (data : SystemStatus) (locations : List Location)
    (hstatus : net.status s.requests.length = .response status (.value data))
    (hok : responseOk status = true)
    (hloc : net.locations (s.requests.length + 1) = .response status' (.value (.array locations)))
    (hok' : responseOk status' = true) (hmap : s.map.isSome = true) :
    ∃ s₂ : Page,
      s₂.requests = s.requests ++ ⟨BASE_URL, .status⟩ :: ⟨BASE_URL, .locations⟩ ::
        ((if s.locationsList.isSome then
            locations.map fun l => (⟨API_BASE_URL, .predict l.name⟩ : Request)
          else []) ++ [⟨BASE_URL, .alerts⟩]) ∧
      loadDashboardSteps net s =
        (loadInitialProfile net s₂).andThen fun s => ⟨{ s with connectionError := none }, none⟩
      := by
  obtain ⟨a1, a2, a3⟩ := loadStatus_value net s status data hstatus hok
  have hreq := loadStatus_requests net s
  have hlen : (loadStatus net s).page.requests.length = s.requests.length + 1 := by
    rw [hreq]; simp
  obtain ⟨b1, b2⟩ := loadLocations_array net (loadStatus net s).page status' locations
    (by rw [hlen]; exact hloc) hok' (by rw [a2]; exact hmap)
  refine ⟨loadAlerts net (loadLocations net (loadStatus net s).page).page, ?_, ?_⟩
  · rw [loadAlerts_requests, b2, hreq, a3]
    simp
  · unfold loadDashboardSteps
    rw [andThen_of_none _ _ a1, andThen_of_none _ _ b1]

/-- Where the status and the locations are served and every later fetch of `/api/locations`
returns a body that can be decoded, the cycle of app.js ends without the banner, whatever the
prediction fetches, the alerts fetch and the profile fetch yield. -/
theorem loadDashboardData_no_banner (net : Network) (s : Page) (status status' : Nat)
    (data : SystemStatus) (locations : List Location)
    (hstatus : net.status s.requests.length = .response status (.value data))
    (hok : responseOk status = true)
    (hloc : net.locations (s.requests.length + 1) = .response status' (.value (.array locations)))
    (hok' : responseOk status' = true) (hmap : s.map.isSome = true)
    (hrefetch : ∀ k, s.requests.length + 1 < k → (net.locations k).decodable = true) :
    (loadDashboardData net s).connectionError = none := by
  obtain ⟨s₂, hreq, hsteps⟩ :=
    loadDashboardSteps_served net s status status' data locations hstatus hok hloc hok' hmap
  have hlen : s.requests.length + 1 < s₂.requests.length := by
    rw [hreq]; simp
  have hthrown := loadInitialProfile_decodable net s₂ (hrefetch _ hlen)
  unfold loadDashboardData
  rw [hsteps, andThen_of_none _ _ hthrown]

/-- C8 at a failing input: the status fetch and the locations fetch succeed, every prediction
and the alerts are served, and the cycle of app.js still ends in the connection-error state,
because the second fetch of `/api/locations`, which opens the initial-profile step and stands
outside every inner `try`, rejects.  The fetches that stand inside an inner `try` whose `catch`
does not rethrow do not end the cycle so: with every prediction and the alerts rejecting and
that second fetch served, the cycle ends without the banner. -/
theorem C8_profile_refetch_aborts_cycle :
    refetchDown.status 0 = .response 200 (.value statusBody) ∧
    refetchDown.locations 1 = .response 200 (.value (.array [dhaka])) ∧
    responseOk 200 = true ∧
    refetchDown.locations 4 = .rejected ∧
    (loadDashboardData refetchDown (initializeMap Page.initial)).connectionError =
      some .failedToFetch ∧
    (loadDashboardData feedsDown (initializeMap Page.initial)).connectionError = none := by
  refine ⟨rfl, rfl, rfl, rfl, ?_, loadDashboardData_no_banner feedsDown
    (initializeMap Page.initial) 200 200 statusBody [dhaka, sylhet] rfl rfl rfl rfl rfl
    (fun _ _ => rfl)⟩
  obtain ⟨s₂, hreq, hsteps⟩ :=
    loadDashboardSteps_served refetchDown (initializeMap Page.initial) 200 200 statusBody [dhaka]
      rfl rfl rfl rfl rfl
  have hlen : s₂.requests.length = 4 := by
    rw [hreq]; rfl
  have hthrown := loadInitialProfile_rejected refetchDown s₂ (by rw [hlen]; rfl)
  have h := loadDashboardData_thrown refetchDown (initializeMap Page.initial) .failedToFetch
    (by rw [hsteps, andThen_of_some _ _ _ hthrown]; exact hthrown)
  exact h.2

theorem updateFloodRiskProfile_requests (locationName : String) (data : PredictionData)
    (s : Page) : (updateFloodRiskProfile locationName data s).page.requests = s.requests := by
  unfold updateFloodRiskProfile
  split
  · rfl
  · split
    · rfl
    · split <;> rfl

theorem loadProfile_requests (net : Network) (firstLocation : String) (s : Page) :
    (loadProfile net firstLocation s).requests =
      s.requests ++ [⟨BASE_URL, .predict firstLocation⟩] := by
  unfold loadProfile
  split
  · rfl
  · split
    · split
      · rfl
      · rfl
      · rw [updateFloodRiskProfile_requests]; rfl
    · rfl

theorem loadInitialProfile_prefix (net : Network) (s : Page) :
    ∃ l, (loadInitialProfile net s).page.requests = s.requests ++ l := by
  unfold loadInitialProfile
  split
  · exact ⟨_, rfl⟩
  · exact ⟨_, rfl⟩
  · next first _ _ =>
    refine ⟨[⟨BASE_URL, .locations⟩, ⟨BASE_URL, .predict first.name⟩], ?_⟩
    show (loadProfile net first.name (s.fetch ⟨BASE_URL, .locations⟩)).requests = _
    rw [loadProfile_requests]
    simp [Page.fetch]
  · exact ⟨_, rfl⟩

theorem loadInitialProfile_thrown_congr (net₁ net₂ : Network) (s₁ s₂ : Page)
    (hlen : s₁.requests.length = s₂.requests.length)
    (h : net₁.locations s₂.requests.length = net₂.locations s₂.requests.length) :
    (loadInitialProfile net₁ s₁).thrown = (loadInitialProfile net₂ s₂).thrown := by
  unfold loadInitialProfile
  rw [hlen, h]
  split <;> rfl

/-- Once status and locations are served, the cycle of app.js issues the alerts request, and it
ends in the connection-error state exactly when the later fetch of `/api/locations` throws. -/
theorem loadDashboardData_served (net : Network) (s : Page) (status status' : Nat)
    (data : SystemStatus) (locations : List Location)
    (hstatus : net.status s.requests.length = .response status (.value data))
    (hok : responseOk status = true)
    (hloc : net.locations (s.requests.length + 1) = .response status' (.value (.array locations)))
    (hok' : responseOk status' = true) (hmap : s.map.isSome = true) :
    ∃ s₂ : Page,
      s₂.requests = s.requests ++ ⟨BASE_URL, .status⟩ :: ⟨BASE_URL, .locations⟩ ::
        ((if s.locationsList.isSome then
            locations.map fun l => (⟨API_BASE_URL, .predict l.name⟩ : Request)
          else []) ++ [⟨BASE_URL, .alerts⟩]) ∧
      (loadDashboardData net s).connectionError = (loadInitialProfile net s₂).thrown ∧
      ∃ l, (loadDashboardData net s).requests = s₂.requests ++ l := by
  obtain ⟨s₂, hreq, hsteps⟩ :=
    loadDashboardSteps_served net s status status' data locations hstatus hok hloc hok' hmap
  obtain ⟨l, hl⟩ := loadInitialProfile_prefix net s₂
  refine ⟨s₂, hreq, ?_⟩
  unfold loadDashboardData
  rw [hsteps]
  cases hthrown : (loadInitialProfile net s₂).thrown with
  | none =>
    rw [andThen_of_none _ _ hthrown]
    exact ⟨rfl, l, hl⟩
  | some e =>
    rw [andThen_of_some _ _ e hthrown]
    simp only [hthrown]
    exact ⟨rfl, l, hl⟩

/-- Per-location isolation over two runs, where no row of either run makes an element of class
`loading` and no read of `markers` finds a member that is no marker.  For one list of locations
and two assignments of prediction outcomes that agree on location `L`, the `i`-th of the list,
`updateLocationsList` renders for `L` the same row in both runs; in both runs the rows are one a
location, in the order of the list, and the call returns without throwing. -/
theorem location_isolation_of_plain_rows (net₁ net₂ : Network) (locations : List Location)
    (s : Page) (i : Nat) (L : Location) (hL : locations[i]? = some L)
    (hagree : net₁.predict (s.requests.length + i) L.name =
      net₂.predict (s.requests.length + i) L.name)
    (hlist : s.locationsList.isSome = true)
    (hrows₁ : ∀ j l, locations[j]? = some l →
      (locationRow l (net₁.predict (s.requests.length + j) l.name)).isLoading = false)
    (hrows₂ : ∀ j l, locations[j]? = some l →
      (locationRow l (net₂.predict (s.requests.length + j) l.name)).isLoading = false)
    (hfines : ∀ l ∈ locations, s.findsOther l.name = false) :
    (updateLocationsList net₁ (.array locations) s).page.rows[i]? =
        some (locationRow L (net₁.predict (s.requests.length + i) L.name)) ∧
      (updateLocationsList net₂ (.array locations) s).page.rows[i]? =
        (updateLocationsList net₁ (.array locations) s).page.rows[i]? ∧
      (updateLocationsList net₁ (.array locations) s).page.rows.map ListChild.name =
        locations.map (fun l => some l.name) ∧
      (updateLocationsList net₂ (.array locations) s).page.rows.map ListChild.name =
        locations.map (fun l => some l.name) ∧
      (updateLocationsList net₁ (.array locations) s).thrown = none ∧
      (updateLocationsList net₂ (.array locations) s).thrown = none := by
  have hne : locations ≠ [] := by
    intro h0; rw [h0] at hL; simp at hL
  have rows_of : ∀ net : Network,
      (∀ j l, locations[j]? = some l →
        (locationRow l (net.predict (s.requests.length + j) l.name)).isLoading = false) →
      (updateLocationsList net (.array locations) s).page.rows =
        rowsFrom locationRow net s.requests.length locations := by
    intro net hrows
    obtain ⟨_, h2, _⟩ := updateLocationsList_array net locations s hlist hrows hfines
    unfold Page.rows
    rw [h2, if_neg hne]
    rfl
  refine ⟨?_, ?_, ?_, ?_, (updateLocationsList_array_trace net₁ locations s hlist).1,
    (updateLocationsList_array_trace net₂ locations s hlist).1⟩
  · rw [rows_of _ hrows₁, rowsFrom_getElem?, hL]; rfl
  · rw [rows_of _ hrows₁, rows_of _ hrows₂, rowsFrom_getElem?, rowsFrom_getElem?, hL]
    simp only [Option.map_some', hagree]
  · rw [rows_of _ hrows₁]; exact rowsFrom_names locationRow locationRow_name net₁ _ locations
  · rw [rows_of _ hrows₂]; exact rowsFrom_names locationRow locationRow_name net₂ _ locations

/-- Whatever the predictions yield, a cycle of app.js whose status and locations are served
goes on to the alerts request and ends in the state, banner or none, of the cycle on a network
with the same status and locations. -/
theorem cycle_outcome_of_predictions (net₁ net₂ : Network) (locations : List Location)
    (s : Page) (status status' : Nat) (data : SystemStatus)
    (hs : net₁.status = net₂.status) (hl : net₁.locations = net₂.locations)
    (hstatus : net₁.status s.requests.length = .response status (.value data))
    (hok : responseOk status = true)
    (hloc : net₁.locations (s.requests.length + 1) =
      .response status' (.value (.array locations)))
    (hok' : responseOk status' = true) (hmap : s.map.isSome = true) :
    (⟨BASE_URL, .alerts⟩ : Request) ∈ issuedSince s (loadDashboardData net₁ s) ∧
      (⟨BASE_URL, .alerts⟩ : Request) ∈ issuedSince s (loadDashboardData net₂ s) ∧
      (loadDashboardData net₁ s).connectionError =
        (loadDashboardData net₂ s).connectionError := by
  obtain ⟨s₁, hreq₁, hce₁, l₁, hl₁⟩ :=
    loadDashboardData_served net₁ s status status' data locations hstatus hok hloc hok' hmap
  obtain ⟨s₂, hreq₂, hce₂, l₂, hl₂⟩ :=
    loadDashboardData_served net₂ s status status' data locations (by rw [← hs]; exact hstatus)
      hok (by rw [← hl]; exact hloc) hok' hmap
  refine ⟨?_, ?_, ?_⟩
  · rw [issuedSince_of_append s _ _ (by rw [hl₁, hreq₁, List.append_assoc])]
    simp
  · rw [issuedSince_of_append s _ _ (by rw [hl₂, hreq₂, List.append_assoc])]
    simp
  · rw [hce₁, hce₂]
    exact loadInitialProfile_thrown_congr net₁ net₂ s₁ s₂ (by rw [hreq₁, hreq₂]) (by rw [hl])

/-- The loop of `updateLocationsList`, whatever the rows show: each turn whose marker block
does not throw empties a list that shows an element of class `loading` and appends its row. -/
theorem foldl_step_shown (row : Location → Fetched PredictionData → ListChild)
    (step : Network → Page → Location → Page) (base : String) (fine : Page → Location → Prop)
    (hfine : ∀ net s l l', fine s l' → fine (step net s l) l')
    (hreq : ∀ net s l, (step net s l).requests = s.requests ++ [⟨base, .predict l.name⟩])
    (hlist : ∀ net s l, fine s l → (step net s l).locationsList =
      s.locationsList.map fun children =>
        (if children.any ListChild.isLoading then [] else children) ++
          [row l (net.predict s.requests.length l.name)])
    (net : Network) (locations : List Location) (s : Page) (children : List ListChild)
    (hs : s.locationsList = some children) (hfines : ∀ l ∈ locations, fine s l) :
    (locations.foldl (step net) s).locationsList =
      some (shownRows row net s.requests.length locations children) := by
  induction locations generalizing s children with
  | nil => simp [shownRows, hs]
  | cons l rest ih =>
    have h1 : (step net s l).locationsList =
        some ((if children.any ListChild.isLoading then [] else children) ++
          [row l (net.predict s.requests.length l.name)]) := by
      rw [hlist net s l (hfines l (List.mem_cons_self _ _)), hs]
      rfl
    have hlen : (step net s l).requests.length = s.requests.length + 1 := by
      rw [hreq]; simp
    have ha := ih (step net s l) _ h1
      (fun l' hl' => hfine net s l l' (hfines l' (List.mem_cons_of_mem _ hl')))
    rw [List.foldl_cons, ha, hlen]
    rfl

/-- What `updateLocationsList` of app.js shows for an array, whatever the rows show, where no
read of `markers` finds a member that is no marker. -/
theorem updateLocationsList_shown (net : Network) (locations : List Location) (s : Page)
    (hs : s.locationsList.isSome) (hfines : ∀ l ∈ locations, s.findsOther l.name = false) :
    (updateLocationsList net (.array locations) s).page.rows =
      shownRows locationRow net s.requests.length locations [.loading] := by
  obtain ⟨c, hc⟩ := Option.isSome_iff_exists.mp hs
  unfold updateLocationsList Page.rows
  rw [hc]
  show ((locations.foldl (locationStep net)
    { s with locationsList := some [.loading] }).locationsList).getD [] = _
  rw [foldl_step_shown locationRow locationStep API_BASE_URL
    (fun s l => s.findsOther l.name = false)
    (fun net s l l' h => by
      show (locationStep net s l).findsOther l'.name = false
      rw [locationStep_findsOther]; exact h)
    locationStep_requests locationStep_locationsList net locations
    { s with locationsList := some [.loading] } [.loading] rfl hfines]
  rfl

/-- What `updateLocationsList` of app-debug.js shows for an array, whatever the rows show. -/
theorem debug_updateLocationsList_shown (net : Network) (locations : List Location) (s : Page)
    (hs : s.locationsList.isSome) :
    (Debug.updateLocationsList net (.array locations) s).page.rows =
      shownRows Debug.locationRow net s.requests.length locations [.loading] := by
  obtain ⟨c, hc⟩ := Option.isSome_iff_exists.mp hs
  unfold Debug.updateLocationsList Page.rows
  rw [hc]
  show ((locations.foldl (Debug.locationStep net)
    { s with locationsList := some [.loading] }).locationsList).getD [] = _
  rw [foldl_step_shown Debug.locationRow Debug.locationStep Debug.API_BASE
    (fun _ _ => True) (fun _ _ _ _ h => h) debug_locationStep_requests
    (fun net s l _ => debug_locationStep_locationsList net s l) net locations
    { s with locationsList := some [.loading] } [.loading] rfl (fun _ _ => trivial)]
  rfl

/-- The row of a snapshot of the Dhaka scenario with the status text `status`. -/
theorem locationRow_snapshot (location : Location) (status : Nat) (text : String) :
    locationRow location
        (.response status (.value { snapshot location.name (82 / 100) with status := text })) =
      .location location.name
        (.full (.elevationRiver (some 4) (some 1)) (some ("floodplain", "poor"))
          (some ("Flash Flood", 85)))
        .critical text (some 82) ∧
    Debug.locationRow location
        (.response 200 (.value { snapshot location.name (82 / 100) with status := text })) =
      .location location.name .brief .critical text (some 82) := by
  constructor
  · simp +decide only [locationRow, predictionData]
    norm_num [locationElement, geoInfo, riskProfileHtml, highestRisk, arraySort, sortInsert,
      byRiskPercentage, jsSub, comparePositive, mechanismRisk, riskClass, jsGe, jsMul, snapshot]
    simp +decide [listTypeName]
  · simp +decide only [Debug.locationRow, responseOk, if_true]
    norm_num [Debug.riskClass, jsGe, jsMul, snapshot]

set_option maxRecDepth 1000000 in
/-- What the test `querySelector('.loading')` finds in some markups: a start tag of class
`loading`, with the class in quotes or bare, among other classes, or written with character
references; not an end tag, a comment, text that shows a tag, or a class of another name. -/
theorem querySelectorLoading_examples :
    querySelectorLoading "<i class=\"loading\"></i>" = true ∧
    querySelectorLoading "<b CLASS=loading>" = true ∧
    querySelectorLoading "<p id=a class=\"big loading\">" = true ∧
    querySelectorLoading "<i class=\"&#108;oading\">" = true ∧
    querySelectorLoading "<i class=\"&#x6C;oading\">" = true ∧
    querySelectorLoading "<i class=\"big&Tab;loading\">" = true ∧
    querySelectorLoading "</i class=\"loading\">" = false ∧
    querySelectorLoading "<!-- <i class=\"loading\"> -->" = false ∧
    querySelectorLoading "&lt;i class=\"loading\"&gt;" = false ∧
    querySelectorLoading "<i class=\"unloading\">" = false ∧
    querySelectorLoading "<i class=\"loading&amp;\">" = false ∧
    querySelectorLoading "<i title=\"loading\" class=\"\">" = false ∧
    querySelectorLoading "HIGH RISK" = false := by
  decide

set_option maxRecDepth 1000000 in
/-- Which rows of the Dhaka scenario make an element of class `loading`: those with the markup
as status text, in both builds. -/
theorem rows_of_class_loading :
    (∀ name ∈ ["Dhaka", "Sylhet", "Khulna"],
      (ListChild.location name
        (.full (.elevationRiver (some 4) (some 1)) (some ("floodplain", "poor"))
          (some ("Flash Flood", 85)))
        .critical "HIGH RISK" (some 82)).isLoading = false ∧
      (ListChild.location name .brief .critical "HIGH RISK" (some 82)).isLoading = false) ∧
    (ListChild.location "Sylhet"
        (.full (.elevationRiver (some 4) (some 1)) (some ("floodplain", "poor"))
          (some ("Flash Flood", 85)))
        .critical "<i class=\"loading\"></i>" (some 82)).isLoading = true ∧
    (ListChild.location "Sylhet" .brief .critical "<i class=\"loading\"></i>"
      (some 82)).isLoading = true := by
  decide

/-- The rows of the networks `predictionsServed` and `sylhetMarkup`. -/
theorem markup_scenario_rows (k : Nat) :
    (∀ l : Location, locationRow l (predictionsServed.predict k l.name) =
      .location l.name
        (.full (.elevationRiver (some 4) (some 1)) (some ("floodplain", "poor"))
          (some ("Flash Flood", 85)))
        .critical "HIGH RISK" (some 82)) ∧
    (∀ l : Location, Debug.locationRow l (predictionsServed.predict k l.name) =
      .location l.name .brief .critical "HIGH RISK" (some 82)) ∧
    (∀ l : Location, l.name ≠ "Sylhet" → locationRow l (sylhetMarkup.predict k l.name) =
      .location l.name
        (.full (.elevationRiver (some 4) (some 1)) (some ("floodplain", "poor"))
          (some ("Flash Flood", 85)))
        .critical "HIGH RISK" (some 82)) ∧
    (∀ l : Location, l.name ≠ "Sylhet" → Debug.locationRow l (sylhetMarkup.predict k l.name) =
      .location l.name .brief .critical "HIGH RISK" (some 82)) ∧
    locationRow sylhet (sylhetMarkup.predict k "Sylhet") =
      .location "Sylhet"
        (.full (.elevationRiver (some 4) (some 1)) (some ("floodplain", "poor"))
          (some ("Flash Flood", 85)))
        .critical "<i class=\"loading\"></i>" (some 82) ∧
    Debug.locationRow sylhet (sylhetMarkup.predict k "Sylhet") =
      .location "Sylhet" .brief .critical "<i class=\"loading\"></i>" (some 82) := by
  refine ⟨fun l => (locationRow_snapshot l 200 "HIGH RISK").1,
    fun l => (locationRow_snapshot l 200 "HIGH RISK").2, fun l hl => ?_, fun l hl => ?_,
    (locationRow_snapshot sylhet 200 "<i class=\"loading\"></i>").1,
    (locationRow_snapshot sylhet 200 "<i class=\"loading\"></i>").2⟩
  · have h : sylhetMarkup.predict k l.name =
        .response 200 (.value (snapshot l.name (82 / 100))) := by
      show (if l.name = "Sylhet" then _ else _) = _
      rw [if_neg hl]
    rw [h]
    exact (locationRow_snapshot l 200 "HIGH RISK").1
  · have h : sylhetMarkup.predict k l.name =
        .response 200 (.value (snapshot l.name (82 / 100))) := by
      show (if l.name = "Sylhet" then _ else _) = _
      rw [if_neg hl]
    rw [h]
    exact (locationRow_snapshot l 200 "HIGH RISK").2

/-- C10 at a failing input.  The list has the locations Dhaka, Sylhet and Khulna, and two runs
agree on the prediction for Dhaka: in the first every prediction is a snapshot with the status
`HIGH RISK`, in the second the status of Sylhet is the text `<i class="loading"></i>`.  The
first run shows the three rows.  In the second the row of Sylhet has an element of class
`loading`, so the turn of Khulna, whose test `container.querySelector('.loading')` looks at
every descendant of the list, empties the list: the row of Dhaka is gone and the list shows the
row of Khulna only.  So in both builds.  Where no row makes such an element and no read of
`markers` finds a member that is no marker, the row of a location is the same in two runs that
agree on it and the rows are one a location in the order of the list; and whatever the
predictions yield, the cycle goes on to the alerts request and ends in the same state. -/
theorem C10_markup_row_removes_other_rows :
    (∀ k, predictionsServed.predict k "Dhaka" = sylhetMarkup.predict k "Dhaka") ∧
    ((updateLocationsList predictionsServed (.array [dhaka, sylhet, khulna])
        (initializeMap Page.initial)).page.rows.map ListChild.name =
      [some "Dhaka", some "Sylhet", some "Khulna"] ∧
    (updateLocationsList sylhetMarkup (.array [dhaka, sylhet, khulna])
        (initializeMap Page.initial)).page.rows.map ListChild.name = [some "Khulna"]) ∧
    ((Debug.updateLocationsList predictionsServed (.array [dhaka, sylhet, khulna])
        (initializeMap Page.initial)).page.rows.map ListChild.name =
      [some "Dhaka", some "Sylhet", some "Khulna"] ∧
    (Debug.updateLocationsList sylhetMarkup (.array [dhaka, sylhet, khulna])
        (initializeMap Page.initial)).page.rows.map ListChild.name = [some "Khulna"]) ∧
    (∀ (net₁ net₂ : Network) (locations : List Location) (s : Page) (i : Nat) (L : Location),
      locations[i]? = some L →
      net₁.predict (s.requests.length + i) L.name = net₂.predict (s.requests.length + i) L.name →
      s.locationsList.isSome = true →
      (∀ j l, locations[j]? = some l →
        (locationRow l (net₁.predict (s.requests.length + j) l.name)).isLoading = false) →
      (∀ j l, locations[j]? = some l →
        (locationRow l (net₂.predict (s.requests.length + j) l.name)).isLoading = false) →
      (∀ l ∈ locations, s.findsOther l.name = false) →
      (updateLocationsList net₁ (.array locations) s).page.rows[i]? =
          some (locationRow L (net₁.predict (s.requests.length + i) L.name)) ∧
        (updateLocationsList net₂ (.array locations) s).page.rows[i]? =
          (updateLocationsList net₁ (.array locations) s).page.rows[i]? ∧
        (updateLocationsList net₁ (.array locations) s).page.rows.map ListChild.name =
          locations.map (fun l => some l.name) ∧
        (updateLocationsList net₂ (.array locations) s).page.rows.map ListChild.name =
          locations.map (fun l => some l.name)) ∧
    (∀ (net₁ net₂ : Network) (locations : List Location) (s : Page) (status status' : Nat)
        (data : SystemStatus),
      net₁.status = net₂.status → net₁.locations = net₂.locations →
      net₁.status s.requests.length = .response status (.value data) →
      responseOk status = true →
      net₁.locations (s.requests.length + 1) = .response status' (.value (.array locations)) →
      responseOk status' = true → s.map.isSome = true →
      (⟨BASE_URL, .alerts⟩ : Request) ∈ issuedSince s (loadDashboardData net₁ s) ∧
        (⟨BASE_URL, .alerts⟩ : Request) ∈ issuedSince s (loadDashboardData net₂ s) ∧
        (loadDashboardData net₁ s).connectionError =
          (loadDashboardData net₂ s).connectionError) := by
  obtain ⟨hplain, hmarkup, hmarkup'⟩ := rows_of_class_loading
  have hD := (hplain "Dhaka" (by decide))
  have hS := (hplain "Sylhet" (by decide))
  have hK := (hplain "Khulna" (by decide))
  have hl : ListChild.isLoading .loading = true := rfl
  have hf : ∀ l ∈ [dhaka, sylhet, khulna],
      (initializeMap Page.initial).findsOther l.name = false := by decide
  refine ⟨fun k => rfl, ⟨?_, ?_⟩, ⟨?_, ?_⟩, ?_, ?_⟩
  · rw [updateLocationsList_shown predictionsServed [dhaka, sylhet, khulna]
      (initializeMap Page.initial) rfl hf]
    obtain ⟨r, _, _, _, _, _⟩ := markup_scenario_rows 0
    obtain ⟨r1, _, _, _, _, _⟩ := markup_scenario_rows 1
    obtain ⟨r2, _, _, _, _, _⟩ := markup_scenario_rows 2
    show (shownRows locationRow predictionsServed 0 [dhaka, sylhet, khulna] [.loading]).map
      ListChild.name = _
    simp only [shownRows, r, r1, r2]
    have e1 : dhaka.name = "Dhaka" := rfl
    have e2 : sylhet.name = "Sylhet" := rfl
    have e3 : khulna.name = "Khulna" := rfl
    simp [e1, e2, e3, hD.1, hS.1, hl, ListChild.name]
  · rw [updateLocationsList_shown sylhetMarkup [dhaka, sylhet, khulna]
      (initializeMap Page.initial) rfl hf]
    obtain ⟨_, _, r, _, _, _⟩ := markup_scenario_rows 0
    obtain ⟨_, _, _, _, r1, _⟩ := markup_scenario_rows 1
    obtain ⟨_, _, r2, _, _, _⟩ := markup_scenario_rows 2
    show (shownRows locationRow sylhetMarkup 0 [dhaka, sylhet, khulna] [.loading]).map
      ListChild.name = _
    have e1 : dhaka.name = "Dhaka" := rfl
    have e2 : sylhet.name = "Sylhet" := rfl
    have e3 : khulna.name = "Khulna" := rfl
    have rD := r dhaka (by decide)
    have rK := r2 khulna (by decide)
    simp only [shownRows, e1, e2, e3] at rD rK ⊢
    rw [rD, r1, rK]
    simp [hD.1, hmarkup, hl, ListChild.name]
  · rw [debug_updateLocationsList_shown predictionsServed [dhaka, sylhet, khulna]
      (initializeMap Page.initial) rfl]
    obtain ⟨_, r, _, _, _, _⟩ := markup_scenario_rows 0
    obtain ⟨_, r1, _, _, _, _⟩ := markup_scenario_rows 1
    obtain ⟨_, r2, _, _, _, _⟩ := markup_scenario_rows 2
    show (shownRows Debug.locationRow predictionsServed 0 [dhaka, sylhet, khulna]
      [.loading]).map ListChild.name = _
    simp only [shownRows, r, r1, r2]
    have e1 : dhaka.name = "Dhaka" := rfl
    have e2 : sylhet.name = "Sylhet" := rfl
    have e3 : khulna.name = "Khulna" := rfl
    simp [e1, e2, e3, hD.2, hS.2, hl, ListChild.name]
  · rw [debug_updateLocationsList_shown sylhetMarkup [dhaka, sylhet, khulna]
      (initializeMap Page.initial) rfl]
    obtain ⟨_, _, _, r, _, _⟩ := markup_scenario_rows 0
    obtain ⟨_, _, _, _, _, r1⟩ := markup_scenario_rows 1
    obtain ⟨_, _, _, r2, _, _⟩ := markup_scenario_rows 2
    show (shownRows Debug.locationRow sylhetMarkup 0 [dhaka, sylhet, khulna]
      [.loading]).map ListChild.name = _
    have e1 : dhaka.name = "Dhaka" := rfl
    have e2 : sylhet.name = "Sylhet" := rfl
    have e3 : khulna.name = "Khulna" := rfl
    have rD := r dhaka (by decide)
    have rK := r2 khulna (by decide)
    simp only [shownRows, e1, e2, e3] at rD rK ⊢
    rw [rD, r1, rK]
    simp [hD.2, hmarkup', hl, ListChild.name]
  · intro net₁ net₂ locations s i L hL hagree hlist h1 h2 hfines
    obtain ⟨a, b, c, d, _, _⟩ := location_isolation_of_plain_rows net₁ net₂ locations s i L hL
      hagree hlist h1 h2 hfines
    exact ⟨a, b, c, d⟩
  · intro net₁ net₂ locations s status status' data hs hl hstatus hok hloc hok' hmap
    exact cycle_outcome_of_predictions net₁ net₂ locations s status status' data hs hl hstatus
      hok hloc hok' hmap

theorem rowsFrom_countP_none (row : Location → Fetched PredictionData → ListChild)
    (net : Network) (P : ListChild → Bool) (k : Nat) (locations : List Location)
    (h : ∀ j l, locations[j]? = some l → P (row l (net.predict (k + j) l.name)) = false) :
    (rowsFrom row net k locations).countP P = 0 := by
  induction locations generalizing k with
  | nil => rfl
  | cons l rest ih =>
    have h0 : P (row l (net.predict k l.name)) = false := by
      have := h 0 l (by simp)
      simpa using this
    have hrest := ih (k + 1) (fun j l' hj => by
      have := h (j + 1) l' (by simpa using hj)
      have e : k + 1 + j = k + (j + 1) := by omega
      rw [e]; exact this)
    simp [rowsFrom, List.countP_cons, h0, hrest]

theorem rowsFrom_countP_all (row : Location → Fetched PredictionData → ListChild)
    (net : Network) (P : ListChild → Bool) (k : Nat) (locations : List Location)
    (h : ∀ j l, locations[j]? = some l → P (row l (net.predict (k + j) l.name)) = true) :
    (rowsFrom row net k locations).countP P = locations.length := by
  induction locations generalizing k with
  | nil => rfl
  | cons l rest ih =>
    have h0 : P (row l (net.predict k l.name)) = true := by
      have := h 0 l (by simp)
      simpa using this
    have hrest := ih (k + 1) (fun j l' hj => by
      have := h (j + 1) l' (by simpa using hj)
      have e : k + 1 + j = k + (j + 1) := by omega
      rw [e]; exact this)
    simp [rowsFrom, List.countP_cons, h0, hrest]

/-- Where `P` holds of the row at position `i` and of no other row, `P` counts one row. -/
theorem rowsFrom_countP_one (row : Location → Fetched PredictionData → ListChild)
    (net : Network) (P : ListChild → Bool) (k : Nat) (locations : List Location) (i : Nat)
    (hi : i < locations.length)
    (hat : ∀ l, locations[i]? = some l → P (row l (net.predict (k + i) l.name)) = true)
    (hoff : ∀ j l, j ≠ i → locations[j]? = some l →
      P (row l (net.predict (k + j) l.name)) = false) :
    (rowsFrom row net k locations).countP P = 1 := by
  induction locations generalizing k i with
  | nil => simp at hi
  | cons l rest ih =>
    cases i with
    | zero =>
      have h0 : P (row l (net.predict k l.name)) = true := by
        have := hat l (by simp)
        simpa using this
      have hrest := rowsFrom_countP_none row net P (k + 1) rest (fun j l' hj => by
        have := hoff (j + 1) l' (by omega) (by simpa using hj)
        have e : k + 1 + j = k + (j + 1) := by omega
        rw [e]; exact this)
      simp [rowsFrom, List.countP_cons, h0, hrest]
    | succ i =>
      have h0 : P (row l (net.predict k l.name)) = false := by
        have := hoff 0 l (by omega) (by simp)
        simpa using this
      have hrest := ih (k + 1) i (by simpa using hi)
        (fun l' hl' => by
          have := hat l' (by simpa using hl')
          have e : k + 1 + i = k + (i + 1) := by omega
          rw [e]; exact this)
        (fun j l' hj hl' => by
          have := hoff (j + 1) l' (by omega) (by simpa using hl')
          have e : k + 1 + j = k + (j + 1) := by omega
          rw [e]; exact this)
      simp [rowsFrom, List.countP_cons, h0, hrest]

/-- Where `P` fails of the row at position `i` and holds of every other row, `P` counts all rows
but one. -/
theorem rowsFrom_countP_but_one (row : Location → Fetched PredictionData → ListChild)
    (net : Network) (P : ListChild → Bool) (k : Nat) (locations : List Location) (i : Nat)
    (hi : i < locations.length)
    (hat : ∀ l, locations[i]? = some l → P (row l (net.predict (k + i) l.name)) = false)
    (hoff : ∀ j l, j ≠ i → locations[j]? = some l →
      P (row l (net.predict (k + j) l.name)) = true) :
    (rowsFrom row net k locations).countP P = locations.length - 1 := by
  induction locations generalizing k i with
  | nil => simp at hi
  | cons l rest ih =>
    cases i with
    | zero =>
      have h0 : P (row l (net.predict k l.name)) = false := by
        have := hat l (by simp)
        simpa using this
      have hrest := rowsFrom_countP_all row net P (k + 1) rest (fun j l' hj => by
        have := hoff (j + 1) l' (by omega) (by simpa using hj)
        have e : k + 1 + j = k + (j + 1) := by omega
        rw [e]; exact this)
      simp [rowsFrom, List.countP_cons, h0, hrest]
    | succ i =>
      have h0 : P (row l (net.predict k l.name)) = true := by
        have := hoff 0 l (by omega) (by simp)
        simpa using this
      have hi' : i < rest.length := by simpa using hi
      have hrest := ih (k + 1) i hi'
        (fun l' hl' => by
          have := hat l' (by simpa using hl')
          have e : k + 1 + i = k + (i + 1) := by omega
          rw [e]; exact this)
        (fun j l' hj hl' => by
          have := hoff (j + 1) l' (by omega) (by simpa using hl')
          have e : k + 1 + j = k + (j + 1) := by omega
          rw [e]; exact this)
      simp [rowsFrom, List.countP_cons, h0, hrest]
      omega

theorem highestRisk_mem (profile : FloodRiskProfile) (e : ProfileEntry)
    (h : highestRisk profile = some e) : e ∈ profile := by
  unfold highestRisk at h
  have hmem : e ∈ arraySort byRiskPercentage profile := List.mem_of_mem_head? h
  exact (arraySort_perm byRiskPercentage profile).mem_iff.mp hmem

/-- A well-formed snapshot always yields the data row in app.js, whatever the status code. -/
theorem locationRow_wellFormed (location : Location) (status : Nat) (data : PredictionData)
    (h : data.wellFormed = true) :
    (locationRow location (.response status (.value data))).isClassified = true ∧
      (locationRow location (.response status (.value data))).isError "UNKNOWN" = false := by
  unfold PredictionData.wellFormed at h
  simp only [Bool.and_eq_true] at h
  obtain ⟨⟨⟨⟨_, _⟩, _⟩, hgeo⟩, hprofile⟩ := h
  have hg : ∃ info, geoInfo data = .ok info := by
    unfold geoInfo
    cases hgf : data.geographic_factors with
    | none => rw [hgf] at hgeo; simp at hgeo
    | some g => exact ⟨_, rfl⟩
  have hp : ∃ primary, riskProfileHtml data = .ok primary := by
    unfold riskProfileHtml
    cases hfp : data.flood_risk_profile with
    | none => exact ⟨_, rfl⟩
    | some profile =>
      rw [hfp] at hprofile
      simp only [List.all_eq_true, Bool.and_eq_true] at hprofile
      cases hh : highestRisk profile with
      | none =>
        simp only [hh]
        exact ⟨_, rfl⟩
      | some e =>
        obtain ⟨riskType, riskData⟩ := e
        have hmem := highestRisk_mem profile _ hh
        obtain ⟨pct, hpct⟩ := Option.isSome_iff_exists.mp (hprofile _ hmem).1
        simp only [] at hpct
        simp only [hh, hpct]
        exact ⟨_, rfl⟩
  obtain ⟨info, hinfo⟩ := hg
  obtain ⟨primary, hprimary⟩ := hp
  unfold locationRow predictionData locationElement
  simp only [hinfo, hprimary]
  exact ⟨rfl, rfl⟩

/-- A fetch that rejects, or whose body cannot be decoded, yields the error row in app.js. -/
theorem locationRow_undecodable (location : Location) (fetched : Fetched PredictionData)
    (h : fetched.decodable = false) :
    (locationRow location fetched).isClassified = false ∧
      (locationRow location fetched).isError "UNKNOWN" = true := by
  unfold Fetched.decodable at h
  unfold locationRow predictionData
  split at h
  · exact ⟨rfl, rfl⟩
  · exact ⟨rfl, rfl⟩
  · cases h

/-- A fetch that fails, by a network error or a status that is not 2xx, yields the error row in
app-debug.js. -/
theorem debug_locationRow_failed (location : Location) (fetched : Fetched PredictionData)
    (h : fetched.failed = true) :
    (Debug.locationRow location fetched).isClassified = false ∧
      (Debug.locationRow location fetched).isError "ERROR" = true := by
  unfold Fetched.failed at h
  unfold Debug.locationRow
  split at h
  · exact ⟨rfl, rfl⟩
  · simp only [Bool.not_eq_true'] at h
    simp only [h]
    exact ⟨rfl, rfl⟩

/-- A served body yields the data row in app-debug.js. -/
theorem debug_locationRow_served (location : Location) (status : Nat) (data : PredictionData)
    (h : responseOk status = true) :
    (Debug.locationRow location (.response status (.value data))).isClassified = true ∧
      (Debug.locationRow location (.response status (.value data))).isError "ERROR" = false := by
  unfold Debug.locationRow
  simp only [h, if_true]
  exact ⟨rfl, rfl⟩

/-- What app-debug.js shows where one fetch fails: with one fetch failing, by a network error
or a status that is not 2xx, every other fetch served and no row making an element of class
`loading`, the list has one row a location in the order of the list, all but one of them data
rows and one the row with the badge ERROR. -/
theorem debug_one_failure_rows (net : Network) (locations : List Location) (s : Page) (i : Nat)
    (hlist : s.locationsList.isSome = true) (hi : i < locations.length)
    (hplain : ∀ j l, locations[j]? = some l →
      (Debug.locationRow l (net.predict (s.requests.length + j) l.name)).isLoading = false)
    (hfail : ∀ l, locations[i]? = some l →
      (net.predict (s.requests.length + i) l.name).failed = true)
    (hserved : ∀ j l, j ≠ i → locations[j]? = some l →
      ∃ status data, net.predict (s.requests.length + j) l.name =
        .response status (.value data) ∧ responseOk status = true) :
    (Debug.updateLocationsList net (.array locations) s).page.rows.length = locations.length ∧
      (Debug.updateLocationsList net (.array locations) s).page.rows.map ListChild.name =
        locations.map (fun l => some l.name) ∧
      (Debug.updateLocationsList net (.array locations) s).page.rows.countP
        ListChild.isClassified = locations.length - 1 ∧
      (Debug.updateLocationsList net (.array locations) s).page.rows.countP
        (ListChild.isError "ERROR") = 1 := by
  have hne : locations ≠ [] := by
    intro h0; rw [h0] at hi; simp at hi
  have hrows : (Debug.updateLocationsList net (.array locations) s).page.rows =
      rowsFrom Debug.locationRow net s.requests.length locations := by
    obtain ⟨_, h2, _⟩ := debug_updateLocationsList_array net locations s hlist hplain
    unfold Page.rows
    rw [h2, if_neg hne]
    rfl
  rw [hrows]
  refine ⟨rowsFrom_length _ _ _ _, rowsFrom_names _ debug_locationRow_name _ _ _, ?_, ?_⟩
  · apply rowsFrom_countP_but_one _ _ _ _ _ i hi
    · intro l hl
      exact (debug_locationRow_failed l _ (hfail l hl)).1
    · intro j l hj hl
      obtain ⟨status, data, heq, hok⟩ := hserved j l hj hl
      rw [heq]
      exact (debug_locationRow_served l status data hok).1
  · apply rowsFrom_countP_one _ _ _ _ _ i hi
    · intro l hl
      exact (debug_locationRow_failed l _ (hfail l hl)).2
    · intro j l hj hl
      obtain ⟨status, data, heq, hok⟩ := hserved j l hj hl
      rw [heq]
      exact (debug_locationRow_served l status data hok).2

/-- What app.js shows where one body cannot be decoded: with one fetch rejecting or returning
a body that cannot be decoded, every other fetch returning a well-formed snapshot, no row making
an element of class `loading` and no read of `markers` finding a member that is no marker, the
list has one row a location in the order of the list, all but one of them data rows and one the
row with the badge UNKNOWN. -/
theorem one_undecodable_rows (net : Network) (locations : List Location) (s : Page) (i : Nat)
    (hlist : s.locationsList.isSome = true) (hi : i < locations.length)
    (hplain : ∀ j l, locations[j]? = some l →
      (locationRow l (net.predict (s.requests.length + j) l.name)).isLoading = false)
    (hfines : ∀ l ∈ locations, s.findsOther l.name = false)
    (hfail : ∀ l, locations[i]? = some l →
      (net.predict (s.requests.length + i) l.name).decodable = false)
    (hserved : ∀ j l, j ≠ i → locations[j]? = some l →
      ∃ status data, net.predict (s.requests.length + j) l.name =
        .response status (.value data) ∧ data.wellFormed = true) :
    (updateLocationsList net (.array locations) s).page.rows.length = locations.length ∧
      (updateLocationsList net (.array locations) s).page.rows.map ListChild.name =
        locations.map (fun l => some l.name) ∧
      (updateLocationsList net (.array locations) s).page.rows.countP
        ListChild.isClassified = locations.length - 1 ∧
      (updateLocationsList net (.array locations) s).page.rows.countP
        (ListChild.isError "UNKNOWN") = 1 := by
  have hne : locations ≠ [] := by
    intro h0; rw [h0] at hi; simp at hi
  have hrows : (updateLocationsList net (.array locations) s).page.rows =
      rowsFrom locationRow net s.requests.length locations := by
    obtain ⟨_, h2, _⟩ := updateLocationsList_array net locations s hlist hplain hfines
    unfold Page.rows
    rw [h2, if_neg hne]
    rfl
  rw [hrows]
  refine ⟨rowsFrom_length _ _ _ _, rowsFrom_names _ locationRow_name _ _ _, ?_, ?_⟩
  · apply rowsFrom_countP_but_one _ _ _ _ _ i hi
    · intro l hl
      exact (locationRow_undecodable l _ (hfail l hl)).1
    · intro j l hj hl
      obtain ⟨status, data, heq, hwf⟩ := hserved j l hj hl
      rw [heq]
      exact (locationRow_wellFormed l status data hwf).1
  · apply rowsFrom_countP_one _ _ _ _ _ i hi
    · intro l hl
      exact (locationRow_undecodable l _ (hfail l hl)).2
    · intro j l hj hl
      obtain ⟨status, data, heq, hwf⟩ := hserved j l hj hl
      rw [heq]
      exact (locationRow_wellFormed l status data hwf).2

/-- A statement of every element of a list of two, by position. -/
theorem forall_getElem?_pair {P : Nat → Location → Prop} (a b : Location) (ha : P 0 a)
    (hb : P 1 b) : ∀ i l, [a, b][i]? = some l → P i l := by
  intro i l h
  match i with
  | 0 => cases h; exact ha
  | 1 => cases h; exact hb
  | _ + 2 => cases h

/-- The rows of the network `sylhetError`, whatever the number of the request. -/
theorem sylhetError_rows :
    (∀ k, locationRow dhaka (sylhetError.predict k "Dhaka") =
      .location "Dhaka"
        (.full (.elevationRiver (some 4) (some 1)) (some ("floodplain", "poor"))
          (some ("Flash Flood", 85)))
        .critical "HIGH RISK" (some 82)) ∧
    (∀ k, locationRow sylhet (sylhetError.predict k "Sylhet") =
      .location "Sylhet"
        (.full (.elevationRiver (some 4) (some 1)) (some ("floodplain", "poor"))
          (some ("Flash Flood", 85)))
        .low "HIGH RISK" (some 35)) ∧
    (∀ k, Debug.locationRow dhaka (sylhetError.predict k "Dhaka") =
      .location "Dhaka" .brief .critical "HIGH RISK" (some 82)) ∧
    (∀ k, Debug.locationRow sylhet (sylhetError.predict k "Sylhet") =
      .failed "Sylhet" "ERROR" (some (.http "HTTP" 500))) := by
  refine ⟨fun k => ?_, fun k => ?_, fun k => ?_, fun k => ?_⟩
  · simp +decide only [locationRow, predictionData, sylhetError, dhaka,
      if_false, if_true, reduceCtorEq]
    norm_num [locationElement, geoInfo, riskProfileHtml, highestRisk, arraySort, sortInsert,
      byRiskPercentage, jsSub, comparePositive, mechanismRisk, riskClass, jsGe, jsMul, snapshot]
    simp +decide [listTypeName]
  · simp +decide only [locationRow, predictionData, sylhetError, sylhet,
      if_false, if_true, reduceCtorEq]
    norm_num [locationElement, geoInfo, riskProfileHtml, highestRisk, arraySort, sortInsert,
      byRiskPercentage, jsSub, comparePositive, mechanismRisk, riskClass, jsGe, jsMul, snapshot]
    simp +decide [listTypeName]
  · simp +decide only [Debug.locationRow, sylhetError, dhaka, if_false, if_true, reduceCtorEq,
      responseOk]
    norm_num [Debug.riskClass, jsGe, jsMul, snapshot]
  · simp +decide only [Debug.locationRow, sylhetError, sylhet, if_false, if_true, reduceCtorEq,
      responseOk]

set_option maxRecDepth 1000000 in
/-- The rows of the Dhaka scenario make no element of class `loading`. -/
theorem plain_rows :
    (ListChild.location "Dhaka"
        (.full (.elevationRiver (some 4) (some 1)) (some ("floodplain", "poor"))
          (some ("Flash Flood", 85)))
        .critical "HIGH RISK" (some 82)).isLoading = false ∧
    (ListChild.location "Sylhet"
        (.full (.elevationRiver (some 4) (some 1)) (some ("floodplain", "poor"))
          (some ("Flash Flood", 85)))
        .low "HIGH RISK" (some 35)).isLoading = false ∧
    (ListChild.location "Dhaka" .brief .critical "HIGH RISK" (some 82)).isLoading = false ∧
    (ListChild.failed "Sylhet" "ERROR" (some (.http "HTTP" 500))).isLoading = false := by
  decide

/-- C9 at a failing input.  Of the two locations the fetch for Sylhet fails with status 500, its
body being a well-formed snapshot, and the fetch for Dhaka is served.  `updateLocationsList` of
app.js, which does not read `response.ok`, renders two data rows and no row with the badge
UNKNOWN; that of app-debug.js renders the row with the badge ERROR for Sylhet. -/
theorem C9_failed_fetch_rendered_as_data_row :
    (sylhetError.predict 0 "Dhaka").failed = false ∧
    (sylhetError.predict 1 "Sylhet").failed = true ∧
    (updateLocationsList sylhetError (.array [dhaka, sylhet])
        (initializeMap Page.initial)).page.rows =
      [.location "Dhaka"
          (.full (.elevationRiver (some 4) (some 1)) (some ("floodplain", "poor"))
            (some ("Flash Flood", 85)))
          .critical "HIGH RISK" (some 82),
        .location "Sylhet"
          (.full (.elevationRiver (some 4) (some 1)) (some ("floodplain", "poor"))
            (some ("Flash Flood", 85)))
          .low "HIGH RISK" (some 35)] ∧
    (Debug.updateLocationsList sylhetError (.array [dhaka, sylhet])
        (initializeMap Page.initial)).page.rows =
      [.location "Dhaka" .brief .critical "HIGH RISK" (some 82),
        .failed "Sylhet" "ERROR" (some (.http "HTTP" 500))] := by
  obtain ⟨hd, hs, hdd, hds⟩ := sylhetError_rows
  refine ⟨rfl, rfl, ?_, ?_⟩
  · have h := (updateLocationsList_array sylhetError [dhaka, sylhet]
      (initializeMap Page.initial) rfl
      (forall_getElem?_pair dhaka sylhet
        (by
          show (locationRow dhaka (sylhetError.predict 0 "Dhaka")).isLoading = false
          rw [hd 0]; exact plain_rows.1)
        (by
          show (locationRow sylhet (sylhetError.predict 1 "Sylhet")).isLoading = false
          rw [hs 1]; exact plain_rows.2.1))
      (by decide)).2.1
    unfold Page.rows
    rw [h]
    show [locationRow dhaka (sylhetError.predict 0 "Dhaka"),
      locationRow sylhet (sylhetError.predict 1 "Sylhet")] = _
    rw [hd, hs]
  · have h := (debug_updateLocationsList_array sylhetError [dhaka, sylhet]
      (initializeMap Page.initial) rfl
      (forall_getElem?_pair dhaka sylhet
        (by
          show (Debug.locationRow dhaka (sylhetError.predict 0 "Dhaka")).isLoading = false
          rw [hdd 0]; exact plain_rows.2.2.1)
        (by
          show (Debug.locationRow sylhet (sylhetError.predict 1 "Sylhet")).isLoading = false
          rw [hds 1]; exact plain_rows.2.2.2))).2.1
    unfold Page.rows
    rw [h]
    show [Debug.locationRow dhaka (sylhetError.predict 0 "Dhaka"),
      Debug.locationRow sylhet (sylhetError.predict 1 "Sylhet")] = _
    rw [hdd, hds]

/-! ### The alerts step -/

theorem updateAlertsList_locationsView (alerts : Option (List Alert)) (s : Page) :
    (updateAlertsList alerts s).1.page.locationsView = s.locationsView := by
  unfold updateAlertsList
  split
  · rfl
  · split <;> rfl

theorem loadAlerts_locationsView (net : Network) (s : Page) :
    (loadAlerts net s).locationsView = s.locationsView := by
  unfold loadAlerts
  split
  · rfl
  · split
    · split
      · rfl
      · rfl
      · rw [updateAlertsList_locationsView]; rfl
    · rfl

theorem updateFloodRiskProfile_locationsView (locationName : String) (data : PredictionData)
    (s : Page) :
    (updateFloodRiskProfile locationName data s).page.locationsView = s.locationsView := by
  unfold updateFloodRiskProfile
  split
  · rfl
  · split
    · rfl
    · split <;> rfl

theorem loadProfile_locationsView (net : Network) (firstLocation : String) (s : Page) :
    (loadProfile net firstLocation s).locationsView = s.locationsView := by
  unfold loadProfile
  split
  · rfl
  · split
    · split
      · rfl
      · rfl
      · rw [updateFloodRiskProfile_locationsView]; rfl
    · rfl

theorem loadInitialProfile_locationsView (net : Network) (s : Page) :
    (loadInitialProfile net s).page.locationsView = s.locationsView := by
  unfold loadInitialProfile
  split
  · rfl
  · rfl
  · next first _ _ =>
    show (loadProfile net first.name (s.fetch ⟨BASE_URL, .locations⟩)).locationsView = _
    rw [loadProfile_locationsView]; rfl
  · rfl

/-- The rows and the markers a cycle of app.js leaves are those the locations step leaves: the
alerts step, the initial-profile step and the `catch` do not touch them. -/
theorem loadDashboardData_locationsView (net : Network) (s : Page) :
    (loadDashboardData net s).locationsView =
      ((loadStatus net s).andThen (loadLocations net)).page.locationsView := by
  unfold loadDashboardData loadDashboardSteps
  cases h1 : (loadStatus net s).thrown with
  | some e =>
    rw [andThen_of_some _ _ e h1, andThen_of_some _ _ e h1]
    simp only [h1]
    rfl
  | none =>
    rw [andThen_of_none _ _ h1, andThen_of_none _ _ h1]
    cases h2 : (loadLocations net (loadStatus net s).page).thrown with
    | some e =>
      rw [andThen_of_some _ _ e h2]
      simp only [h2]
      rfl
    | none =>
      rw [andThen_of_none _ _ h2]
      have hframe :
          (loadInitialProfile net
              (loadAlerts net (loadLocations net (loadStatus net s).page).page)).page.locationsView
            = (loadLocations net (loadStatus net s).page).page.locationsView := by
        rw [loadInitialProfile_locationsView, loadAlerts_locationsView]
      cases h3 : (loadInitialProfile net
          (loadAlerts net (loadLocations net (loadStatus net s).page).page)).thrown with
      | some e =>
        rw [andThen_of_some _ _ e h3]
        simp only [h3]
        exact hframe
      | none =>
        rw [andThen_of_none _ _ h3]
        exact hframe

theorem debug_updateAlertsList_locationsView (alerts : Option (List Alert)) (s : Page) :
    (Debug.updateAlertsList alerts s).locationsView = s.locationsView := by
  unfold Debug.updateAlertsList
  split
  · rfl
  · split <;> rfl

theorem debug_loadAlerts_locationsView (net : Network) (s : Page) :
    (Debug.loadAlerts net s).locationsView = s.locationsView := by
  unfold Debug.loadAlerts
  split
  · rfl
  · split
    · split
      · rfl
      · rfl
      · rw [debug_updateAlertsList_locationsView]; rfl
    · rfl

/-- The rows and the markers a cycle of app-debug.js leaves, and whether it throws, are settled
by the end of the locations step. -/
theorem debug_loadDashboardData_locationsView (net : Network) (s : Page) :
    (Debug.loadDashboardData net s).page.locationsView =
        ((Debug.loadStatus net s).andThen (Debug.loadLocations net)).page.locationsView ∧
      (Debug.loadDashboardData net s).thrown =
        ((Debug.loadStatus net s).andThen (Debug.loadLocations net)).thrown := by
  unfold Debug.loadDashboardData
  cases h1 : (Debug.loadStatus net s).thrown with
  | some e =>
    rw [andThen_of_some _ _ e h1, andThen_of_some _ _ e h1]
    exact ⟨rfl, rfl⟩
  | none =>
    rw [andThen_of_none _ _ h1, andThen_of_none _ _ h1]
    cases h2 : (Debug.loadLocations net (Debug.loadStatus net s).page).thrown with
    | some e =>
      rw [andThen_of_some _ _ e h2]
      exact ⟨rfl, h2⟩
    | none =>
      rw [andThen_of_none _ _ h2]
      exact ⟨debug_loadAlerts_locationsView net _, rfl⟩

theorem loadAlerts_failed (net : Network) (s : Page)
    (h : (net.alerts s.requests.length).failed = true) :
    loadAlerts net s = s.fetch ⟨BASE_URL, .alerts⟩ := by
  unfold loadAlerts
  unfold Fetched.failed at h
  split
  · rfl
  · next status body heq =>
    rw [heq] at h
    simp only [Bool.not_eq_true'] at h
    simp only [h]
    rfl

theorem debug_loadAlerts_failed (net : Network) (s : Page)
    (h : (net.alerts s.requests.length).failed = true) :
    Debug.loadAlerts net s = s.fetch ⟨Debug.API_BASE, .alerts⟩ := by
  unfold Debug.loadAlerts
  unfold Fetched.failed at h
  split
  · rfl
  · next status body heq =>
    rw [heq] at h
    simp only [Bool.not_eq_true'] at h
    simp only [h]
    rfl

/-- Once status and locations are served and the later fetch of `/api/locations` can be decoded,
the cycle of app.js ends without the banner. -/
theorem loadDashboardData_served_no_banner (net : Network) (s : Page) (status status' : Nat)
    (data : SystemStatus) (locations : List Location)
    (hstatus : net.status s.requests.length = .response status (.value data))
    (hok : responseOk status = true)
    (hloc : net.locations (s.requests.length + 1) = .response status' (.value (.array locations)))
    (hok' : responseOk status' = true) (hmap : s.map.isSome = true)
    (hrefetch : ∀ k, s.requests.length + 1 < k → (net.locations k).decodable = true) :
    (loadDashboardData net s).connectionError = none := by
  obtain ⟨s₂, hreq, hce, _⟩ :=
    loadDashboardData_served net s status status' data locations hstatus hok hloc hok' hmap
  have hlen : s.requests.length + 1 < s₂.requests.length := by
    rw [hreq]; simp
  rw [hce]
  exact loadInitialProfile_decodable net s₂ (hrefetch _ hlen)

theorem debug_updateLocationsList_array_thrown (net : Network) (locations : List Location)
    (s : Page) : (Debug.updateLocationsList net (.array locations) s).thrown = none := by
  unfold Debug.updateLocationsList
  split <;> rfl

theorem debug_updateLocationsMap_array_thrown (locations : List Location) (s : Page) :
    (Debug.updateLocationsMap (.array locations) s).thrown = none := by
  unfold Debug.updateLocationsMap
  split <;> rfl

/-- Once status and locations are served, the cycle of app-debug.js does not throw. -/
theorem debug_loadDashboardData_served (net : Network) (s : Page) (status status' : Nat)
    (data : SystemStatus) (locations : List Location)
    (hstatus : net.status s.requests.length = .response status (.value data))
    (hok : responseOk status = true)
    (hloc : net.locations (s.requests.length + 1) = .response status' (.value (.array locations)))
    (hok' : responseOk status' = true) :
    (Debug.loadDashboardData net s).thrown = none := by
  have h1 : (Debug.loadStatus net s).thrown = none := by
    unfold Debug.loadStatus
    rw [hstatus]
    simp only [hok, if_true]
    rfl
  have hlen : (Debug.loadStatus net s).page.requests.length = s.requests.length + 1 := by
    rw [debug_loadStatus_requests]; simp
  have h2 : (Debug.loadLocations net (Debug.loadStatus net s).page).thrown = none := by
    unfold Debug.loadLocations
    rw [hlen, hloc]
    simp only [hok', if_true]
    rw [andThen_of_none _ _ (debug_updateLocationsMap_array_thrown _ _)]
    exact debug_updateLocationsList_array_thrown _ _ _
  rw [(debug_loadDashboardData_locationsView net s).2, andThen_of_none _ _ h1]
  exact h2

/-- C11: a failing alerts fetch is confined to the alerts feed.  In both builds the rows and the
markers a cycle leaves are those of the cycle on the same inputs with the alerts answered in any
other way; an alerts fetch that fails (network error or non-2xx) leaves of the alerts step the
request only; and with every other fetch served the cycle of app.js ends without the
connection-error banner and that of app-debug.js does not throw. -/
theorem C11_alerts_failure_confined (net : Network) (alerts : Nat → Fetched AlertsBody)
    (s : Page) :
    (loadDashboardData net s).locationsView =
      (loadDashboardData { net with alerts := alerts } s).locationsView ∧
    (∀ t : Page, (net.alerts t.requests.length).failed = true →
      loadAlerts net t = t.fetch ⟨BASE_URL, .alerts⟩) ∧
    (∀ (status status' : Nat) (data : SystemStatus) (locations : List Location),
      net.status s.requests.length = .response status (.value data) →
      responseOk status = true →
      net.locations (s.requests.length + 1) = .response status' (.value (.array locations)) →
      responseOk status' = true → s.map.isSome = true →
      (∀ k, s.requests.length + 1 < k → (net.locations k).decodable = true) →
      (∀ k, (net.alerts k).failed = true) →
      (loadDashboardData net s).connectionError = none) ∧
    ((Debug.loadDashboardData net s).page.locationsView =
        (Debug.loadDashboardData { net with alerts := alerts } s).page.locationsView ∧
      (Debug.loadDashboardData net s).thrown =
        (Debug.loadDashboardData { net with alerts := alerts } s).thrown) ∧
    (∀ t : Page, (net.alerts t.requests.length).failed = true →
      Debug.loadAlerts net t = t.fetch ⟨Debug.API_BASE, .alerts⟩) ∧
    (∀ (status status' : Nat) (data : SystemStatus) (locations : List Location),
      net.status s.requests.length = .response status (.value data) →
      responseOk status = true →
      net.locations (s.requests.length + 1) = .response status' (.value (.array locations)) →
      responseOk status' = true →
      (∀ k, (net.alerts k).failed = true) →
      (Debug.loadDashboardData net s).thrown = none) := by
  refine ⟨?_, loadAlerts_failed net, ?_, ⟨?_, ?_⟩, debug_loadAlerts_failed net, ?_⟩
  · rw [loadDashboardData_locationsView, loadDashboardData_locationsView]
    rfl
  · intro status status' data locations hstatus hok hloc hok' hmap hrefetch _
    exact loadDashboardData_served_no_banner net s status status' data locations hstatus hok hloc
      hok' hmap hrefetch
  · rw [(debug_loadDashboardData_locationsView net s).1,
      (debug_loadDashboardData_locationsView _ s).1]
    rfl
  · rw [(debug_loadDashboardData_locationsView net s).2,
      (debug_loadDashboardData_locationsView _ s).2]
    rfl
  · intro status status' data locations hstatus hok hloc hok' _
    exact debug_loadDashboardData_served net s status status' data locations hstatus hok hloc hok'

/-- Witness of C11: with the alerts answering 500 and every other feed served, the cycle of
app.js ends without the banner, and its rows and markers are those of the cycle in which the
alerts are served. -/
theorem C11_alerts_failure_confined_witness :
    (loadDashboardData alertsDown (initializeMap Page.initial)).connectionError = none ∧
    (loadDashboardData alertsDown (initializeMap Page.initial)).locationsView =
      (loadDashboardData
        { alertsDown with alerts := fun _ => .response 200 (.value { alerts := some [] }) }
        (initializeMap Page.initial)).locationsView :=
  ⟨(C11_alerts_failure_confined alertsDown
      (fun _ => .response 200 (.value { alerts := some [] }))
      (initializeMap Page.initial)).2.2.1 200 200 statusBody [dhaka, sylhet] rfl rfl rfl rfl rfl
      (fun _ _ => rfl) (fun _ => rfl),
    (C11_alerts_failure_confined alertsDown
      (fun _ => .response 200 (.value { alerts := some [] }))
      (initializeMap Page.initial)).1⟩

/-! ### What `updateLocationsList` reads of a response -/

theorem locationRow_ignores_status_error (location : Location) (status : Nat)
    (data : PredictionData) :
    locationRow location (.response status (.value data)) =
      locationRow location (.response 200 (.value { data with error := none })) := rfl

theorem debug_locationRow_ignores_error (location : Location) (status : Nat)
    (data : PredictionData) (h : responseOk status = true) :
    Debug.locationRow location (.response status (.value data)) =
      Debug.locationRow location (.response 200 (.value { data with error := none })) := by
  unfold Debug.locationRow
  simp only [h, if_true]
  rfl

/-- C12 at failing inputs.  `updateLocationsList` of app.js reads neither `response.ok` nor the
`error` field: the row of a response is the row of the same body served with status 200 and no
`error` field, so a response with status 500 and an `error` field whose body has the fields of a
snapshot gives a data row of class risk-low at 35 percent and colours the marker.  That of
app-debug.js reads `response.ok` but not the `error` field: a 2xx body with an `error` field
gives a data row. -/
theorem C12_status_and_error_field_unread :
    (∀ (location : Location) (status : Nat) (data : PredictionData),
      locationRow location (.response status (.value data)) =
        locationRow location (.response 200 (.value { data with error := none }))) ∧
    (∀ (location : Location) (status : Nat) (data : PredictionData), responseOk status = true →
      Debug.locationRow location (.response status (.value data)) =
        Debug.locationRow location (.response 200 (.value { data with error := none }))) ∧
    locationRow sylhet (.response 500 (.value sylhetWithError)) =
      .location "Sylhet"
        (.full (.elevationRiver (some 4) (some 1)) (some ("floodplain", "poor"))
          (some ("Flash Flood", 85)))
        .low "HIGH RISK" (some 35) ∧
    Debug.locationRow sylhet (.response 200 (.value sylhetWithError)) =
      .location "Sylhet" .brief .low "HIGH RISK" (some 35) ∧
    Debug.locationRow sylhet (.response 500 (.value sylhetWithError)) =
      .failed "Sylhet" "ERROR" (some (.http "HTTP" 500)) ∧
    ((getMarker
        (locationStep predictionsFail
          (updateLocationsMap (.array [sylhet]) (initializeMap Page.initial)).page
          sylhet).markers
        (locationStep predictionsFail
          (updateLocationsMap (.array [sylhet]) (initializeMap Page.initial)).page
          sylhet).markersProto "Sylhet").bind Member.toMarker).map
        (fun m => m.icon.map fun i => i.markerColor) =
      some (some "#27ae60") := by
  refine ⟨locationRow_ignores_status_error, debug_locationRow_ignores_error, ?_, ?_, ?_, ?_⟩
  · norm_num [locationRow, predictionData, locationElement, geoInfo, riskProfileHtml,
      highestRisk, arraySort, sortInsert, byRiskPercentage, jsSub, comparePositive,
      mechanismRisk, riskClass, jsGe, jsMul, snapshot, sylhetWithError, sylhet]
    simp +decide [listTypeName]
  · simp +decide only [Debug.locationRow, responseOk, if_true]
    norm_num [Debug.riskClass, jsGe, jsMul, snapshot, sylhetWithError, sylhet]
  · simp +decide [Debug.locationRow, responseOk, sylhet]
  · simp +decide only [locationStep, predictionData, predictionsFail, offline]
    norm_num [locationElement, geoInfo, riskProfileHtml, highestRisk, arraySort, sortInsert,
      byRiskPercentage, jsSub, comparePositive, mechanismRisk, snapshot, sylhetWithError]
    simp +decide [updateMarker, getMarker, updateLocationsMap, initializeMap, Page.initial,
      addLocationMarker, setMarker, setPrototype, newMarker, appendChild, Page.fetch, sylhet,
      Member.toMarker]
    norm_num [markerColor, jsGe]

/-- C13, as amended: for a served and parsed body without `risk_probability` the percentage of
the row is never a number (it reads `NaN`).  app-debug.js renders a data row of class
risk-minimal; app.js renders the row with the badge UNKNOWN or a data row of class risk-minimal,
the latter whenever the `geoInfo` line and the `Primary:` line can be built, and then colours the
marker with the colour of the lowest band. -/
theorem C13_missing_probability_is_minimal (location : Location) (status : Nat)
    (data : PredictionData) (h : data.risk_probability = none) :
    (locationRow location (.response status (.value data)) =
        .failed location.name "UNKNOWN" none ∨
      ∃ details, locationRow location (.response status (.value data)) =
        .location location.name details .minimal data.status none) ∧
    (∀ info primary, geoInfo data = .ok info → riskProfileHtml data = .ok primary →
      ∃ details, locationRow location (.response status (.value data)) =
        .location location.name details .minimal data.status none) ∧
    (responseOk status = true →
      Debug.locationRow location (.response status (.value data)) =
        .location location.name .brief .minimal data.status none) ∧
    markerColor data.risk_probability = "#2ecc71" ∧
    markerSize data.risk_probability = none := by
  have hrow : ∀ element, locationElement location data = .ok element →
      ∃ details, element = .location location.name details .minimal data.status none := by
    intro element he
    obtain ⟨details, hd⟩ := locationElement_ok location data element he
    refine ⟨details, ?_⟩
    rw [hd, h]
    rfl
  refine ⟨?_, ?_, ?_, by rw [h]; rfl, by rw [h]; rfl⟩
  · unfold locationRow predictionData
    cases he : locationElement location data with
    | error e =>
      left
      simp only [he]
    | ok element =>
      obtain ⟨details, hd⟩ := hrow element he
      right
      refine ⟨details, ?_⟩
      simp only [he]
      exact hd
  · intro info primary hg hp
    have he : ∃ element, locationElement location data = .ok element := by
      unfold locationElement
      rw [hg, hp]
      exact ⟨_, rfl⟩
    obtain ⟨element, he⟩ := he
    obtain ⟨details, hd⟩ := hrow element he
    refine ⟨details, ?_⟩
    unfold locationRow predictionData
    simp only [he]
    exact hd
  · intro hok
    unfold Debug.locationRow
    simp only [hok, if_true, h]
    rfl

/-- Witness of C13 as amended, on a snapshot for Dhaka without `risk_probability`. -/
theorem C13_missing_probability_is_minimal_witness :
    Debug.locationRow dhaka (.response 200 (.value dhakaNoProbability)) =
      .location dhaka.name .brief .minimal dhakaNoProbability.status none :=
  (C13_missing_probability_is_minimal dhaka 200 dhakaNoProbability rfl).2.2.1 rfl

/-- Counterexample to C13 as stated: a served snapshot for Dhaka in which only
`risk_probability` is absent is rendered by both builds as a data row of class risk-minimal, not
as the error row, and the marker colour of app.js is that of the lowest band. -/
theorem C13_counterexample :
    dhakaNoProbability.risk_probability = none ∧
    locationRow dhaka (.response 200 (.value dhakaNoProbability)) =
      .location "Dhaka"
        (.full (.elevationRiver (some 4) (some 1)) (some ("floodplain", "poor"))
          (some ("Flash Flood", 85)))
        .minimal "HIGH RISK" none ∧
    Debug.locationRow dhaka (.response 200 (.value dhakaNoProbability)) =
      .location "Dhaka" .brief .minimal "HIGH RISK" none ∧
    markerColor dhakaNoProbability.risk_probability = "#2ecc71" := by
  refine ⟨rfl, ?_, ?_, rfl⟩
  · norm_num [locationRow, predictionData, locationElement, geoInfo, riskProfileHtml,
      highestRisk, arraySort, sortInsert, byRiskPercentage, jsSub, comparePositive,
      mechanismRisk, riskClass, jsGe, jsMul, snapshot, dhakaNoProbability, dhaka]
    simp +decide [listTypeName]
  · simp +decide [Debug.locationRow, responseOk, Debug.riskClass, jsGe, jsMul, snapshot,
      dhakaNoProbability, dhaka]

/-! ### The map click handler -/

theorem outsideBounds_eq_false (lat lon : ℚ) :
    outsideBounds lat lon = false ↔
      205 / 10 ≤ lat ∧ lat ≤ 267 / 10 ∧ 88 ≤ lon ∧ lon ≤ 928 / 10 := by
  unfold outsideBounds
  simp only [Bool.or_eq_false_iff, decide_eq_false_iff_not, not_lt, gt_iff_lt]
  constructor
  · rintro ⟨⟨⟨h1, h2⟩, h3⟩, h4⟩
    exact ⟨h1, h2, h3, h4⟩
  · rintro ⟨h1, h2, h3, h4⟩
    exact ⟨⟨⟨h1, h2⟩, h3⟩, h4⟩

theorem clickPrediction_requests (net : Network) (k : Nat) (lat lon : ℚ) (s : Page) :
    (clickPrediction net k lat lon s).page.requests = s.requests := by
  unfold clickPrediction
  split
  · rfl
  · split
    · split
      · rfl
      · rfl
      · split
        · rfl
        · split
          · rfl
          · rw [updateFloodRiskProfile_requests]
    · rfl

theorem onMapClick_inside_requests (net : Network) (lat lon : ℚ) (s : Page)
    (h : outsideBounds lat lon = false) :
    (onMapClick net lat lon s).requests =
      s.requests ++ [⟨API_BASE_URL, .predictCoordinates lat lon⟩] := by
  have hreq := clickPrediction_requests net s.requests.length lat lon
    (Page.fetch { s with popup := some ⟨lat, lon, .loading⟩ }
      ⟨API_BASE_URL, .predictCoordinates lat lon⟩)
  unfold onMapClick
  simp only [h, Bool.false_eq_true, if_false]
  split
  · rw [hreq]; rfl
  · show (clickPrediction net s.requests.length lat lon _).page.requests = _
    rw [hreq]; rfl

/-- C14: the click handler issues the request `/api/predict/coordinates/{lat}/{lon}`, and only
that request, exactly when 20.5 <= lat <= 26.7 and 88.0 <= lon <= 92.8, the bounds being
inclusive and those of the rectangle drawn on the map; for any other coordinate it opens the
out-of-bounds popup and issues no request. -/
theorem C14_click_bounds (net : Network) (lat lon : ℚ) (s : Page) :
    (issuedSince s (onMapClick net lat lon s) = [⟨API_BASE_URL, .predictCoordinates lat lon⟩] ↔
      bangladeshBounds.1.1 ≤ lat ∧ lat ≤ bangladeshBounds.2.1 ∧
        bangladeshBounds.1.2 ≤ lon ∧ lon ≤ bangladeshBounds.2.2) ∧
    (¬(bangladeshBounds.1.1 ≤ lat ∧ lat ≤ bangladeshBounds.2.1 ∧
        bangladeshBounds.1.2 ≤ lon ∧ lon ≤ bangladeshBounds.2.2) →
      issuedSince s (onMapClick net lat lon s) = [] ∧
      (onMapClick net lat lon s).popup = some ⟨lat, lon, .outside⟩) ∧
    bangladeshBounds = ((205 / 10, 88), (267 / 10, 928 / 10)) := by
  have hin := outsideBounds_eq_false lat lon
  have hout : outsideBounds lat lon = true →
      issuedSince s (onMapClick net lat lon s) = [] ∧
      (onMapClick net lat lon s).popup = some ⟨lat, lon, .outside⟩ := by
    intro h
    unfold onMapClick
    simp only [h, if_true]
    exact ⟨issuedSince_of_append _ _ _ (by simp), trivial⟩
  refine ⟨⟨?_, ?_⟩, ?_, rfl⟩
  · intro hreq
    by_contra hcon
    have hout' : outsideBounds lat lon = true := by
      cases hb : outsideBounds lat lon with
      | true => rfl
      | false => exact absurd (hin.mp hb) hcon
    rw [(hout hout').1] at hreq
    cases hreq
  · intro hb
    exact issuedSince_of_append _ _ _ (onMapClick_inside_requests net lat lon s (hin.mpr hb))
  · intro hcon
    apply hout
    cases hb : outsideBounds lat lon with
    | true => rfl
    | false => exact absurd (hin.mp hb) hcon

/-- Witness of C14: a click on the south-west corner of the rectangle issues the request, a click
just south of it issues none. -/
theorem C14_click_bounds_witness :
    issuedSince (initializeMap Page.initial)
        (onMapClick offline (205 / 10) 88 (initializeMap Page.initial)) =
      [⟨API_BASE_URL, .predictCoordinates (205 / 10) 88⟩] ∧
    issuedSince (initializeMap Page.initial)
        (onMapClick offline (204 / 10) 88 (initializeMap Page.initial)) = [] :=
  ⟨(C14_click_bounds offline (205 / 10) 88 (initializeMap Page.initial)).1.mpr
      (by norm_num [bangladeshBounds]),
    ((C14_click_bounds offline (204 / 10) 88 (initializeMap Page.initial)).2.1
      (by norm_num [bangladeshBounds])).1⟩

/-- C15: for a click inside the bounds whose response is not 2xx, or is 2xx with a body whose
`error` field is truthy, the handler ends with the error popup at the clicked position, and the
flood risk profile panel is as it was before the click. -/
theorem C15_click_failure_atomic (net : Network) (lat lon : ℚ) (s : Page) (status : Nat)
    (body : Body PredictionData) (hin : outsideBounds lat lon = false)
    (hresponse : net.predictCoordinates s.requests.length lat lon = .response status body)
    (hfail : responseOk status = false ∨
      ∃ data, body = .value data ∧ errorTruthy data.error = true) :
    (∃ e, (onMapClick net lat lon s).popup = some ⟨lat, lon, .error e⟩) ∧
      (onMapClick net lat lon s).floodRiskProfile = s.floodRiskProfile := by
  unfold onMapClick clickPrediction
  simp only [hin, Bool.false_eq_true, if_false, hresponse]
  by_cases hok : responseOk status = true
  · rcases hfail with hno | ⟨data, hbody, herr⟩
    · rw [hok] at hno; cases hno
    · simp only [hok, if_true, hbody, herr]
      exact ⟨⟨_, rfl⟩, rfl⟩
  · simp only [hok, Bool.false_eq_true, if_false]
    exact ⟨⟨_, rfl⟩, rfl⟩

/-- Witness of C15: a click on the south-west corner answered with status 200 and a body with an
`error` field. -/
theorem C15_click_failure_atomic_witness :
    (∃ e, (onMapClick coordinateError (205 / 10) 88 (initializeMap Page.initial)).popup =
        some ⟨205 / 10, 88, .error e⟩) ∧
      (onMapClick coordinateError (205 / 10) 88 (initializeMap Page.initial)).floodRiskProfile =
        (initializeMap Page.initial).floodRiskProfile :=
  C15_click_failure_atomic coordinateError (205 / 10) 88 (initializeMap Page.initial) 200
    (.value sylhetWithError) (by norm_num [outsideBounds]) rfl
    (Or.inr ⟨sylhetWithError, rfl, by decide⟩)

/-! ### The marker registry -/

theorem setMarker_new (markers : List (String × Marker)) (name : String) (marker : Marker)
    (hp : name ≠ "__proto__") (h : ∀ e ∈ markers, e.1 ≠ name) :
    setMarker markers name marker = markers ++ [(name, marker)] := by
  unfold setMarker
  have hany : (markers.any fun e => e.1 == name) = false := by
    rw [List.any_eq_false]
    intro e he
    simpa using h e he
  simp only [hany, hp, Bool.false_eq_true, if_false]

theorem foldl_addLocationMarker_fresh (locations : List Location) (t : Page)
    (layers : List Marker) (hmap : t.map = some layers)
    (hnames : (locations.map fun l => l.name).Nodup)
    (hproto : ∀ l ∈ locations, l.name ≠ "__proto__")
    (hkeys : ∀ l ∈ locations, ∀ e ∈ t.markers, e.1 ≠ l.name) :
    (locations.foldl addLocationMarker t).markers =
        t.markers ++ freshMarkers t.nextMarker locations ∧
      (locations.foldl addLocationMarker t).map =
        some (layers ++ (freshMarkers t.nextMarker locations).map Prod.snd) ∧
      (locations.foldl addLocationMarker t).nextMarker = t.nextMarker + locations.length := by
  induction locations generalizing t layers with
  | nil => simp [freshMarkers, hmap]
  | cons l rest ih =>
    have hnew : setMarker t.markers l.name (newMarker l t.nextMarker) =
        t.markers ++ [(l.name, newMarker l t.nextMarker)] :=
      setMarker_new _ _ _ (hproto l (List.mem_cons_self _ _)) (hkeys l (List.mem_cons_self _ _))
    rw [List.map_cons, List.nodup_cons] at hnames
    have hstep_markers : (addLocationMarker t l).markers =
        t.markers ++ [(l.name, newMarker l t.nextMarker)] := by
      unfold addLocationMarker; exact hnew
    have hstep_map : (addLocationMarker t l).map = some (layers ++ [newMarker l t.nextMarker]) := by
      unfold addLocationMarker; simp only [hmap]; rfl
    have hstep_next : (addLocationMarker t l).nextMarker = t.nextMarker + 1 := rfl
    obtain ⟨h1, h2, h3⟩ := ih (addLocationMarker t l) _ hstep_map hnames.2
      (fun l' hl' => hproto l' (List.mem_cons_of_mem _ hl')) (by
      intro l' hl' e he
      rw [hstep_markers] at he
      rcases List.mem_append.mp he with he' | he'
      · exact hkeys l' (List.mem_cons_of_mem _ hl') e he'
      · simp only [List.mem_singleton] at he'
        rw [he']
        intro heq
        exact hnames.1 (List.mem_map.mpr ⟨l', hl', heq.symm⟩))
    rw [List.foldl_cons, h1, h2, h3, hstep_markers, hstep_next]
    refine ⟨by simp [freshMarkers], by simp [freshMarkers], by simp; omega⟩

theorem freshMarkers_names (k : Nat) (locations : List Location) :
    (freshMarkers k locations).map Prod.fst = locations.map fun l => l.name := by
  induction locations generalizing k with
  | nil => rfl
  | cons l rest ih => simp [freshMarkers, ih]

theorem freshMarkers_appearance (k k' : Nat) (locations : List Location) :
    (freshMarkers k locations).map (fun e => (e.1, e.2.appearance)) =
      (freshMarkers k' locations).map (fun e => (e.1, e.2.appearance)) := by
  induction locations generalizing k k' with
  | nil => rfl
  | cons l rest ih =>
    simp only [freshMarkers, List.map_cons]
    rw [ih (k + 1) (k' + 1)]
    rfl

/-- On a page whose map shows registered markers only, `updateLocationsMap` of app.js leaves
the registry and the map with exactly the new markers of the list, where no location has the
name `__proto__`. -/
theorem updateLocationsMap_fresh (locations : List Location) (s : Page) (layers : List Marker)
    (hnames : (locations.map fun l => l.name).Nodup)
    (hproto : ∀ l ∈ locations, l.name ≠ "__proto__") (hmap : s.map = some layers)
    (hreg : ∀ m ∈ layers, ∃ e ∈ s.markers, e.2.id = m.id) :
    (updateLocationsMap (.array locations) s).page.markers =
        freshMarkers s.nextMarker locations ∧
      (updateLocationsMap (.array locations) s).page.map =
        some ((freshMarkers s.nextMarker locations).map Prod.snd) ∧
      (updateLocationsMap (.array locations) s).page.nextMarker =
        s.nextMarker + locations.length := by
  have hclear : (layers.filter fun m => !(s.markers.any fun e => e.2.id == m.id)) = [] := by
    rw [List.filter_eq_nil_iff]
    intro m hm
    obtain ⟨e, he, hid⟩ := hreg m hm
    have hany : (s.markers.any fun e => e.2.id == m.id) = true :=
      List.any_eq_true.mpr ⟨e, he, by simp [hid]⟩
    simp [hany]
  unfold updateLocationsMap
  simp only [hmap, hclear]
  obtain ⟨h1, h2, h3⟩ := foldl_addLocationMarker_fresh locations
    { s with map := some [], markers := [], markersProto := none } [] rfl hnames hproto
    (by intro _ _ e he; cases he)
  rw [h1, h2, h3]
  exact ⟨by simp, by simp, rfl⟩

theorem debug_updateLocationsMap_eq (locations : LocationsBody) (s : Page)
    (layers : List Marker) (hmap : s.map = some layers) :
    Debug.updateLocationsMap locations s = updateLocationsMap locations s := by
  unfold Debug.updateLocationsMap updateLocationsMap
  simp only [hmap]

/-- For a list of locations with unique names, none of them `__proto__`, and a page on which
every marker on the map is a value of the registry, after `updateLocationsMap` the keys of the
registry are the names of the list, in order, the registry holds one new marker a location and
the markers on the map are exactly the values of the registry; a second call with the same list
leaves a registry and a map that show the same as after the first.  So in both builds. -/
theorem updateLocationsMap_replaces (locations : List Location) (s : Page)
    (layers : List Marker) (hnames : (locations.map fun l => l.name).Nodup)
    (hproto : ∀ l ∈ locations, l.name ≠ "__proto__") (hmap : s.map = some layers)
    (hreg : ∀ m ∈ layers, ∃ e ∈ s.markers, e.2.id = m.id) :
    ((updateLocationsMap (.array locations) s).page.markers.map Prod.fst =
        locations.map (fun l => l.name) ∧
      (updateLocationsMap (.array locations) s).page.markers =
        freshMarkers s.nextMarker locations ∧
      (updateLocationsMap (.array locations) s).page.map =
        some ((updateLocationsMap (.array locations) s).page.markers.map Prod.snd) ∧
      (updateLocationsMap (.array locations)
          (updateLocationsMap (.array locations) s).page).page.markers.map
          (fun e => (e.1, e.2.appearance)) =
        (updateLocationsMap (.array locations) s).page.markers.map
          (fun e => (e.1, e.2.appearance)) ∧
      (updateLocationsMap (.array locations)
          (updateLocationsMap (.array locations) s).page).page.map.map
          (List.map Marker.appearance) =
        (updateLocationsMap (.array locations) s).page.map.map (List.map Marker.appearance)) ∧
    (Debug.updateLocationsMap (.array locations) s = updateLocationsMap (.array locations) s ∧
      Debug.updateLocationsMap (.array locations)
          (Debug.updateLocationsMap (.array locations) s).page =
        updateLocationsMap (.array locations) (updateLocationsMap (.array locations) s).page)
    := by
  obtain ⟨h1, h2, _⟩ := updateLocationsMap_fresh locations s layers hnames hproto hmap hreg
  have hreg' : ∀ m ∈ (freshMarkers s.nextMarker locations).map Prod.snd,
      ∃ e ∈ (updateLocationsMap (.array locations) s).page.markers, e.2.id = m.id := by
    intro m hm
    obtain ⟨e, he, hem⟩ := List.mem_map.mp hm
    exact ⟨e, by rw [h1]; exact he, by rw [hem]⟩
  obtain ⟨k1, k2, _⟩ := updateLocationsMap_fresh locations
    (updateLocationsMap (.array locations) s).page _ hnames hproto h2 hreg'
  have hd1 := debug_updateLocationsMap_eq (.array locations) s layers hmap
  refine ⟨⟨?_, h1, ?_, ?_, ?_⟩, hd1, ?_⟩
  · rw [h1, freshMarkers_names]
  · rw [h2, h1]
  · rw [k1, h1]
    exact freshMarkers_appearance _ _ _
  · rw [k2, h2]
    simp only [Option.map_some', List.map_map]
    congr 1
    have := freshMarkers_appearance
      (updateLocationsMap (.array locations) s).page.nextMarker s.nextMarker locations
    have h := congrArg (List.map Prod.snd) this
    simpa [List.map_map, Function.comp] using h
  · rw [hd1]
    exact debug_updateLocationsMap_eq _ _ _ h2

/-- C16 at a failing input.  For the one location of the name `__proto__` the assignment
`markers[location.name] = marker` sets the prototype of the registry and makes no key: after
`updateLocationsMap` the registry has no key while the map shows the marker, and a second call
with the same list, which removes the values of the registry only, leaves two markers on the
map.  So in both builds.  With the locations Dhaka and Sylhet the second call puts two new
markers in the place of the two of the first call; and for every list of unique names without
`__proto__` the registry and the map are replaced as the claim says. -/
theorem C16_proto_marker_accumulates :
    ((updateLocationsMap (.array [protoLocation]) (initializeMap Page.initial)).page.markers.map
        Prod.fst = [] ∧
      (updateLocationsMap (.array [protoLocation]) (initializeMap Page.initial)).page.map.map
        (List.map Marker.id) = some [0] ∧
      (updateLocationsMap (.array [protoLocation])
        (updateLocationsMap (.array [protoLocation]) (initializeMap Page.initial)).page).page.map.map
        (List.map Marker.id) = some [0, 1] ∧
      (updateLocationsMap (.array [protoLocation])
        (updateLocationsMap (.array [protoLocation])
          (initializeMap Page.initial)).page).page.markers.map Prod.fst = []) ∧
    (Debug.updateLocationsMap (.array [protoLocation])
        (Debug.updateLocationsMap (.array [protoLocation])
          (initializeMap Page.initial)).page).page.map.map (List.map Marker.id) = some [0, 1] ∧
    ((updateLocationsMap (.array [dhaka, sylhet]) (initializeMap Page.initial)).page.map.map
        (List.map Marker.id) = some [0, 1] ∧
      (updateLocationsMap (.array [dhaka, sylhet])
        (updateLocationsMap (.array [dhaka, sylhet]) (initializeMap Page.initial)).page).page.map.map
        (List.map Marker.id) = some [2, 3] ∧
      (updateLocationsMap (.array [dhaka, sylhet])
        (updateLocationsMap (.array [dhaka, sylhet])
          (initializeMap Page.initial)).page).page.markers.map (fun e => (e.1, e.2.id)) =
        [("Dhaka", 2), ("Sylhet", 3)]) ∧
    (∀ (locations : List Location) (s : Page) (layers : List Marker),
      (locations.map fun l => l.name).Nodup → (∀ l ∈ locations, l.name ≠ "__proto__") →
      s.map = some layers → (∀ m ∈ layers, ∃ e ∈ s.markers, e.2.id = m.id) →
      (updateLocationsMap (.array locations) s).page.markers.map Prod.fst =
          locations.map (fun l => l.name) ∧
        (updateLocationsMap (.array locations) s).page.map =
          some ((updateLocationsMap (.array locations) s).page.markers.map Prod.snd) ∧
        (updateLocationsMap (.array locations)
            (updateLocationsMap (.array locations) s).page).page.markers.map
            (fun e => (e.1, e.2.appearance)) =
          (updateLocationsMap (.array locations) s).page.markers.map
            (fun e => (e.1, e.2.appearance)) ∧
        (updateLocationsMap (.array locations)
            (updateLocationsMap (.array locations) s).page).page.map.map
            (List.map Marker.appearance) =
          (updateLocationsMap (.array locations) s).page.map.map
            (List.map Marker.appearance)) := by
  refine ⟨⟨?_, ?_, ?_, ?_⟩, ?_, ⟨?_, ?_, ?_⟩, ?_⟩
  · simp +decide [updateLocationsMap, initializeMap, Page.initial, addLocationMarker, setMarker,
      setPrototype, newMarker, protoLocation]
  · simp +decide [updateLocationsMap, initializeMap, Page.initial, addLocationMarker, setMarker,
      setPrototype, newMarker, protoLocation]
  · simp +decide [updateLocationsMap, initializeMap, Page.initial, addLocationMarker, setMarker,
      setPrototype, newMarker, protoLocation]
  · simp +decide [updateLocationsMap, initializeMap, Page.initial, addLocationMarker, setMarker,
      setPrototype, newMarker, protoLocation]
  · simp +decide [Debug.updateLocationsMap, initializeMap, Page.initial, addLocationMarker,
      setMarker, setPrototype, newMarker, protoLocation]
  · simp +decide [updateLocationsMap, initializeMap, Page.initial, addLocationMarker, setMarker,
      setPrototype, newMarker, dhaka, sylhet]
  · simp +decide [updateLocationsMap, initializeMap, Page.initial, addLocationMarker, setMarker,
      setPrototype, newMarker, dhaka, sylhet]
  · simp +decide [updateLocationsMap, initializeMap, Page.initial, addLocationMarker, setMarker,
      setPrototype, newMarker, dhaka, sylhet]
  · intro locations s layers hnames hproto hmap hreg
    obtain ⟨⟨h1, _, h3, h4, h5⟩, _⟩ :=
      updateLocationsMap_replaces locations s layers hnames hproto hmap hreg
    exact ⟨h1, h3, h4, h5⟩

/-! ### The alerts list -/

/-- What `updateAlertsList` of app.js does with an array that is not empty, on a page that has
the list: the rows are those of the reversed array, and the array itself is left reversed. -/
theorem updateAlertsList_nonempty (alerts : List Alert) (s : Page) (hne : alerts ≠ [])
    (hs : s.alertsList.isSome = true) :
    (updateAlertsList (some alerts) s).1.page.alertsList =
        some (alerts.reverse.map alertElement) ∧
      (updateAlertsList (some alerts) s).1.thrown = none ∧
      (updateAlertsList (some alerts) s).2 = some alerts.reverse := by
  obtain ⟨c, hc⟩ := Option.isSome_iff_exists.mp hs
  unfold updateAlertsList
  cases alerts with
  | nil => exact absurd rfl hne
  | cons a rest => rw [hc]; exact ⟨rfl, rfl, rfl⟩

/-- The array object a call of `updateAlertsList` of app.js was given is left reversed by
`alerts.reverse()`: a call on that object once more, which neither script makes, would show the
rows in the opposite order.  `updateAlertsList` of app-debug.js does not reverse. -/
theorem updateAlertsList_reverses_argument :
    (updateAlertsList (some [olderAlert, newerAlert]) Page.initial).1.page.alertsList =
      some [alertElement newerAlert, alertElement olderAlert] ∧
    (updateAlertsList (updateAlertsList (some [olderAlert, newerAlert]) Page.initial).2
        (updateAlertsList (some [olderAlert, newerAlert]) Page.initial).1.page).1.page.alertsList =
      some [alertElement olderAlert, alertElement newerAlert] ∧
    alertElement olderAlert ≠ alertElement newerAlert ∧
    (∀ (alerts : List Alert) (s : Page), alerts ≠ [] → s.alertsList.isSome = true →
      (updateAlertsList (updateAlertsList (some alerts) s).2
          (updateAlertsList (some alerts) s).1.page).1.page.alertsList =
        ((updateAlertsList (some alerts) s).1.page.alertsList).map List.reverse) ∧
    (∀ (alerts : Option (List Alert)) (s : Page),
      (Debug.updateAlertsList alerts (Debug.updateAlertsList alerts s)).alertsList =
        (Debug.updateAlertsList alerts s).alertsList) := by
  refine ⟨rfl, rfl, by decide, ?_, ?_⟩
  · intro alerts s hne hs
    obtain ⟨h1, _, h3⟩ := updateAlertsList_nonempty alerts s hne hs
    have hne' : alerts.reverse ≠ [] := by simpa using hne
    obtain ⟨k1, _, _⟩ := updateAlertsList_nonempty alerts.reverse
      (updateAlertsList (some alerts) s).1.page hne' (by rw [h1]; rfl)
    rw [h3, k1, h1]
    simp [List.map_reverse]
  · intro alerts s
    unfold Debug.updateAlertsList
    cases hs : s.alertsList with
    | none => simp only [hs]
    | some c =>
      cases alerts with
      | none => rfl
      | some l =>
        cases l with
        | nil => rfl
        | cons a rest => rfl

/-- C17: rendering the alerts twice shows what rendering them once shows.  The one caller of
`updateAlertsList` (app.js 353-355) passes the array `response.json()` has just built, so the
second rendering of an array is a call with an array of the same elements in the same order: it
leaves the rows the first call has left, in their order and number, the rows of the first call
being replaced and none added.  So for every argument and every page, in both builds. -/
theorem C17_render_twice_same_rows (alerts : Option (List Alert)) (s : Page) :
    (updateAlertsList alerts (updateAlertsList alerts s).1.page).1.page.alertsList =
        (updateAlertsList alerts s).1.page.alertsList ∧
      (updateAlertsList alerts (updateAlertsList alerts s).1.page).1.thrown =
        (updateAlertsList alerts s).1.thrown ∧
      (∀ l : List Alert, alerts = some l → l ≠ [] → s.alertsList.isSome = true →
        (updateAlertsList alerts (updateAlertsList alerts s).1.page).1.page.alertsList =
          some ((l.map alertElement).reverse)) ∧
      (Debug.updateAlertsList alerts (Debug.updateAlertsList alerts s)).alertsList =
        (Debug.updateAlertsList alerts s).alertsList := by
  have hdebug : (Debug.updateAlertsList alerts (Debug.updateAlertsList alerts s)).alertsList =
      (Debug.updateAlertsList alerts s).alertsList := by
    unfold Debug.updateAlertsList
    cases hs : s.alertsList with
    | none => simp only [hs]
    | some c =>
      cases alerts with
      | none => rfl
      | some l =>
        cases l with
        | nil => rfl
        | cons a rest => rfl
  cases hs : s.alertsList with
  | none =>
    have h : updateAlertsList alerts s = (⟨s, none⟩, alerts) := by
      unfold updateAlertsList
      rw [hs]
    refine ⟨by rw [h, h], by rw [h, h], ?_, hdebug⟩
    intro l _ _ hsome
    exact absurd hsome (by simp)
  | some c =>
    cases alerts with
    | none =>
      have h : ∀ t : Page, t.alertsList = some c →
          updateAlertsList none t = (⟨t, some .typeError⟩, none) := by
        intro t ht
        unfold updateAlertsList
        rw [ht]
      refine ⟨by rw [h s hs, h s hs], by rw [h s hs, h s hs], ?_, hdebug⟩
      intro l hl
      exact absurd hl (by simp)
    | some l =>
      cases l with
      | nil =>
        have h : ∀ t : Page, t.alertsList.isSome = true →
            (updateAlertsList (some []) t).1.page.alertsList = some [.noAlerts] ∧
              (updateAlertsList (some []) t).1.thrown = none := by
          intro t ht
          obtain ⟨d, hd⟩ := Option.isSome_iff_exists.mp ht
          unfold updateAlertsList
          rw [hd]
          exact ⟨rfl, rfl⟩
        have h1 := h s (by rw [hs]; rfl)
        have h2 := h (updateAlertsList (some []) s).1.page (by rw [h1.1]; rfl)
        refine ⟨by rw [h2.1, h1.1], by rw [h2.2, h1.2], ?_, hdebug⟩
        intro l hl hne
        cases hl
        exact absurd rfl hne
      | cons a rest =>
        obtain ⟨h1, h1', _⟩ := updateAlertsList_nonempty (a :: rest) s (by simp)
          (by rw [hs]; rfl)
        obtain ⟨h2, h2', _⟩ := updateAlertsList_nonempty (a :: rest)
          (updateAlertsList (some (a :: rest)) s).1.page (by simp) (by rw [h1]; rfl)
        refine ⟨by rw [h2, h1], by rw [h2', h1'], ?_, hdebug⟩
        intro l hl _ _
        cases hl
        rw [h2, List.map_reverse]

/-- Two renderings of two alerts: both calls show the newer alert first. -/
theorem updateAlertsList_twice_example :
    (updateAlertsList (some [olderAlert, newerAlert])
        (updateAlertsList (some [olderAlert, newerAlert]) Page.initial).1.page).1.page.alertsList =
      some [alertElement newerAlert, alertElement olderAlert] := rfl

/-- C18: for every alerts array that is not empty, on a page that has the list,
`updateAlertsList` of app.js renders one row an alert, and the rows are those of the input
sequence in reverse order: the row of the last alert comes first. -/
theorem C18_alert_rows_reversed (alerts : List Alert) (s : Page) (hne : alerts ≠ [])
    (hs : s.alertsList.isSome = true) :
    (updateAlertsList (some alerts) s).1.page.alertsList =
        some ((alerts.map alertElement).reverse) ∧
      ((updateAlertsList (some alerts) s).1.page.alertsList.getD []).length = alerts.length ∧
      (updateAlertsList (some alerts) s).1.thrown = none := by
  obtain ⟨h1, h2, _⟩ := updateAlertsList_nonempty alerts s hne hs
  rw [h1]
  exact ⟨by rw [List.map_reverse], by simp, h2⟩

/-- Witness of C18: a server list of an older and a newer alert is shown newer first. -/
theorem C18_alert_rows_reversed_witness :
    (updateAlertsList (some [olderAlert, newerAlert]) Page.initial).1.page.alertsList =
        some (([olderAlert, newerAlert].map alertElement).reverse) ∧
      ((updateAlertsList (some [olderAlert, newerAlert]) Page.initial).1.page.alertsList.getD
        []).length = [olderAlert, newerAlert].length ∧
      (updateAlertsList (some [olderAlert, newerAlert]) Page.initial).1.thrown = none :=
  C18_alert_rows_reversed [olderAlert, newerAlert] Page.initial (by simp) rfl

/-! ### The primary mechanism in the views -/

theorem highestRisk_eq_head_sortedTypes (profile : FloodRiskProfile) :
    highestRisk profile = (sortedTypes profile).head? := rfl

theorem sortedTypes_ne_nil (profile : FloodRiskProfile) (hne : profile ≠ []) :
    sortedTypes profile ≠ [] := by
  intro h0
  have hp := arraySort_perm byRiskPercentage profile
  rw [show arraySort byRiskPercentage profile = [] from h0] at hp
  exact hne hp.symm.eq_nil

/-- The primary entry of a profile that is not empty, as every view finds it. -/
theorem primary_entry (profile : FloodRiskProfile) (hne : profile ≠ []) :
    ∃ key risk rest, sortedTypes profile = (key, risk) :: rest ∧
      highestRisk profile = some (key, risk) := by
  cases hs : sortedTypes profile with
  | nil => exact absurd hs (sortedTypes_ne_nil profile hne)
  | cons e rest =>
    obtain ⟨key, risk⟩ := e
    exact ⟨key, risk, rest, rfl, by rw [highestRisk_eq_head_sortedTypes, hs]; rfl⟩

theorem floodRiskItems_head (entry : ProfileEntry) (rest : List ProfileEntry)
    (items : List FloodRiskItem) (h : floodRiskItems (entry :: rest) = .ok items) :
    ∃ item tail, items = item :: tail ∧ item.typeName = profileTypeName entry.1 := by
  unfold floodRiskItems at h
  cases hi : floodRiskItem entry with
  | error e => simp only [hi] at h; cases h
  | ok item =>
    simp only [hi] at h
    cases hr : floodRiskItems rest with
    | error e => simp only [hr] at h; cases h
    | ok tail =>
      simp only [hr] at h
      cases h
      refine ⟨item, tail, rfl, ?_⟩
      unfold floodRiskItem at hi
      split at hi
      · cases hi; rfl
      · cases hi

/-- What the four views show for the primary mechanism of a snapshot whose profile is not
empty: each label is the table of the view applied to one key, that of the first entry of the
ranking. -/
theorem primary_labels (data : PredictionData) (profile : FloodRiskProfile)
    (hprofile : data.flood_risk_profile = some profile) (hne : profile ≠ []) :
    ∃ key risk,
      highestRisk profile = some (key, risk) ∧
      (sortedTypes profile).head? = some (key, risk) ∧
      (∀ pct, risk.risk_percentage = some pct →
        riskProfileHtml data = .ok (some (listTypeName key, pct))) ∧
      popupPrimaryRisk data = some (replaceUnderscore key) ∧
      ((profile.find? fun e => e.1 == "primary_risk_type") = none →
        primaryRiskInfo data = some (clickTypeName key)) ∧
      (∀ (locationName : String) (s : Page), s.floodRiskProfile.isSome = true →
        (updateFloodRiskProfile locationName data s).thrown = none →
        ∃ item tail, (updateFloodRiskProfile locationName data s).page.floodRiskProfile =
            some (.analysis locationName (jsMul data.risk_probability 100) data.status
              (item :: tail)) ∧
          item.typeName = profileTypeName key) := by
  obtain ⟨key, risk, rest, hs, hh⟩ := primary_entry profile hne
  have hsort : arraySort byRiskPercentage profile = (key, risk) :: rest := hs
  refine ⟨key, risk, hh, by rw [hs]; rfl, ?_, ?_, ?_, ?_⟩
  · intro pct hpct
    unfold riskProfileHtml
    simp only [hprofile, hh, hpct]
  · unfold popupPrimaryRisk
    simp only [hprofile, hsort]
    rfl
  · intro hno
    unfold primaryRiskInfo
    simp only [hprofile, hno, hsort]
    rfl
  · intro locationName s hpanel hthrown
    obtain ⟨panel, hp⟩ := Option.isSome_iff_exists.mp hpanel
    unfold updateFloodRiskProfile at hthrown ⊢
    simp only [hp, hprofile] at hthrown ⊢
    cases hitems : floodRiskItems (sortedTypes profile) with
    | error e => simp only [hitems] at hthrown; cases hthrown
    | ok items =>
      obtain ⟨item, tail, hcons, hname⟩ :=
        floodRiskItems_head (key, risk) rest items (by rw [← hs]; exact hitems)
      simp only [hcons]
      exact ⟨item, tail, rfl, hname⟩

/-- C19: for a snapshot whose flood risk profile is not empty the three views name one
mechanism.  The `Primary:` line of the list row, the `Primary Risk` line of the marker popup and
the first item of the panel built by `updateFloodRiskProfile` are each made from the key of the
first entry of the ranking of the profile. -/
theorem C19_views_agree_on_primary_key (data : PredictionData) (profile : FloodRiskProfile)
    (hprofile : data.flood_risk_profile = some profile) (hne : profile ≠ []) :
    ∃ key risk,
      highestRisk profile = some (key, risk) ∧
      (sortedTypes profile).head? = some (key, risk) ∧
      (∀ pct, risk.risk_percentage = some pct →
        riskProfileHtml data = .ok (some (listTypeName key, pct))) ∧
      popupPrimaryRisk data = some (replaceUnderscore key) ∧
      (∀ (locationName : String) (s : Page), s.floodRiskProfile.isSome = true →
        (updateFloodRiskProfile locationName data s).thrown = none →
        ∃ item tail, (updateFloodRiskProfile locationName data s).page.floodRiskProfile =
            some (.analysis locationName (jsMul data.risk_probability 100) data.status
              (item :: tail)) ∧
          item.typeName = profileTypeName key) := by
  obtain ⟨key, risk, h1, h2, h3, h4, _, h6⟩ := primary_labels data profile hprofile hne
  exact ⟨key, risk, h1, h2, h3, h4, h6⟩

/-- Witness of C19 on the snapshot of the Dhaka scenario, whose profile is
{riverine: 70, flash: 85}. -/
theorem C19_views_agree_on_primary_key_witness :
    ∃ key risk,
      highestRisk [("riverine", mechanismRisk 70), ("flash", mechanismRisk 85)] =
        some (key, risk) ∧
      (sortedTypes [("riverine", mechanismRisk 70), ("flash", mechanismRisk 85)]).head? =
        some (key, risk) ∧
      (∀ pct, risk.risk_percentage = some pct →
        riskProfileHtml (snapshot "Dhaka" (82 / 100)) = .ok (some (listTypeName key, pct))) ∧
      popupPrimaryRisk (snapshot "Dhaka" (82 / 100)) = some (replaceUnderscore key) ∧
      (∀ (locationName : String) (s : Page), s.floodRiskProfile.isSome = true →
        (updateFloodRiskProfile locationName (snapshot "Dhaka" (82 / 100)) s).thrown = none →
        ∃ item tail,
          (updateFloodRiskProfile locationName (snapshot "Dhaka" (82 / 100))
              s).page.floodRiskProfile =
            some (.analysis locationName (jsMul (snapshot "Dhaka" (82 / 100)).risk_probability 100)
              (snapshot "Dhaka" (82 / 100)).status (item :: tail)) ∧
          item.typeName = profileTypeName key) :=
  C19_views_agree_on_primary_key (snapshot "Dhaka" (82 / 100))
    [("riverine", mechanismRisk 70), ("flash", mechanismRisk 85)] rfl (by simp)

theorem replaceFirstUnderscore_of_not_mem (cs : List Char) (h : '_' ∉ cs) :
    replaceFirstUnderscore cs = cs := by
  induction cs with
  | nil => rfl
  | cons c rest ih =>
    rw [List.mem_cons, not_or] at h
    unfold replaceFirstUnderscore
    rw [if_neg (fun hc => h.1 hc.symm), ih h.2]

theorem inheritedText_of_not_mem (key : String) (h : key ∉ objectPrototype) :
    inheritedText key = none := by
  unfold inheritedText
  rw [if_neg (fun hk => h (by rw [hk]; decide)), if_neg (fun hk => h (by rw [hk]; decide)),
    if_neg h]

theorem replaceUnderscore_of_not_mem (key : String) (h : '_' ∉ key.data) :
    replaceUnderscore key = key := by
  unfold replaceUnderscore
  rw [replaceFirstUnderscore_of_not_mem _ h]

/-- C20, as amended: for a snapshot whose flood risk profile is not empty every view makes its
primary-risk label from one mechanism key, each through a table of its own: the list row through
`typeNames` of `updateLocationsList`, the marker popup by replacing the first underscore of the
key, the click popup (when the profile has no entry `primary_risk_type`) through `typeNames` of
the click handler, the panel through `typeNames` of `updateFloodRiskProfile`.  The four labels
are the key itself, hence the same text, for a key that is in none of the tables, is not the
name of a member the tables inherit from `Object.prototype` and has no underscore.  For the
name of an inherited member the three tables print the text of that member, which is not what
the marker popup prints. -/
theorem C20_labels_per_view (data : PredictionData) (profile : FloodRiskProfile)
    (hprofile : data.flood_risk_profile = some profile) (hne : profile ≠ []) :
    (∃ key risk,
      highestRisk profile = some (key, risk) ∧
      (∀ pct, risk.risk_percentage = some pct →
        riskProfileHtml data = .ok (some (listTypeName key, pct))) ∧
      popupPrimaryRisk data = some (replaceUnderscore key) ∧
      ((profile.find? fun e => e.1 == "primary_risk_type") = none →
        primaryRiskInfo data = some (clickTypeName key)) ∧
      (∀ (locationName : String) (s : Page), s.floodRiskProfile.isSome = true →
        (updateFloodRiskProfile locationName data s).thrown = none →
        ((updateFloodRiskProfile locationName data s).page.floodRiskProfile.bind
          ProfilePanel.firstTypeName) = some (profileTypeName key)) ∧
      (key ≠ "riverine" → key ≠ "urban_drainage" → key ≠ "flash" → key ≠ "tidal" →
        key ∉ objectPrototype → '_' ∉ key.data →
        listTypeName key = key ∧ replaceUnderscore key = key ∧ clickTypeName key = key ∧
          profileTypeName key = key)) ∧
    (∀ key ∈ objectPrototype,
      listTypeName key ≠ replaceUnderscore key ∧ clickTypeName key ≠ replaceUnderscore key ∧
        profileTypeName key ≠ replaceUnderscore key) := by
  obtain ⟨key, risk, h1, _, h3, h4, h5, h6⟩ := primary_labels data profile hprofile hne
  refine ⟨⟨key, risk, h1, h3, h4, h5, ?_, ?_⟩, by decide⟩
  · intro locationName s hs hthrown
    obtain ⟨item, tail, hpanel, hname⟩ := h6 locationName s hs hthrown
    rw [hpanel]
    show some item.typeName = _
    rw [hname]
  · intro hr hu hf ht hproto hunder
    have hrep := replaceUnderscore_of_not_mem key hunder
    have hinh := inheritedText_of_not_mem key hproto
    refine ⟨?_, hrep, ?_, ?_⟩
    · unfold listTypeName; simp only [hr, hu, hf, ht, if_false, hinh, Option.getD_none]
    · unfold clickTypeName; simp only [hr, hu, hf, ht, if_false, hinh, Option.getD_none]
    · unfold profileTypeName
      simp only [hr, hu, hf, ht, if_false, hrep, hinh, Option.getD_none]

/-- Witness of C20 as amended, on the snapshot of the Dhaka scenario. -/
theorem C20_labels_per_view_witness :
    ∃ key risk,
      highestRisk [("riverine", mechanismRisk 70), ("flash", mechanismRisk 85)] =
        some (key, risk) ∧
      (∀ pct, risk.risk_percentage = some pct →
        riskProfileHtml (snapshot "Dhaka" (82 / 100)) = .ok (some (listTypeName key, pct))) ∧
      popupPrimaryRisk (snapshot "Dhaka" (82 / 100)) = some (replaceUnderscore key) ∧
      (([("riverine", mechanismRisk 70), ("flash", mechanismRisk 85)].find?
          fun e => e.1 == "primary_risk_type") = none →
        primaryRiskInfo (snapshot "Dhaka" (82 / 100)) = some (clickTypeName key)) ∧
      (∀ (locationName : String) (s : Page), s.floodRiskProfile.isSome = true →
        (updateFloodRiskProfile locationName (snapshot "Dhaka" (82 / 100)) s).thrown = none →
        ((updateFloodRiskProfile locationName (snapshot "Dhaka" (82 / 100))
            s).page.floodRiskProfile.bind ProfilePanel.firstTypeName) =
          some (profileTypeName key)) ∧
      (key ≠ "riverine" → key ≠ "urban_drainage" → key ≠ "flash" → key ≠ "tidal" →
        key ∉ objectPrototype → '_' ∉ key.data →
        listTypeName key = key ∧ replaceUnderscore key = key ∧ clickTypeName key = key ∧
          profileTypeName key = key) :=
  (C20_labels_per_view (snapshot "Dhaka" (82 / 100))
    [("riverine", mechanismRisk 70), ("flash", mechanismRisk 85)] rfl (by simp)).1

/-- Counterexample to C20 as stated: for the snapshot of the Dhaka scenario, whose primary
mechanism is `flash`, the list row and the click popup read `Flash Flood`, the marker popup
reads `flash` and the heading of the first item of the panel reads `Flash Flooding`; and for
each of the four known mechanisms the label of the list row differs from that of the marker
popup and from that of the panel. -/
theorem C20_counterexample :
    riskProfileHtml (snapshot "Dhaka" (82 / 100)) = .ok (some ("Flash Flood", 85)) ∧
    popupPrimaryRisk (snapshot "Dhaka" (82 / 100)) = some "flash" ∧
    primaryRiskInfo (snapshot "Dhaka" (82 / 100)) = some "Flash Flood" ∧
    ((updateFloodRiskProfile "Dhaka" (snapshot "Dhaka" (82 / 100))
        Page.initial).page.floodRiskProfile.bind ProfilePanel.firstTypeName) =
      some "Flash Flooding" ∧
    (∀ key ∈ ["riverine", "urban_drainage", "flash", "tidal"],
      listTypeName key ≠ replaceUnderscore key ∧ listTypeName key ≠ profileTypeName key ∧
        clickTypeName key ≠ profileTypeName key) := by
  refine ⟨?_, ?_, ?_, ?_, by decide⟩
  · norm_num [riskProfileHtml, highestRisk, arraySort, sortInsert, byRiskPercentage, jsSub,
      comparePositive, mechanismRisk, snapshot]
    simp +decide [listTypeName]
  · norm_num [popupPrimaryRisk, arraySort, sortInsert, byRiskPercentage, jsSub,
      comparePositive, mechanismRisk, snapshot]
    decide
  · norm_num [primaryRiskInfo, arraySort, sortInsert, byRiskPercentage, jsSub,
      comparePositive, mechanismRisk, snapshot]
    simp +decide [clickTypeName]
  · norm_num [updateFloodRiskProfile, Page.initial, sortedTypes, floodRiskItems, floodRiskItem,
      arraySort, sortInsert, byRiskPercentage, jsSub, comparePositive, mechanismRisk, snapshot,
      ProfilePanel.firstTypeName]
    simp +decide [profileTypeName]

/-! ### The classifier outside the unit interval -/

/-- C21: the list-row classifier of app.js returns a band for every number `p`, in or out of
`[0, 1]`, by the one chain of thresholds 0.75, 0.6, 0.4, 0.2 (its result type has no error); it
is `risk-minimal` for every `p < 0` and `risk-critical` for every `p > 1`. -/
theorem C21_riskClass_total (p : ℚ) :
    (riskClass (some p) =
        if 75 / 100 ≤ p then .critical else if 6 / 10 ≤ p then .high
        else if 4 / 10 ≤ p then .medium else if 2 / 10 ≤ p then .low else .minimal) ∧
      (p < 0 → riskClass (some p) = .minimal) ∧ (1 < p → riskClass (some p) = .critical) := by
  rw [riskClass_some]
  refine ⟨?_, ?_, ?_⟩
  · norm_num
  · intro h
    rw [if_neg (by linarith), if_neg (by linarith), if_neg (by linarith), if_neg (by linarith)]
  · intro h
    rw [if_pos (by linarith)]

/-! ### The empty list of locations -/

/-- C27: for the empty array, `updateLocationsList` of either build, on a page that has the list
container, returns without an error, issues no request, and leaves the container with the
loading placeholder as its only child, so with no location row. -/
theorem C27_empty_list (net : Network) (s : Page) (h : s.locationsList.isSome = true) :
    ((updateLocationsList net (.array []) s).thrown = none ∧
        issuedSince s (updateLocationsList net (.array []) s).page = [] ∧
        (updateLocationsList net (.array []) s).page.locationsList = some [.loading] ∧
        ((updateLocationsList net (.array []) s).page.rows.filter
          fun c => !c.isLoading) = []) ∧
      ((Debug.updateLocationsList net (.array []) s).thrown = none ∧
        issuedSince s (Debug.updateLocationsList net (.array []) s).page = [] ∧
        (Debug.updateLocationsList net (.array []) s).page.locationsList = some [.loading] ∧
        ((Debug.updateLocationsList net (.array []) s).page.rows.filter
          fun c => !c.isLoading) = []) := by
  obtain ⟨a1, a2, a3⟩ := updateLocationsList_array net [] s h
    (fun i l hl => by simp at hl) (fun l hl => by cases hl)
  obtain ⟨b1, b2, b3⟩ := debug_updateLocationsList_array net [] s h
    (fun i l hl => by simp at hl)
  rw [if_pos rfl] at a2 b2
  refine ⟨⟨a1, issuedSince_of_append _ _ _ (by rw [a3]; rfl), a2, ?_⟩,
    ⟨b1, issuedSince_of_append _ _ _ (by rw [b3]; rfl), b2, ?_⟩⟩
  · simp only [Page.rows, a2]; rfl
  · simp only [Page.rows, b2]; rfl

/-- C27 on the page the document delivers. -/
theorem C27_empty_list_witness :
    Page.initial.locationsList.isSome = true ∧
      (updateLocationsList offline (.array []) Page.initial).page.locationsList =
        some [.loading] :=
  ⟨rfl, (C27_empty_list offline Page.initial rfl).1.2.2.1⟩

/-! ### The colour of the click popup against the band of the list -/

theorem riskColor_some (p : ℚ) :
    riskColor (some p) =
      if 3 / 5 < p then "#e74c3c" else if 2 / 5 < p then "#f39c12" else "#27ae60" := by
  simp only [riskColor, jsGt, decide_eq_true_eq]
  norm_num

/-- C24: at the probability 0.6 the click popup is orange where the list classifies `risk-high`,
and at 0.4 it is green where the list classifies `risk-medium`; at every other probability the
popup is red exactly for `risk-high` and `risk-critical`, orange exactly for `risk-medium`, and
green exactly for `risk-low` and `risk-minimal`. -/
theorem C24_tiers_differ_at_thresholds :
    (riskColor (some (6 / 10)) = "#f39c12" ∧ riskClass (some (6 / 10)) = .high) ∧
      (riskColor (some (4 / 10)) = "#27ae60" ∧ riskClass (some (4 / 10)) = .medium) ∧
      ∀ p : ℚ, p ≠ 6 / 10 → p ≠ 4 / 10 →
        (riskColor (some p) = "#e74c3c" ↔
            riskClass (some p) = .high ∨ riskClass (some p) = .critical) ∧
          (riskColor (some p) = "#f39c12" ↔ riskClass (some p) = .medium) ∧
          (riskColor (some p) = "#27ae60" ↔
            riskClass (some p) = .low ∨ riskClass (some p) = .minimal) := by
  refine ⟨⟨?_, ?_⟩, ⟨?_, ?_⟩, ?_⟩
  · rw [riskColor_some]; norm_num
  · rw [riskClass_some]; norm_num
  · rw [riskColor_some]; norm_num
  · rw [riskClass_some]; norm_num
  · intro p h6 h4
    have h6' : p ≠ 3 / 5 := fun h => h6 (by rw [h]; norm_num)
    have h4' : p ≠ 2 / 5 := fun h => h4 (by rw [h]; norm_num)
    rw [riskColor_some, riskClass_some]
    by_cases a : 3 / 5 < p
    · have b : 3 / 5 ≤ p := le_of_lt a
      by_cases c : 3 / 4 ≤ p
      · rw [if_pos a, if_pos c]; decide
      · rw [if_pos a, if_neg c, if_pos b]; decide
    · have b : ¬ 3 / 5 ≤ p := fun h => a (lt_of_le_of_ne h (Ne.symm h6'))
      have c : ¬ 3 / 4 ≤ p := fun h => b (by linarith)
      by_cases d : 2 / 5 < p
      · have e : 2 / 5 ≤ p := le_of_lt d
        rw [if_neg a, if_pos d, if_neg c, if_neg b, if_pos e]; decide
      · have e : ¬ 2 / 5 ≤ p := fun h => d (lt_of_le_of_ne h (Ne.symm h4'))
        by_cases f : 1 / 5 ≤ p
        · rw [if_neg a, if_neg d, if_neg c, if_neg b, if_neg e, if_pos f]; decide
        · rw [if_neg a, if_neg d, if_neg c, if_neg b, if_neg e, if_neg f]; decide

/-! ### The requests of a cycle are awaited -/

theorem awaited_append (a b : List Request) : awaited (a ++ b) = awaited a ++ awaited b := by
  induction a with
  | nil => rfl
  | cons r rest ih => simp [awaited, ih]

theorem awaits_refl (s : Page) : s.Awaits s := ⟨[], by simp, by simp [awaited]⟩

theorem awaits_trans {s t u : Page} (h : s.Awaits t) (k : t.Awaits u) : s.Awaits u := by
  obtain ⟨a, ha, ha'⟩ := h
  obtain ⟨b, hb, hb'⟩ := k
  exact ⟨a ++ b, by rw [hb, ha, List.append_assoc],
    by rw [hb', ha', awaited_append, List.append_assoc]⟩

theorem awaits_of_frame {s t : Page} (hr : t.requests = s.requests) (he : t.events = s.events) :
    s.Awaits t := ⟨[], by simp [hr], by simp [he, awaited]⟩

theorem awaits_fetch (s : Page) (request : Request) : s.Awaits (s.fetch request) :=
  ⟨[request], rfl, rfl⟩

/-- What a run that awaits its requests has recorded: each request it has issued has settled
before the next is issued. -/
theorem eventsSince_of_awaits {s t : Page} (h : s.Awaits t) :
    eventsSince s t = awaited (issuedSince s t) := by
  obtain ⟨l, hl, hl'⟩ := h
  rw [issuedSince_of_append s t l hl]
  unfold eventsSince
  rw [hl', List.drop_left]

theorem andThen_awaits {s : Page} (o : Outcome) (next : Page → Outcome) (h : s.Awaits o.page)
    (k : ∀ t : Page, t.Awaits (next t).page) : s.Awaits (o.andThen next).page := by
  cases ho : o.thrown with
  | none => rw [andThen_of_none _ _ ho]; exact awaits_trans h (k _)
  | some e => rw [andThen_of_some _ _ e ho]; exact h

theorem updateSystemStatus_awaits (data : Option SystemStatus) (s : Page) :
    s.Awaits (updateSystemStatus data s).page := by
  unfold updateSystemStatus
  split
  · split <;> exact awaits_refl _
  · exact awaits_of_frame rfl rfl

theorem loadStatus_awaits (net : Network) (s : Page) : s.Awaits (loadStatus net s).page := by
  unfold loadStatus
  split
  · exact awaits_fetch _ _
  · split
    · split
      · exact awaits_fetch _ _
      · exact awaits_trans (awaits_fetch _ _) (updateSystemStatus_awaits _ _)
      · exact awaits_trans (awaits_fetch _ _) (updateSystemStatus_awaits _ _)
    · exact awaits_fetch _ _

theorem foldl_addLocationMarker_awaits (locations : List Location) (s : Page) :
    s.Awaits (locations.foldl addLocationMarker s) := by
  induction locations generalizing s with
  | nil => exact awaits_refl _
  | cons l rest ih =>
    rw [List.foldl_cons]
    exact awaits_trans (awaits_of_frame rfl rfl) (ih _)

theorem updateLocationsMap_awaits (locations : LocationsBody) (s : Page) :
    s.Awaits (updateLocationsMap locations s).page := by
  cases hmap : s.map with
  | none =>
    unfold updateLocationsMap
    simp only [hmap]
    split
    · split <;> exact awaits_of_frame rfl rfl
    · exact awaits_refl _
  | some layers =>
    cases locations with
    | nonArray =>
      unfold updateLocationsMap
      rw [hmap]
      exact awaits_of_frame rfl rfl
    | array locations =>
      unfold updateLocationsMap
      simp only [hmap]
      exact awaits_trans (awaits_of_frame rfl rfl) (foldl_addLocationMarker_awaits _ _)

theorem updateMarker_awaits (location : Location) (data : PredictionData) (s t : Page)
    (h : updateMarker location data s = .ok t) : s.Awaits t := by
  unfold updateMarker at h
  split at h
  · cases h; exact awaits_refl _
  · cases h
  · cases h; exact awaits_of_frame rfl rfl

theorem locationStep_awaits (net : Network) (s : Page) (location : Location) :
    s.Awaits (locationStep net s location) := by
  unfold locationStep
  split
  · exact awaits_trans (awaits_fetch _ _) (awaits_of_frame rfl rfl)
  · split
    · exact awaits_trans (awaits_fetch _ _) (awaits_of_frame rfl rfl)
    · next element _ =>
      have h1 : s.Awaits (s.fetch ⟨API_BASE_URL, .predict location.name⟩) := awaits_fetch _ _
      have h2 : (s.fetch ⟨API_BASE_URL, .predict location.name⟩).Awaits
          (appendChild element (s.fetch ⟨API_BASE_URL, .predict location.name⟩)) :=
        awaits_of_frame rfl rfl
      dsimp only
      split
      · next updated h =>
        exact awaits_trans h1 (awaits_trans h2 (updateMarker_awaits _ _ _ _ h))
      · exact awaits_trans h1 (awaits_trans h2 (awaits_of_frame rfl rfl))

theorem foldl_locationStep_awaits (net : Network) (locations : List Location) (s : Page) :
    s.Awaits (locations.foldl (locationStep net) s) := by
  induction locations generalizing s with
  | nil => exact awaits_refl _
  | cons l rest ih =>
    rw [List.foldl_cons]
    exact awaits_trans (locationStep_awaits net s l) (ih _)

theorem updateLocationsList_awaits (net : Network) (locations : LocationsBody) (s : Page) :
    s.Awaits (updateLocationsList net locations s).page := by
  unfold updateLocationsList
  split
  · exact awaits_refl _
  · split
    · exact awaits_of_frame rfl rfl
    · exact awaits_trans (awaits_of_frame rfl rfl) (foldl_locationStep_awaits _ _ _)

theorem loadLocations_awaits (net : Network) (s : Page) :
    s.Awaits (loadLocations net s).page := by
  unfold loadLocations
  split
  · exact awaits_fetch _ _
  · split
    · split
      · exact awaits_fetch _ _
      · exact andThen_awaits _ _
          (awaits_trans (awaits_fetch _ _) (updateLocationsMap_awaits _ _))
          (fun t => updateLocationsList_awaits _ _ t)
      · exact andThen_awaits _ _
          (awaits_trans (awaits_fetch _ _) (updateLocationsMap_awaits _ _))
          (fun t => updateLocationsList_awaits _ _ t)
    · exact awaits_fetch _ _

theorem updateAlertsList_awaits (alerts : Option (List Alert)) (s : Page) :
    s.Awaits (updateAlertsList alerts s).1.page := by
  unfold updateAlertsList
  split
  · exact awaits_refl _
  · split
    · exact awaits_refl _
    · exact awaits_of_frame rfl rfl
    · exact awaits_of_frame rfl rfl

theorem loadAlerts_awaits (net : Network) (s : Page) : s.Awaits (loadAlerts net s) := by
  unfold loadAlerts
  split
  · exact awaits_fetch _ _
  · split
    · split
      · exact awaits_fetch _ _
      · exact awaits_fetch _ _
      · exact awaits_trans (awaits_fetch _ _) (updateAlertsList_awaits _ _)
    · exact awaits_fetch _ _

theorem updateFloodRiskProfile_awaits (locationName : String) (data : PredictionData)
    (s : Page) : s.Awaits (updateFloodRiskProfile locationName data s).page := by
  unfold updateFloodRiskProfile
  split
  · exact awaits_refl _
  · split
    · exact awaits_of_frame rfl rfl
    · split
      · exact awaits_refl _
      · exact awaits_of_frame rfl rfl

theorem loadProfile_awaits (net : Network) (firstLocation : String) (s : Page) :
    s.Awaits (loadProfile net firstLocation s) := by
  unfold loadProfile
  split
  · exact awaits_fetch _ _
  · split
    · split
      · exact awaits_fetch _ _
      · exact awaits_fetch _ _
      · exact awaits_trans (awaits_fetch _ _) (updateFloodRiskProfile_awaits _ _ _)
    · exact awaits_fetch _ _

theorem loadInitialProfile_awaits (net : Network) (s : Page) :
    s.Awaits (loadInitialProfile net s).page := by
  unfold loadInitialProfile
  split
  · exact awaits_fetch _ _
  · exact awaits_fetch _ _
  · exact awaits_trans (awaits_fetch _ _) (loadProfile_awaits _ _ _)
  · exact awaits_fetch _ _

theorem loadDashboardSteps_awaits (net : Network) (s : Page) :
    s.Awaits (loadDashboardSteps net s).page := by
  unfold loadDashboardSteps
  refine andThen_awaits _ _ (loadStatus_awaits net s) fun t => ?_
  refine andThen_awaits _ _ (loadLocations_awaits net t) fun u => ?_
  refine andThen_awaits _ _
    (awaits_trans (loadAlerts_awaits net u) (loadInitialProfile_awaits net _)) fun v => ?_
  exact awaits_of_frame rfl rfl

/-- A cycle of app.js awaits each of its requests. -/
theorem loadDashboardData_awaits (net : Network) (s : Page) :
    s.Awaits (loadDashboardData net s) := by
  have h := loadDashboardSteps_awaits net s
  unfold loadDashboardData
  cases ho : (loadDashboardSteps net s).thrown with
  | none => simp only [ho]; exact h
  | some e =>
    simp only [ho]
    exact awaits_trans h (awaits_of_frame rfl rfl)

/-! ### The order of the requests of a cycle -/

theorem updateLocationsMap_frame (locations : LocationsBody) (s : Page) :
    (updateLocationsMap locations s).page.requests = s.requests ∧
      (updateLocationsMap locations s).page.locationsList = s.locationsList := by
  cases hmap : s.map with
  | none =>
    unfold updateLocationsMap
    simp only [hmap]
    split
    · split <;> exact ⟨rfl, rfl⟩
    · exact ⟨rfl, rfl⟩
  | some layers =>
    cases locations with
    | nonArray =>
      unfold updateLocationsMap
      rw [hmap]
      exact ⟨rfl, rfl⟩
    | array locations =>
      obtain ⟨h1, h2, _⟩ := foldl_addLocationMarker locations
        { s with
          map := some (layers.filter fun m => !(s.markers.any fun e => e.2.id == m.id))
          markers := []
          markersProto := none }
      unfold updateLocationsMap
      simp only [hmap]
      exact ⟨h1, h2⟩

theorem updateLocationsMap_nonArray (s : Page) :
    ∃ e, (updateLocationsMap .nonArray s).thrown = some e := by
  unfold updateLocationsMap
  split
  · split <;> exact ⟨_, rfl⟩
  · exact ⟨_, rfl⟩

theorem updateSystemStatus_locationsList (data : Option SystemStatus) (s : Page) :
    (updateSystemStatus data s).page.locationsList = s.locationsList := by
  unfold updateSystemStatus
  split
  · split <;> rfl
  · rfl

theorem loadStatus_locationsList (net : Network) (s : Page) :
    (loadStatus net s).page.locationsList = s.locationsList := by
  unfold loadStatus
  split
  · rfl
  · split
    · split
      · rfl
      · rw [updateSystemStatus_locationsList]; rfl
      · rw [updateSystemStatus_locationsList]; rfl
    · rfl

/-- The locations block either throws after its one request, or it was served an array and has
requested the prediction of every location of the array, in the order of the array. -/
theorem loadLocations_trace (net : Network) (s : Page) :
    ((∃ e, (loadLocations net s).thrown = some e) ∧
        (loadLocations net s).page.requests = s.requests ++ [⟨BASE_URL, .locations⟩]) ∨
      ((loadLocations net s).thrown = none ∧
        ∃ status locations,
          net.locations s.requests.length = .response status (.value (.array locations)) ∧
          (loadLocations net s).page.requests =
            s.requests ++ ⟨BASE_URL, .locations⟩ ::
              (if s.locationsList.isSome then
                locations.map fun l => (⟨API_BASE_URL, .predict l.name⟩ : Request)
              else [])) := by
  have hthrows : ∀ e, (updateLocationsMap .nonArray (s.fetch ⟨BASE_URL, .locations⟩)).thrown
      = some e →
      (∃ e, ((updateLocationsMap .nonArray (s.fetch ⟨BASE_URL, .locations⟩)).andThen
          (updateLocationsList net .nonArray)).thrown = some e) ∧
        ((updateLocationsMap .nonArray (s.fetch ⟨BASE_URL, .locations⟩)).andThen
          (updateLocationsList net .nonArray)).page.requests =
            s.requests ++ [⟨BASE_URL, .locations⟩] := by
    intro e he
    rw [andThen_of_some _ _ e he]
    exact ⟨⟨e, he⟩, (updateLocationsMap_frame _ _).1⟩
  cases hnet : net.locations s.requests.length with
  | rejected =>
    left
    unfold loadLocations
    rw [hnet]
    exact ⟨⟨_, rfl⟩, rfl⟩
  | response status body =>
    by_cases hok : responseOk status = true
    · cases body with
      | invalid =>
        left
        unfold loadLocations
        rw [hnet]
        simp only [hok, if_true]
        exact ⟨⟨_, rfl⟩, rfl⟩
      | null =>
        left
        obtain ⟨e, he⟩ := updateLocationsMap_nonArray (s.fetch ⟨BASE_URL, .locations⟩)
        unfold loadLocations
        rw [hnet]
        simp only [hok, if_true]
        exact hthrows e he
      | value locationsData =>
        cases locationsData with
        | nonArray =>
          left
          obtain ⟨e, he⟩ := updateLocationsMap_nonArray (s.fetch ⟨BASE_URL, .locations⟩)
          unfold loadLocations
          rw [hnet]
          simp only [hok, if_true]
          exact hthrows e he
        | array locations =>
          have hload : loadLocations net s =
              (updateLocationsMap (.array locations) (s.fetch ⟨BASE_URL, .locations⟩)).andThen
                (updateLocationsList net (.array locations)) := by
            unfold loadLocations
            rw [hnet]
            simp only [hok, if_true]
          obtain ⟨m1, m2⟩ :=
            updateLocationsMap_frame (.array locations) (s.fetch ⟨BASE_URL, .locations⟩)
          cases hmap : (updateLocationsMap (.array locations)
              (s.fetch ⟨BASE_URL, .locations⟩)).thrown with
          | some e =>
            left
            rw [hload, andThen_of_some _ _ e hmap]
            exact ⟨⟨e, hmap⟩, m1⟩
          | none =>
            right
            obtain ⟨l1, l2⟩ := updateLocationsList_array_requests net locations
              (updateLocationsMap (.array locations) (s.fetch ⟨BASE_URL, .locations⟩)).page
            rw [hload, andThen_of_none _ _ hmap]
            refine ⟨l1, status, locations, rfl, ?_⟩
            rw [l2, m1, m2]
            simp [Page.fetch]
    · left
      unfold loadLocations
      rw [hnet]
      simp only [hok]
      exact ⟨⟨_, rfl⟩, rfl⟩

/-- The initial-profile step requests the locations again and then at most one prediction, from
the base URL of the feeds. -/
theorem loadInitialProfile_trace (net : Network) (s : Page) :
    ∃ profile : List Request,
      (profile = [] ∨ ∃ name, profile = [⟨BASE_URL, .predict name⟩]) ∧
      (loadInitialProfile net s).page.requests =
        s.requests ++ ⟨BASE_URL, .locations⟩ :: profile := by
  unfold loadInitialProfile
  split
  · exact ⟨[], Or.inl rfl, rfl⟩
  · exact ⟨[], Or.inl rfl, rfl⟩
  · next first _ _ =>
    refine ⟨[⟨BASE_URL, .predict first.name⟩], Or.inr ⟨_, rfl⟩, ?_⟩
    show (loadProfile net first.name (s.fetch ⟨BASE_URL, .locations⟩)).requests = _
    rw [loadProfile_requests]
    simp [Page.fetch]
  · exact ⟨[], Or.inl rfl, rfl⟩

theorem loadDashboardData_requests (net : Network) (s : Page) :
    (loadDashboardData net s).requests = (loadDashboardSteps net s).page.requests := by
  cases h : (loadDashboardSteps net s).thrown with
  | none =>
    unfold loadDashboardData
    simp only [h]
  | some e => exact (loadDashboardData_thrown net s e h).1

/-- The shape of the trace of a cycle of app.js: the status alone, or the status and the
locations, or these two, the predictions of the list, the alerts, the locations again and at
most one prediction for the profile. -/
theorem loadDashboardData_trace (net : Network) (s : Page) :
    issuedSince s (loadDashboardData net s) = [⟨BASE_URL, .status⟩] ∨
      issuedSince s (loadDashboardData net s) =
        [⟨BASE_URL, .status⟩, ⟨BASE_URL, .locations⟩] ∨
      ∃ status locations profile,
        net.locations (s.requests.length + 1) = .response status (.value (.array locations)) ∧
        (profile = [] ∨ ∃ name, profile = [⟨BASE_URL, .predict name⟩]) ∧
        issuedSince s (loadDashboardData net s) =
          ⟨BASE_URL, .status⟩ :: ⟨BASE_URL, .locations⟩ ::
            ((if s.locationsList.isSome then
                locations.map fun l => (⟨API_BASE_URL, .predict l.name⟩ : Request)
              else []) ++ ⟨BASE_URL, .alerts⟩ :: ⟨BASE_URL, .locations⟩ :: profile) := by
  cases hstatus : (loadStatus net s).thrown with
  | some e => exact Or.inl (loadDashboardData_status_thrown net s e hstatus).1
  | none =>
    right
    have hreq := loadStatus_requests net s
    have hlen : (loadStatus net s).page.requests.length = s.requests.length + 1 := by
      rw [hreq]; simp
    have hlist := loadStatus_locationsList net s
    rcases loadLocations_trace net (loadStatus net s).page with ⟨⟨e, he⟩, h⟩ | ⟨hnone, h⟩
    · left
      have hsteps : loadDashboardSteps net s = loadLocations net (loadStatus net s).page := by
        unfold loadDashboardSteps
        rw [andThen_of_none _ _ hstatus]
        exact andThen_of_some _ _ e he
      refine issuedSince_of_append _ _ _ ?_
      rw [loadDashboardData_requests, hsteps, h, hreq]
      simp
    · right
      obtain ⟨status, locations, hnet, h⟩ := h
      obtain ⟨profile, hprofile, hp⟩ := loadInitialProfile_trace net
        (loadAlerts net (loadLocations net (loadStatus net s).page).page)
      refine ⟨status, locations, profile, by rw [← hlen]; exact hnet, hprofile, ?_⟩
      have hsteps : (loadDashboardSteps net s).page.requests =
          (loadInitialProfile net
            (loadAlerts net (loadLocations net (loadStatus net s).page).page)).page.requests := by
        unfold loadDashboardSteps
        rw [andThen_of_none _ _ hstatus, andThen_of_none _ _ hnone]
        cases hthrown : (loadInitialProfile net
            (loadAlerts net (loadLocations net (loadStatus net s).page).page)).thrown with
        | none => rw [andThen_of_none _ _ hthrown]
        | some e => rw [andThen_of_some _ _ e hthrown]
      refine issuedSince_of_append _ _ _ ?_
      rw [loadDashboardData_requests, hsteps, hp, loadAlerts_requests, h, hreq, hlist]
      simp

/-- The trace of a cycle of app.js by the step that ends it: the status alone where the status
step throws; the status and the locations where the locations step throws; else these two, the
predictions of the list, the alerts, the locations again and at most one prediction for the
profile. -/
theorem loadDashboardData_trace_steps (net : Network) (s : Page) :
    ((loadStatus net s).thrown.isSome = true ∧
        issuedSince s (loadDashboardData net s) = [⟨BASE_URL, .status⟩]) ∨
      ((loadStatus net s).thrown = none ∧
        (loadLocations net (loadStatus net s).page).thrown.isSome = true ∧
        issuedSince s (loadDashboardData net s) =
          [⟨BASE_URL, .status⟩, ⟨BASE_URL, .locations⟩]) ∨
      ((loadStatus net s).thrown = none ∧
        (loadLocations net (loadStatus net s).page).thrown = none ∧
        ∃ status locations profile,
          net.locations (s.requests.length + 1) =
            .response status (.value (.array locations)) ∧
          (profile = [] ∨ ∃ name, profile = [⟨BASE_URL, .predict name⟩]) ∧
          issuedSince s (loadDashboardData net s) =
            ⟨BASE_URL, .status⟩ :: ⟨BASE_URL, .locations⟩ ::
              ((if s.locationsList.isSome then
                  locations.map fun l => (⟨API_BASE_URL, .predict l.name⟩ : Request)
                else []) ++ ⟨BASE_URL, .alerts⟩ :: ⟨BASE_URL, .locations⟩ :: profile)) := by
  cases hstatus : (loadStatus net s).thrown with
  | some e => exact Or.inl ⟨rfl, (loadDashboardData_status_thrown net s e hstatus).1⟩
  | none =>
    right
    have hreq := loadStatus_requests net s
    have hlen : (loadStatus net s).page.requests.length = s.requests.length + 1 := by
      rw [hreq]; simp
    have hlist := loadStatus_locationsList net s
    rcases loadLocations_trace net (loadStatus net s).page with ⟨⟨e, he⟩, h⟩ | ⟨hnone, h⟩
    · left
      have hsteps : loadDashboardSteps net s = loadLocations net (loadStatus net s).page := by
        unfold loadDashboardSteps
        rw [andThen_of_none _ _ hstatus]
        exact andThen_of_some _ _ e he
      refine ⟨rfl, by rw [he]; rfl, issuedSince_of_append _ _ _ ?_⟩
      rw [loadDashboardData_requests, hsteps, h, hreq]
      simp
    · right
      obtain ⟨status, locations, hnet, h⟩ := h
      obtain ⟨profile, hprofile, hp⟩ := loadInitialProfile_trace net
        (loadAlerts net (loadLocations net (loadStatus net s).page).page)
      refine ⟨rfl, hnone, status, locations, profile, by rw [← hlen]; exact hnet, hprofile, ?_⟩
      have hsteps : (loadDashboardSteps net s).page.requests =
          (loadInitialProfile net
            (loadAlerts net (loadLocations net (loadStatus net s).page).page)).page.requests := by
        unfold loadDashboardSteps
        rw [andThen_of_none _ _ hstatus, andThen_of_none _ _ hnone]
        cases hthrown : (loadInitialProfile net
            (loadAlerts net (loadLocations net (loadStatus net s).page).page)).thrown with
        | none => rw [andThen_of_none _ _ hthrown]
        | some e => rw [andThen_of_some _ _ e hthrown]
      refine issuedSince_of_append _ _ _ ?_
      rw [loadDashboardData_requests, hsteps, hp, loadAlerts_requests, h, hreq, hlist]
      simp

/-- The trace of a cycle of app.js whose status and locations are served, on a page whose map
is set: the status, the locations, the predictions of the list in the order of the array, the
alerts, the locations again and at most one prediction for the profile. -/
theorem loadDashboardData_served_trace (net : Network) (s : Page) (status status' : Nat)
    (data : SystemStatus) (locations : List Location)
    (hstatus : net.status s.requests.length = .response status (.value data))
    (hok : responseOk status = true)
    (hloc : net.locations (s.requests.length + 1) = .response status' (.value (.array locations)))
    (hok' : responseOk status' = true) (hmap : s.map.isSome = true) :
    ∃ profile : List Request,
      (profile = [] ∨ ∃ name, profile = [⟨BASE_URL, .predict name⟩]) ∧
      issuedSince s (loadDashboardData net s) =
        ⟨BASE_URL, .status⟩ :: ⟨BASE_URL, .locations⟩ ::
          ((if s.locationsList.isSome then
              locations.map fun l => (⟨API_BASE_URL, .predict l.name⟩ : Request)
            else []) ++ ⟨BASE_URL, .alerts⟩ :: ⟨BASE_URL, .locations⟩ :: profile) := by
  obtain ⟨s₂, hreq, hsteps⟩ :=
    loadDashboardSteps_served net s status status' data locations hstatus hok hloc hok' hmap
  obtain ⟨profile, hprofile, hp⟩ := loadInitialProfile_trace net s₂
  refine ⟨profile, hprofile, issuedSince_of_append _ _ _ ?_⟩
  have hpage : (loadDashboardSteps net s).page.requests =
      (loadInitialProfile net s₂).page.requests := by
    rw [hsteps]
    cases hthrown : (loadInitialProfile net s₂).thrown with
    | none => rw [andThen_of_none _ _ hthrown]
    | some e => rw [andThen_of_some _ _ e hthrown]
  rw [loadDashboardData_requests, hpage, hp, hreq]
  simp

/-- C22: the requests of a cycle of app.js come in one order, and each has settled before the
next is issued.  The events of every cycle are those of its requests awaited one after the
other.  The requests of a cycle are the status alone, where the status step throws; or the
status and then the locations, where the locations step throws; or, where neither throws, these
two, then one prediction of `updateLocationsList` for each location of the array served, in the
order of the array, then the alerts, then the locations again and at most one prediction for the
profile.  Where the status and the locations are served, on a page whose map is set, the cycle
is of the third kind: the status has settled before the locations are issued, both before the
first prediction, each prediction before the next, and the alerts are issued after the last of
them has settled. -/
theorem C22_request_order (net : Network) (s : Page) :
    eventsSince s (loadDashboardData net s) =
        awaited (issuedSince s (loadDashboardData net s)) ∧
      (((loadStatus net s).thrown.isSome = true ∧
          issuedSince s (loadDashboardData net s) = [⟨BASE_URL, .status⟩]) ∨
        ((loadStatus net s).thrown = none ∧
          (loadLocations net (loadStatus net s).page).thrown.isSome = true ∧
          issuedSince s (loadDashboardData net s) =
            [⟨BASE_URL, .status⟩, ⟨BASE_URL, .locations⟩]) ∨
        ((loadStatus net s).thrown = none ∧
          (loadLocations net (loadStatus net s).page).thrown = none ∧
          ∃ status locations profile,
            net.locations (s.requests.length + 1) =
              .response status (.value (.array locations)) ∧
            (profile = [] ∨ ∃ name, profile = [⟨BASE_URL, .predict name⟩]) ∧
            issuedSince s (loadDashboardData net s) =
              ⟨BASE_URL, .status⟩ :: ⟨BASE_URL, .locations⟩ ::
                ((if s.locationsList.isSome then
                    locations.map fun l => (⟨API_BASE_URL, .predict l.name⟩ : Request)
                  else []) ++ ⟨BASE_URL, .alerts⟩ :: ⟨BASE_URL, .locations⟩ :: profile))) ∧
      (∀ (status status' : Nat) (data : SystemStatus) (locations : List Location),
        net.status s.requests.length = .response status (.value data) →
        responseOk status = true →
        net.locations (s.requests.length + 1) =
          .response status' (.value (.array locations)) →
        responseOk status' = true → s.map.isSome = true →
        ∃ profile : List Request,
          (profile = [] ∨ ∃ name, profile = [⟨BASE_URL, .predict name⟩]) ∧
          eventsSince s (loadDashboardData net s) =
            .issued ⟨BASE_URL, .status⟩ :: .settled ⟨BASE_URL, .status⟩ ::
              .issued ⟨BASE_URL, .locations⟩ :: .settled ⟨BASE_URL, .locations⟩ ::
                (awaited (if s.locationsList.isSome then
                    locations.map fun l => (⟨API_BASE_URL, .predict l.name⟩ : Request)
                  else []) ++
                  .issued ⟨BASE_URL, .alerts⟩ :: .settled ⟨BASE_URL, .alerts⟩ ::
                    .issued ⟨BASE_URL, .locations⟩ :: .settled ⟨BASE_URL, .locations⟩ ::
                      awaited profile)) := by
  have hevents := eventsSince_of_awaits (loadDashboardData_awaits net s)
  refine ⟨hevents, loadDashboardData_trace_steps net s, ?_⟩
  intro status status' data locations hstatus hok hloc hok' hmap
  obtain ⟨profile, hprofile, htrace⟩ :=
    loadDashboardData_served_trace net s status status' data locations hstatus hok hloc hok'
      hmap
  refine ⟨profile, hprofile, ?_⟩
  rw [hevents, htrace]
  simp only [awaited, awaited_append]

/-- The cycle on the network `alertsDown`, which serves the locations Dhaka and Sylhet: its
events up to the alerts. -/
theorem request_order_example :
    ∃ rest, eventsSince (initializeMap Page.initial)
        (loadDashboardData alertsDown (initializeMap Page.initial)) =
      [.issued ⟨BASE_URL, .status⟩, .settled ⟨BASE_URL, .status⟩,
        .issued ⟨BASE_URL, .locations⟩, .settled ⟨BASE_URL, .locations⟩,
        .issued ⟨API_BASE_URL, .predict "Dhaka"⟩, .settled ⟨API_BASE_URL, .predict "Dhaka"⟩,
        .issued ⟨API_BASE_URL, .predict "Sylhet"⟩, .settled ⟨API_BASE_URL, .predict "Sylhet"⟩,
        .issued ⟨BASE_URL, .alerts⟩, .settled ⟨BASE_URL, .alerts⟩] ++ rest := by
  obtain ⟨profile, _, htrace⟩ :=
    loadDashboardData_served_trace alertsDown (initializeMap Page.initial) 200 200 statusBody
      [dhaka, sylhet] rfl rfl rfl rfl rfl
  refine ⟨awaited (⟨BASE_URL, .locations⟩ :: profile), ?_⟩
  rw [eventsSince_of_awaits (loadDashboardData_awaits alertsDown (initializeMap Page.initial)),
    htrace]
  rfl

/-! ### The base URLs of a cycle -/

/-- C25: the base URL of `loadDashboardData` is not the one of `updateLocationsList`, and a
cycle of app.js that is served the status and a non-empty array of locations, on a page with
the map and the list container, requests the status from the first and the prediction of every
location from the second; so does the cycle on the network `alertsDown`. -/
theorem C25_two_base_urls :
    BASE_URL ≠ API_BASE_URL ∧
      (∀ (net : Network) (s : Page) (status status' : Nat) (data : SystemStatus)
          (locations : List Location),
        net.status s.requests.length = .response status (.value data) →
        responseOk status = true →
        net.locations (s.requests.length + 1) = .response status' (.value (.array locations)) →
        responseOk status' = true → s.map.isSome = true → s.locationsList.isSome = true →
        (⟨BASE_URL, .status⟩ : Request) ∈ issuedSince s (loadDashboardData net s) ∧
          ∀ l ∈ locations,
            (⟨API_BASE_URL, .predict l.name⟩ : Request) ∈
              issuedSince s (loadDashboardData net s)) ∧
      (⟨"http://192.168.1.164:10000", .status⟩ : Request) ∈
        issuedSince (initializeMap Page.initial)
          (loadDashboardData alertsDown (initializeMap Page.initial)) ∧
      (⟨"https://ai-flood-prediction-system.onrender.com", .predict "Dhaka"⟩ : Request) ∈
        issuedSince (initializeMap Page.initial)
          (loadDashboardData alertsDown (initializeMap Page.initial)) := by
  have general : ∀ (net : Network) (s : Page) (status status' : Nat) (data : SystemStatus)
      (locations : List Location),
      net.status s.requests.length = .response status (.value data) →
      responseOk status = true →
      net.locations (s.requests.length + 1) = .response status' (.value (.array locations)) →
      responseOk status' = true → s.map.isSome = true → s.locationsList.isSome = true →
      (⟨BASE_URL, .status⟩ : Request) ∈ issuedSince s (loadDashboardData net s) ∧
        ∀ l ∈ locations,
          (⟨API_BASE_URL, .predict l.name⟩ : Request) ∈
            issuedSince s (loadDashboardData net s) := by
    intro net s status status' data locations hstatus hok hloc hok' hmap hlist
    obtain ⟨s₂, hreq, _, l, hl⟩ :=
      loadDashboardData_served net s status status' data locations hstatus hok hloc hok' hmap
    rw [hlist, if_pos rfl] at hreq
    have htrace : issuedSince s (loadDashboardData net s) =
        (⟨BASE_URL, .status⟩ :: ⟨BASE_URL, .locations⟩ ::
          ((locations.map fun l => (⟨API_BASE_URL, .predict l.name⟩ : Request)) ++
            [⟨BASE_URL, .alerts⟩])) ++ l :=
      issuedSince_of_append _ _ _ (by rw [hl, hreq, List.append_assoc])
    rw [htrace]
    refine ⟨List.mem_append_left l (List.mem_cons_self _ _), ?_⟩
    intro x hx
    have : (⟨API_BASE_URL, .predict x.name⟩ : Request) ∈
        locations.map fun l => (⟨API_BASE_URL, .predict l.name⟩ : Request) :=
      List.mem_map_of_mem _ hx
    exact List.mem_append_left l
      (List.mem_cons_of_mem _ (List.mem_cons_of_mem _ (List.mem_append_left _ this)))
  have concrete := general alertsDown (initializeMap Page.initial) 200 200 statusBody
    [dhaka, sylhet] rfl rfl rfl rfl rfl rfl
  exact ⟨by decide, general, concrete.1, concrete.2 dhaka (by simp)⟩

/-! ### The details of a location without a history -/

theorem updateFloodRiskProfile_frame (locationName : String) (data : PredictionData)
    (s : Page) :
    (updateFloodRiskProfile locationName data s).page.riskChart = s.riskChart ∧
      (updateFloodRiskProfile locationName data s).page.views = s.views := by
  unfold updateFloodRiskProfile
  split
  · exact ⟨rfl, rfl⟩
  · split
    · exact ⟨rfl, rfl⟩
    · split <;> exact ⟨rfl, rfl⟩

theorem updateFloodRiskProfile_fetch (locationName : String) (data : PredictionData)
    (s : Page) (request : Request) :
    (updateFloodRiskProfile locationName data (s.fetch request)).page.floodRiskProfile =
      (updateFloodRiskProfile locationName data s).page.floodRiskProfile := by
  unfold updateFloodRiskProfile
  show (match s.floodRiskProfile with
    | none => _
    | some _ => _ : Outcome).page.floodRiskProfile = _
  split
  · rfl
  · split
    · rfl
    · split <;> rfl

/-- The profile block of `showLocationDetails` issues one request and leaves the chart and the
view of the map as they are. -/
theorem detailsProfile_frame (net : Network) (locationName : String) (s : Page) :
    (detailsProfile net locationName s).page.requests =
        s.requests ++ [⟨API_BASE_URL, .predict locationName⟩] ∧
      (detailsProfile net locationName s).page.riskChart = s.riskChart ∧
      (detailsProfile net locationName s).page.views = s.views := by
  unfold detailsProfile
  split
  · exact ⟨rfl, rfl, rfl⟩
  · exact ⟨rfl, rfl, rfl⟩
  · dsimp only
    split <;> exact ⟨rfl, rfl, rfl⟩
  · next profileData _ =>
    obtain ⟨h1, h2⟩ := updateFloodRiskProfile_frame locationName profileData
      (s.fetch ⟨API_BASE_URL, .predict locationName⟩)
    exact ⟨by rw [updateFloodRiskProfile_requests]; rfl, by rw [h1]; rfl, by rw [h2]; rfl⟩

/-- C26: in `showLocationDetails` of app.js, where the profile block ends without an error and
the history response carries no `history` or an empty one, the chart keeps the labels and the
data it had before the call, no `map.setView` is issued, the two requests of the call are the
prediction and the history, and the profile panel is the one the profile block has left: where
the prediction was served with a body, the panel `updateFloodRiskProfile` writes for the
selected location from that body. -/
theorem C26_no_history_frame (net : Network) (locationName : String) (s : Page) (status : Nat)
    (data : HistoryBody)
    (hprofile : (detailsProfile net locationName s).thrown = none)
    (hhistory : net.history (s.requests.length + 1) locationName =
      .response status (.value data))
    (hempty : data.history = none ∨ data.history = some []) :
    (showLocationDetails net locationName s).riskChart = s.riskChart ∧
      (showLocationDetails net locationName s).views = s.views ∧
      issuedSince s (showLocationDetails net locationName s) =
        [⟨API_BASE_URL, .predict locationName⟩, ⟨API_BASE_URL, .history locationName⟩] ∧
      (showLocationDetails net locationName s).floodRiskProfile =
        (detailsProfile net locationName s).page.floodRiskProfile ∧
      ∀ status' profileData,
        net.predict s.requests.length locationName = .response status' (.value profileData) →
        (showLocationDetails net locationName s).floodRiskProfile =
          (updateFloodRiskProfile locationName profileData s).page.floodRiskProfile := by
  obtain ⟨h1, h2, h3⟩ := detailsProfile_frame net locationName s
  have hlen : (detailsProfile net locationName s).page.requests.length =
      s.requests.length + 1 := by
    rw [h1]; simp
  have hshow : showLocationDetails net locationName s =
      (detailsProfile net locationName s).page.fetch ⟨API_BASE_URL, .history locationName⟩ := by
    unfold showLocationDetails
    rw [andThen_of_none _ _ hprofile]
    unfold detailsHistory
    rw [hlen, hhistory]
    rcases hempty with h | h
    · simp only [h]
    · simp only [h]
  rw [hshow]
  refine ⟨h2, h3, issuedSince_of_append _ _ _ ?_, rfl, ?_⟩
  · show (detailsProfile net locationName s).page.requests ++ _ = _
    rw [h1]; simp
  · intro status' profileData hpredict
    show (detailsProfile net locationName s).page.floodRiskProfile = _
    unfold detailsProfile
    rw [hpredict]
    exact updateFloodRiskProfile_fetch locationName profileData s _

/-- C26 on a page whose chart shows another location, with an empty history for Sylhet. -/
theorem C26_no_history_frame_witness :
    (showLocationDetails noHistory "Sylhet" chartShown).riskChart = chartShown.riskChart ∧
      (showLocationDetails noHistory "Sylhet" chartShown).views = [] ∧
      chartShown.riskChart =
        some { labels := ["2024-06-30", "2024-07-01"], data := [some (3 / 10), some (4 / 10)] } :=
  have h := C26_no_history_frame noHistory "Sylhet" chartShown 200 { history := some [] }
    (by simp +decide [detailsProfile, noHistory, offline, updateFloodRiskProfile, snapshot,
      chartShown, initializeMap, Page.initial, Page.fetch, floodRiskItems, floodRiskItem,
      sortedTypes, arraySort, sortInsert, byRiskPercentage, comparePositive, mechanismRisk,
      jsSub, profileTypeName])
    rfl (Or.inr rfl)
  ⟨h.1, h.2.1, rfl⟩

/-! ### Calls of `loadDashboardData` in progress -/

/-- A step keeps the refresh button disabled only while the document has the button and a call
made by `refreshData` is in progress. -/
theorem step_disabled (s t : Scheduler) (event : Event)
    (hs : s.disabled = true → s.refreshBtn = true ∧ 0 < s.refreshing)
    (h : s.step event = some t) :
    t.disabled = true → t.refreshBtn = true ∧ 0 < t.refreshing := by
  have hrefresh : (refreshData s).disabled = true →
      (refreshData s).refreshBtn = true ∧ 0 < (refreshData s).refreshing := by
    intro hd
    refine ⟨?_, Nat.succ_pos _⟩
    show s.refreshBtn = true
    have hd' : (s.refreshBtn || s.disabled) = true := hd
    cases hb : s.refreshBtn
    · rw [hb, Bool.false_or] at hd'
      rw [← hb]
      exact (hs hd').1
    · rfl
  cases event with
  | startup =>
    simp only [Scheduler.step] at h
    split at h
    · exact absurd h (by simp)
    · cases h; exact hs
  | timerTick =>
    simp only [Scheduler.step] at h
    split at h
    · cases h; exact hrefresh
    · exact absurd h (by simp)
  | manualRefresh =>
    simp only [Scheduler.step] at h
    split at h
    · cases h; exact hrefresh
    · exact absurd h (by simp)
  | retry =>
    simp only [Scheduler.step] at h
    split at h
    · cases h; exact hs
    · exact absurd h (by simp)
  | testApi ok =>
    simp only [Scheduler.step] at h
    split at h
    · cases ok
      · cases h; exact hs
      · cases h; exact hs
    · exact absurd h (by simp)
  | refreshSettles failed =>
    simp only [Scheduler.step] at h
    split at h
    · cases h
      intro hd
      have hd' : (!s.refreshBtn && s.disabled) = true := hd
      simp only [Bool.and_eq_true, Bool.not_eq_true'] at hd'
      have hb := (hs hd'.2).1
      rw [hd'.1] at hb
      exact absurd hb (by simp)
    · exact absurd h (by simp)
  | cycleSettles failed =>
    simp only [Scheduler.step] at h
    split at h
    · cases h; exact hs
    · exact absurd h (by simp)
  | errorTimeout =>
    simp only [Scheduler.step] at h
    cases h; exact hs

theorem run_disabled (events : List Event) (s t : Scheduler)
    (hs : s.disabled = true → s.refreshBtn = true ∧ 0 < s.refreshing)
    (h : s.run events = some t) :
    t.disabled = true → t.refreshBtn = true ∧ 0 < t.refreshing := by
  induction events generalizing s with
  | nil =>
    simp only [Scheduler.run, Option.some.injEq] at h
    rw [← h]; exact hs
  | cons event events ih =>
    simp only [Scheduler.run] at h
    cases hstep : s.step event with
    | none => rw [hstep] at h; exact absurd h (by simp)
    | some u =>
      rw [hstep] at h
      exact ih u (step_disabled s u event hs hstep) h

/-- C23: in the event loop of app.js, from the loading of the document on, the refresh button is
disabled only while a call of `loadDashboardData` made by `refreshData` is in progress, and a
manual refresh cannot occur while it is disabled.  The other triggers are not held back: a timer
tick, `Retry` and a served `Test API` each add one call to the calls in progress, whatever their
number. -/
theorem C23_only_the_button_is_held_back (refreshBtn : Bool) (events : List Event)
    (s : Scheduler) (h : (Scheduler.initial refreshBtn).run events = some s) :
    (s.disabled = true → 0 < s.refreshing ∧ s.step .manualRefresh = none) ∧
      (s.loaded = true →
        (s.step .timerTick).map Scheduler.inProgress = some (s.inProgress + 1)) ∧
      (s.connectionError = true →
        (s.step .retry).map Scheduler.inProgress = some (s.inProgress + 1) ∧
          (s.step (.testApi true)).map Scheduler.inProgress = some (s.inProgress + 1)) := by
  have hinv := run_disabled events (Scheduler.initial refreshBtn) s
    (fun hd => absurd hd (by simp [Scheduler.initial])) h
  refine ⟨fun hd => ⟨(hinv hd).2, ?_⟩, fun hl => ?_, fun hc => ⟨?_, ?_⟩⟩
  · simp [Scheduler.step, hd]
  · simp only [Scheduler.step, hl, if_true, Option.map_some', refreshData,
      Scheduler.inProgress]
    congr 1
    omega
  · simp only [Scheduler.step, hc, if_true, Option.map_some', Scheduler.inProgress]
    rfl
  · simp only [Scheduler.step, hc, if_true, Option.map_some', Scheduler.inProgress]
    rfl

/-- C23 after the startup and one timer tick: the button is disabled, and a click on it is not
taken. -/
theorem C23_only_the_button_is_held_back_witness :
    (Scheduler.initial true).run [.startup, .timerTick] =
        some { refreshBtn := true, loaded := true, refreshing := 1, loading := 1,
               disabled := true, connectionError := false } ∧
      (Scheduler.step
        { refreshBtn := true, loaded := true, refreshing := 1, loading := 1,
          disabled := true, connectionError := false } .manualRefresh) = none :=
  ⟨rfl, ((C23_only_the_button_is_held_back true [.startup, .timerTick] _ rfl).1 rfl).2⟩

/-- C23 counterexample: after the startup and one timer tick with no completion between them two
calls of `loadDashboardData` are in progress; and so are two after a failed startup cycle, a
timer tick and a click on `Retry`. -/
theorem C23_counterexample :
    ((Scheduler.initial true).run [.startup, .timerTick]).map Scheduler.inProgress = some 2 ∧
      ((Scheduler.initial true).run [.startup, .cycleSettles true, .timerTick, .retry]).map
        Scheduler.inProgress = some 2 := by
  decide

end FloodApp
